import Mathlib

/-!
# AfdSocketViewer: the socket-protocol decoding layer

A shallow embedding of `Sources/nativesocket.c` (transport, identity check,
shared-context decoder, address decoder) and of the two places of
`Sources/main.c` that gate the decoders on the identity check, of the
printing and orchestration code of `Sources/printsocket.c`, of the name tables
and the address dispatch of `Sources/socket_strings.c`, and of the helpers of
`Sources/string_helpers.c` and `Sources/argument_parsing.c`, followed by
theorems about them.

Conventions of the embedding

* `NTSTATUS` is a signed 32-bit `LONG`; it is an `Int` here and the named
  codes carry their signed value.
* Memory is a list of bytes (`Nat`, read modulo 256).  Storing `n` bytes at
  the start of a region replaces its first `n` bytes; a store longer than the
  region shows as a longer region.
* The kernel is a set of functions of the history so far (`World`), so every
  deterministic kernel and driver behaviour, stateful or not, is an instance.
* Declarations of `ntafd.h` (control codes, structure sizes, the device
  name) are platform ABI and are not part of the sources: they are the
  fields of `AfdAbi` and every theorem holds for all their values.
-/

namespace AfdSocketViewer

/-! ## Status codes and address families (Windows SDK values) -/

abbrev NTSTATUS := Int

/-- The signed value of a 32-bit pattern, as a `LONG`. -/
def toLONG (n : Nat) : Int :=
  if n % 2 ^ 32 < 2 ^ 31 then ((n % 2 ^ 32 : Nat) : Int) else ((n % 2 ^ 32 : Nat) : Int) - 2 ^ 32

def STATUS_SUCCESS : NTSTATUS := 0
def STATUS_PENDING : NTSTATUS := 0x103
def STATUS_BUFFER_OVERFLOW : NTSTATUS := toLONG 0x80000005
def STATUS_NOT_FOUND : NTSTATUS := toLONG 0xC0000225
def STATUS_NOT_SAME_DEVICE : NTSTATUS := toLONG 0xC00000D4
def STATUS_UNKNOWN_REVISION : NTSTATUS := toLONG 0xC0000058
def STATUS_INVALID_PARAMETER : NTSTATUS := toLONG 0xC000000D
def STATUS_INVALID_INFO_CLASS : NTSTATUS := toLONG 0xC0000003
def STATUS_NOT_SUPPORTED : NTSTATUS := toLONG 0xC00000BB

/-- The macro `NT_SUCCESS(Status)`: `((NTSTATUS)(Status)) >= 0`. -/
def NT_SUCCESS (status : NTSTATUS) : Bool := decide (0 ≤ status)

def AF_INET : Nat := 2
def AF_INET6 : Nat := 23
def AF_BTH : Nat := 32
def AF_HYPERV : Nat := 34

/-- The value of `sizeof(SOCKADDR_STORAGE)`. -/
def sizeofSockaddrStorage : Nat := 128

/-! ## Byte-level memory -/

/-- A `USHORT` read little-endian at byte offset `off`. -/
def readUSHORT (mem : List Nat) (off : Nat) : Nat :=
  mem.getD off 0 % 256 + 256 * (mem.getD (off + 1) 0 % 256)

/-- A `ULONG` read little-endian at byte offset `off`. -/
def readULONG (mem : List Nat) (off : Nat) : Nat :=
  readUSHORT mem off + 65536 * readUSHORT mem (off + 2)

/-- A `LONG` read little-endian at byte offset `off`. -/
def readLONG (mem : List Nat) (off : Nat) : Int :=
  toLONG (readULONG mem off)

/-- A `HANDLE` (64 bits) read little-endian at byte offset `off`. -/
def readHANDLE (mem : List Nat) (off : Nat) : Nat :=
  readULONG mem off + 2 ^ 32 * readULONG mem (off + 4)

/-- The four bytes of a `ULONG`, little-endian. -/
def bytesULONG (value : Nat) : List Nat :=
  [value % 256, value / 256 % 256, value / 65536 % 256, value / 16777216 % 256]

/-- The effect of storing a `ULONG` at the start of the region `mem`. -/
def writeULONG (mem : List Nat) (value : Nat) : List Nat :=
  bytesULONG value ++ mem.drop 4

/-- The effect of `RtlZeroMemory(dst, n)` on the region starting at `dst`. -/
def RtlZeroMemory (dst : List Nat) (n : Nat) : List Nat :=
  List.replicate n 0 ++ dst.drop n

/-- The effect of `RtlCopyMemory(dst, src, n)` on the region starting at `dst`. -/
def RtlCopyMemory (dst src : List Nat) (n : Nat) : List Nat :=
  src.take n ++ dst.drop n

/-- The bytes a callee stored at the start of a region. -/
def storeBytes (written region : List Nat) : List Nat :=
  written ++ region.drop written.length

/-! ## The kernel seen from the program -/

/-- One `NtDeviceIoControlFile` request as the driver receives it. -/
structure IoctlRequest where
  handle : Nat
  code : Nat
  input : Option (List Nat)
  inSize : Nat
  output : Option (List Nat)
  outSize : Nat
deriving DecidableEq, Repr

/-- The driver's answer to one request. -/
structure IoctlResponse where
  status : NTSTATUS
  iosbStatus : NTSTATUS
  information : Nat
  written : List Nat
deriving DecidableEq, Repr

/-- What has happened so far: the requests issued (oldest first), the
private events created, waited on and closed, and the number of calls made on
the handle table (`NtDuplicateObject`, `NtQueryInformationFile`, `NtClose` of a
socket handle). -/
structure World where
  trace : List IoctlRequest
  createCalls : Nat
  eventsCreated : Nat
  eventsClosed : Nat
  waits : Nat
  handleCalls : Nat
deriving DecidableEq, Repr

/-- The answer of `NtQueryInformationFile(FileVolumeNameInformation)`. -/
structure VolumeNameResponse where
  status : NTSTATUS
  DeviceNameLength : Nat
  DeviceName : List Nat
deriving DecidableEq, Repr

/-- The system calls the program makes, as functions of the history. -/
structure Kernel where
  NtCreateEvent : World → NTSTATUS
  NtDeviceIoControlFile : World → IoctlRequest → IoctlResponse
  NtQueryInformationFile : World → Nat → Nat → VolumeNameResponse
  NtDuplicateObject : World → Nat → Nat → NTSTATUS × Nat
  RtlUpcaseUnicodeChar : Nat → Nat

/-- The structure `AFD_TL_IO_CONTROL_INFO` of `ntafd.h`, by field.  `Type_` is
its field `Type`; `InputBuffer` holds the bytes the pointer of that name
points to, `none` for `NULL`. -/
structure AFD_TL_IO_CONTROL_INFO where
  Type_ : Nat
  Level : Nat
  IoControlCode : Nat
  EndpointIoctl : Bool
  InputBuffer : Option (List Nat)
  InputBufferLength : Nat
deriving DecidableEq, Repr

/-- Platform constants declared in `ntafd.h`, which is not among the sources:
control codes, structure sizes and field offsets, enumerators, the device
name, and the layout of `AFD_TL_IO_CONTROL_INFO` as the bytes the driver
reads (`encodeTlIoControlInfo`). -/
structure AfdAbi where
  IOCTL_AFD_GET_CONTEXT : Nat
  IOCTL_AFD_GET_ADDRESS : Nat
  IOCTL_AFD_GET_REMOTE_ADDRESS : Nat
  sizeofSockSharedInfo : Nat
  sizeofAfdAddress : Nat
  AFD_DEVICE_NAME : List Nat
  IOCTL_AFD_GET_INFORMATION : Nat
  IOCTL_AFD_TRANSPORT_IOCTL : Nat
  IOCTL_AFD_QUERY_HANDLES : Nat
  sizeofAfdInformation : Nat
  sizeofAfdTlIoControlInfo : Nat
  encodeTlIoControlInfo : AFD_TL_IO_CONTROL_INFO → List Nat
  TlGetSockOptIoControlType : Nat
  TlSocketIoControlType : Nat
  sizeofAfdHandleInfo : Nat
  offsetTdiAddressHandle : Nat
  offsetTdiConnectionHandle : Nat
  AFD_QUERY_ADDRESS_HANDLE : Nat
  AFD_QUERY_CONNECTION_HANDLE : Nat
  AFD_MAX_SEND_SIZE : Nat
  AFD_SENDS_PENDING : Nat
  AFD_MAX_PATH_SEND_SIZE : Nat
  AFD_RECEIVE_WINDOW_SIZE : Nat
  AFD_SEND_WINDOW_SIZE : Nat
  AFD_CONNECT_TIME : Nat
  AFD_GROUP_ID_AND_TYPE : Nat

def World.initial : World := ⟨[], 0, 0, 0, 0, 0⟩

/-- The history after one more call on the handle table. -/
def World.tick (w : World) : World := { w with handleCalls := w.handleCalls + 1 }

/-! ## Transport: `H2AfdDeviceIoControl` (nativesocket.c, lines 90-145) -/

/-- The status a request ends with: the one of the completion record when the
driver answered `STATUS_PENDING`, the immediate one otherwise (lines 131-135). -/
def IoctlResponse.completion (resp : IoctlResponse) : NTSTATUS :=
  if resp.status = STATUS_PENDING then resp.iosbStatus else resp.status

/-- The history at the moment a request reaches the driver: one more event
asked for and created. -/
def World.eventCreated (w : World) : World :=
  { w with createCalls := w.createCalls + 1, eventsCreated := w.eventsCreated + 1 }

/-- What `H2AfdDeviceIoControl` hands back: the status, the output buffer
after the call, the variable `BytesReturned` points to after the call (`none`
for a `NULL` pointer), and the new history. -/
structure IoResult where
  status : NTSTATUS
  output : Option (List Nat)
  bytesReturned : Option Nat
  world : World
deriving DecidableEq, Repr

def H2AfdDeviceIoControl (k : Kernel) (w : World) (SocketHandle IoControlCode : Nat)
    (InBuffer : Option (List Nat)) (InBufferSize : Nat)
    (OutputBuffer : Option (List Nat)) (OutputBufferSize : Nat)
    (BytesReturned : Option Nat) : IoResult :=
  let status := k.NtCreateEvent w
  let w1 : World := { w with createCalls := w.createCalls + 1 }
  if !NT_SUCCESS status then
    ⟨status, OutputBuffer, BytesReturned, w1⟩
  else
    let w2 : World := { w1 with eventsCreated := w1.eventsCreated + 1 }
    let req : IoctlRequest :=
      ⟨SocketHandle, IoControlCode, InBuffer, InBufferSize, OutputBuffer, OutputBufferSize⟩
    let resp := k.NtDeviceIoControlFile w2 req
    let w3 : World := { w2 with trace := w2.trace ++ [req] }
    let pending := decide (resp.status = STATUS_PENDING)
    let w4 : World := if pending then { w3 with waits := w3.waits + 1 } else w3
    let status := if pending then resp.iosbStatus else resp.status
    let w5 : World := { w4 with eventsClosed := w4.eventsClosed + 1 }
    ⟨status, OutputBuffer.map (storeBytes resp.written),
      BytesReturned.map (fun _ => resp.information % 2 ^ 32), w5⟩

/-! ## Address decoder: `H2AfdIsSupportedAddressFamily`, `H2AfdQueryAddress` -/

/-- Lines 344-358. -/
def H2AfdIsSupportedAddressFamily (AddressFamily : Int) : Bool :=
  if AddressFamily = AF_INET then true
  else if AddressFamily = AF_INET6 then true
  else if AddressFamily = AF_BTH then true
  else if AddressFamily = AF_HYPERV then true
  else false

/-- Field offsets of `TDI_ADDRESS_INFO` (tdi.h): `ActivityCount`,
`Address.TAAddressCount`, `Address.Address[0].AddressLength` and
`Address.Address[0].AddressType`. -/
def offsetActivityCount : Nat := 0
def offsetTAAddressCount : Nat := 4
def offsetAddressLength : Nat := 8
def offsetAddressType : Nat := 10

/-- The value of `RTL_FIELD_SIZE(TDI_ADDRESS_INFO, Address.Address[0].AddressType)`. -/
def sizeofAddressType : Nat := 2

/-- The value of `RTL_SIZEOF_THROUGH_FIELD(TDI_ADDRESS_INFO, Address.Address[0].AddressType)`. -/
def sizeofThroughAddressType : Nat := offsetAddressType + sizeofAddressType

/-- Offset of `TdiAddressUnpacked.EmbeddedAddress` in `AFD_ADDRESS`: the
socket address starts at the `AddressType` field (comment at line 417). -/
def offsetEmbeddedAddress : Nat := offsetAddressType

/-- The `size_t` value of `sizeof(buffer) - RTL_SIZEOF_THROUGH_FIELD(...)` at line 412. -/
def remainingCapacity (abi : AfdAbi) : Nat :=
  (abi.sizeofAfdAddress % 2 ^ 64 + 2 ^ 64 - sizeofThroughAddressType) % 2 ^ 64

/-- The field `buffer.TliAddress.ss_family`. -/
def ssFamily (buffer : List Nat) : Nat := readUSHORT buffer 0

/-- The four conditions of the `if` at lines 410-413. -/
def legacyHeaderValid (abi : AfdAbi) (buffer : List Nat) : Bool :=
  decide (0 < readULONG buffer offsetActivityCount) &&
  decide (1 ≤ readLONG buffer offsetTAAddressCount) &&
  decide (readUSHORT buffer offsetAddressLength ≤ remainingCapacity abi) &&
  H2AfdIsSupportedAddressFamily (readUSHORT buffer offsetAddressType)

/-- What `H2AfdQueryAddress` hands back: the status, the caller's `Address`
after the call and the new history. -/
structure AddressResult where
  status : NTSTATUS
  Address : List Nat
  world : World
deriving DecidableEq, Repr

/-- Lines 402-428: the decoding of a buffer the driver returned with a
success status. -/
def H2AfdQueryAddress.decode (abi : AfdAbi) (status : NTSTATUS) (buffer Address : List Nat)
    (w : World) : AddressResult :=
  if H2AfdIsSupportedAddressFamily (ssFamily buffer) then
    ⟨status, RtlCopyMemory Address buffer sizeofSockaddrStorage, w⟩
  else if legacyHeaderValid abi buffer then
    let zeroed := RtlZeroMemory Address sizeofSockaddrStorage
    ⟨status,
      RtlCopyMemory zeroed (buffer.drop offsetEmbeddedAddress)
        (readUSHORT buffer offsetAddressLength + sizeofAddressType), w⟩
  else
    ⟨STATUS_UNKNOWN_REVISION, Address, w⟩

/-- Lines 389-397: the full address query, issued on history `w`. -/
def H2AfdQueryAddress.query (k : Kernel) (abi : AfdAbi) (w : World) (SocketHandle : Nat)
    (Remote : Bool) : IoResult :=
  H2AfdDeviceIoControl k w SocketHandle
    (if Remote then abi.IOCTL_AFD_GET_REMOTE_ADDRESS else abi.IOCTL_AFD_GET_ADDRESS)
    none 0 (some (List.replicate abi.sizeofAfdAddress 0)) abi.sizeofAfdAddress none

/-- Line 384: the zero-size probe of the remote address. -/
def H2AfdQueryAddress.probe (k : Kernel) (abi : AfdAbi) (w : World) (SocketHandle : Nat) :
    IoResult :=
  H2AfdDeviceIoControl k w SocketHandle abi.IOCTL_AFD_GET_REMOTE_ADDRESS none 0 none 0 none

/-- Lines 399-428: what follows the full query. -/
def H2AfdQueryAddress.finish (abi : AfdAbi) (r : IoResult) (Address : List Nat) :
    AddressResult :=
  if !NT_SUCCESS r.status then
    ⟨r.status, Address, r.world⟩
  else
    H2AfdQueryAddress.decode abi r.status (r.output.getD []) Address r.world

/-- Lines 369-429. -/
def H2AfdQueryAddress (k : Kernel) (abi : AfdAbi) (w : World) (SocketHandle : Nat)
    (Remote : Bool) (Address : List Nat) : AddressResult :=
  if Remote then
    let p := H2AfdQueryAddress.probe k abi w SocketHandle
    if NT_SUCCESS p.status then
      ⟨STATUS_NOT_FOUND, Address, p.world⟩
    else
      H2AfdQueryAddress.finish abi (H2AfdQueryAddress.query k abi p.world SocketHandle true) Address
  else
    H2AfdQueryAddress.finish abi (H2AfdQueryAddress.query k abi w SocketHandle false) Address

/-! ## Shared-context decoder: `H2AfdQuerySharedInfo` (lines 155-181) -/

/-- What `H2AfdQuerySharedInfo` hands back: the status, the caller's
`SharedInfo` after the call and the new history. -/
structure SharedInfoResult where
  status : NTSTATUS
  SharedInfo : List Nat
  world : World
deriving DecidableEq, Repr

/-- Lines 155-181.  `returnedSize` is the indeterminate initial value of the
local variable of that name. -/
def H2AfdQuerySharedInfo (k : Kernel) (abi : AfdAbi) (w : World) (SocketHandle : Nat)
    (SharedInfo : List Nat) (returnedSize : Nat) : SharedInfoResult :=
  let r := H2AfdDeviceIoControl k w SocketHandle abi.IOCTL_AFD_GET_CONTEXT none 0
    (some SharedInfo) abi.sizeofSockSharedInfo (some returnedSize)
  let status := r.status
  let returnedSize := r.bytesReturned.getD returnedSize
  let SharedInfo := r.output.getD SharedInfo
  if status = STATUS_BUFFER_OVERFLOW then
    ⟨STATUS_SUCCESS, SharedInfo, r.world⟩
  else if !NT_SUCCESS status then
    ⟨status, SharedInfo, r.world⟩
  else
    ⟨if returnedSize < abi.sizeofSockSharedInfo then STATUS_NOT_FOUND else status,
      SharedInfo, r.world⟩

/-! ## Identity check: `H2AfdIsSocketHandle` (lines 38-75) -/

/-- A counted UTF-16 string; `Length` and `MaximumLength` are in bytes. -/
structure UNICODE_STRING where
  Length : Nat
  MaximumLength : Nat
  Buffer : List Nat
deriving DecidableEq, Repr

/-- The value of `sizeof(WCHAR)`, which is also `sizeof(UNICODE_NULL)`. -/
def sizeofWCHAR : Nat := 2

/-- The routine `RtlEqualUnicodeString` of ntdll: the byte lengths agree and so
does every character, after upcasing when `CaseInSensitive`. -/
def RtlEqualUnicodeString (upcaseChar : Nat → Nat) (String1 String2 : UNICODE_STRING)
    (CaseInSensitive : Bool) : Bool :=
  decide (String1.Length = String2.Length) &&
  (List.range (String1.Length / sizeofWCHAR)).all (fun i =>
    let c1 := String1.Buffer.getD i 0
    let c2 := String2.Buffer.getD i 0
    if CaseInSensitive then decide (upcaseChar c1 = upcaseChar c2) else decide (c1 = c2))

/-- The static string `RTL_CONSTANT_STRING(AFD_DEVICE_NAME)`, lines 24 and 42. -/
def afdDeviceName (abi : AfdAbi) : UNICODE_STRING :=
  ⟨(sizeofWCHAR * abi.AFD_DEVICE_NAME.length) % 65536,
    (sizeofWCHAR * abi.AFD_DEVICE_NAME.length + sizeofWCHAR) % 65536,
    abi.AFD_DEVICE_NAME ++ [0]⟩

/-- The value of `sizeof(FILE_VOLUME_NAME_INFORMATION)`: a `ULONG` length, one
`WCHAR` and padding to the alignment of 4. -/
def sizeofFileVolumeNameInformation : Nat := 8

/-- Offset of `DeviceName` in `FILE_VOLUME_NAME_INFORMATION`. -/
def offsetDeviceName : Nat := 4

/-- The value of `sizeof(Buffer)` for the union at lines 46-49: the size of `Raw`,
rounded up to the alignment of 4 of its other member. -/
def sizeofProbeBuffer (abi : AfdAbi) : Nat :=
  (sizeofFileVolumeNameInformation + (sizeofWCHAR * abi.AFD_DEVICE_NAME.length + sizeofWCHAR)
    - sizeofWCHAR + 3) / 4 * 4

/-- The `WCHAR`s of `Buffer.VolumeName.DeviceName` after the query: the zeroed
buffer with the characters the kernel stored. -/
def probeDeviceName (abi : AfdAbi) (resp : VolumeNameResponse) : List Nat :=
  storeBytes resp.DeviceName
    (List.replicate ((sizeofProbeBuffer abi - offsetDeviceName) / sizeofWCHAR) 0)

/-- Lines 38-75: the status, and the history after the query. -/
def H2AfdIsSocketHandle (k : Kernel) (abi : AfdAbi) (w : World) (Handle : Nat) :
    NTSTATUS × World :=
  let resp := k.NtQueryInformationFile w Handle (sizeofProbeBuffer abi)
  let w1 := w.tick
  let status := resp.status
  if status = STATUS_BUFFER_OVERFLOW then
    (STATUS_NOT_SAME_DEVICE, w1)
  else if !NT_SUCCESS status then
    (status, w1)
  else
    let volumeName : UNICODE_STRING :=
      ⟨resp.DeviceNameLength % 2 ^ 32 % 65536, resp.DeviceNameLength % 2 ^ 32 % 65536,
        probeDeviceName abi resp⟩
    if RtlEqualUnicodeString k.RtlUpcaseUnicodeChar volumeName (afdDeviceName abi) true then
      (STATUS_SUCCESS, w1)
    else
      (STATUS_NOT_SAME_DEVICE, w1)

/-! ## The caller: the two uses of the identity check in `wmain` (main.c) -/

/-- The two socket decoders of printsocket.c as `wmain` sees them: what each
does to the history. -/
structure Decoders where
  H2AfdQueryPrintDetailsSocket : World → Nat → Bool → World
  H2AfdQueryPrintSummarySocket : World → Nat → World

/-- The calls of `wmain` that are recorded. -/
inductive Call where
  | wprintf_s (format : String) (args : List Nat)
  | H2PrintStatusWithDescription (status : NTSTATUS)
  | H2AfdQueryPrintDetailsSocket (SocketHandle : Nat) (VerboseMode : Bool)
  | H2AfdQueryPrintSummarySocket (SocketHandle : Nat)
  | NtClose (Handle : Nat)
deriving DecidableEq, Repr

/-- Whether a recorded call is one of the two socket decoders. -/
def Call.isDecoder : Call → Bool
  | .H2AfdQueryPrintDetailsSocket _ _ => true
  | .H2AfdQueryPrintSummarySocket _ => true
  | _ => false

/-- One entry of the system handle snapshot. -/
structure HandleEntry where
  UniqueProcessId : Nat
  ObjectTypeIndex : Nat
  HandleValue : Nat
deriving DecidableEq, Repr

/-- The variables of `wmain` that the handle loop changes, the calls made and
the history. -/
structure ScanState where
  status : NTSTATUS
  handlesFound : Nat
  socketHandle : Nat
  calls : List Call
  world : World
deriving DecidableEq, Repr

/-- Scan mode, main.c lines 251-283 for a selected entry: the duplication, the
identity check and the summary.  The result is the new `status`, the new
`socketHandle`, the new `handlesFound`, the calls made and the history. -/
def wmain.checkHandle (k : Kernel) (abi : AfdAbi) (d : Decoders) (processHandle : Nat)
    (st : ScanState) (entry : HandleEntry) : NTSTATUS × Nat × Nat × List Call × World :=
  let dup := k.NtDuplicateObject st.world processHandle entry.HandleValue
  let w1 := st.world.tick
  if NT_SUCCESS dup.1 then
    let socketHandle := dup.2
    let r := H2AfdIsSocketHandle k abi w1 socketHandle
    let status := r.1
    if NT_SUCCESS status then
      (status, socketHandle, st.handlesFound + 1,
        [.wprintf_s "[0x%0.4zX] " [entry.HandleValue],
         .H2AfdQueryPrintSummarySocket socketHandle,
         .wprintf_s "\r\n" []],
        d.H2AfdQueryPrintSummarySocket r.2 socketHandle)
    else if status = STATUS_NOT_SAME_DEVICE then
      (STATUS_SUCCESS, socketHandle, st.handlesFound, [], r.2)
    else
      (status, socketHandle, st.handlesFound, [], r.2)
  else
    (dup.1, st.socketHandle, st.handlesFound, [], w1)

/-- Scan mode, main.c lines 246-302: the body of the handle loop for one entry. -/
def wmain.scanHandle (k : Kernel) (abi : AfdAbi) (d : Decoders)
    (processHandle pid fileHandleTypeIndex : Nat)
    (Verbose : Bool) (st : ScanState) (entry : HandleEntry) : ScanState :=
  if entry.UniqueProcessId = pid ∧ entry.ObjectTypeIndex = fileHandleTypeIndex then
    let checked := wmain.checkHandle k abi d processHandle st entry
    let status := checked.1
    let socketHandle := checked.2.1
    let failure : List Call :=
      if !NT_SUCCESS status && Verbose then
        [.wprintf_s "[0x%0.4zX] <Unable to %s>: " [entry.HandleValue],
         .H2PrintStatusWithDescription status,
         .wprintf_s "\r\n" []]
      else []
    let closing : List Call := if socketHandle ≠ 0 then [.NtClose socketHandle] else []
    let w : World := if socketHandle ≠ 0 then checked.2.2.2.2.tick else checked.2.2.2.2
    ⟨status, checked.2.2.1, 0, st.calls ++ checked.2.2.2.1 ++ failure ++ closing, w⟩
  else
    st

/-- Scan mode, main.c lines 244-303: the handle loop over the snapshot. -/
def wmain.scanHandles (k : Kernel) (abi : AfdAbi) (d : Decoders)
    (processHandle pid fileHandleTypeIndex : Nat)
    (Verbose : Bool) (st : ScanState) (Handles : List HandleEntry) : ScanState :=
  Handles.foldl (wmain.scanHandle k abi d processHandle pid fileHandleTypeIndex Verbose) st

/-- The history on which the full address query is issued: after the probe
when `Remote`, the initial one otherwise. -/
def H2AfdQueryAddress.worldAtQuery (k : Kernel) (abi : AfdAbi) (w : World) (SocketHandle : Nat)
    (Remote : Bool) : World :=
  if Remote then (H2AfdQueryAddress.probe k abi w SocketHandle).world else w

/-! ## Simple-info decoder: `H2AfdQuerySimpleInfo` (lines 192-209) -/

/-- What a decoder with one caller buffer hands back: the status, the buffer
after the call and the new history. -/
structure BufferResult where
  status : NTSTATUS
  buffer : List Nat
  world : World
deriving DecidableEq, Repr

/-- Lines 192-209.  `Information` is the caller's `AFD_INFORMATION`;
`InformationType` is its first member. -/
def H2AfdQuerySimpleInfo (k : Kernel) (abi : AfdAbi) (w : World) (SocketHandle : Nat)
    (InformationType : Nat) (Information : List Nat) : BufferResult :=
  let Information := writeULONG Information InformationType
  let r := H2AfdDeviceIoControl k w SocketHandle abi.IOCTL_AFD_GET_INFORMATION
    (some Information) abi.sizeofAfdInformation
    (some Information) abi.sizeofAfdInformation none
  ⟨r.status, r.output.getD Information, r.world⟩

/-! ## Option transport: `H2AfdQueryOption`, `H2AfdQueryTcpInfo`, `H2AfdQueryTdiHandle` -/

/-- The value of `sizeof(ULONG)`, which is also `sizeof(LONG)`. -/
def sizeofULONG : Nat := 4

/-- Lines 221-244.  `OptionValue` is the caller's `ULONG`, as bytes. -/
def H2AfdQueryOption (k : Kernel) (abi : AfdAbi) (w : World) (SocketHandle : Nat)
    (Level OptionName : Nat) (OptionValue : List Nat) : BufferResult :=
  let controlInfo : AFD_TL_IO_CONTROL_INFO :=
    ⟨abi.TlGetSockOptIoControlType, Level, OptionName, true, none, 0⟩
  let OptionValue := writeULONG OptionValue 0
  let r := H2AfdDeviceIoControl k w SocketHandle abi.IOCTL_AFD_TRANSPORT_IOCTL
    (some (abi.encodeTlIoControlInfo controlInfo)) abi.sizeofAfdTlIoControlInfo
    (some OptionValue) sizeofULONG none
  ⟨r.status, r.output.getD OptionValue, r.world⟩

/-- The values of `sizeof(TCP_INFO_v0)`, `sizeof(TCP_INFO_v1)` and
`sizeof(TCP_INFO_v2)` (mstcpip.h). -/
def sizeofTcpInfoV0 : Nat := 88
def sizeofTcpInfoV1 : Nat := 136
def sizeofTcpInfoV2 : Nat := 152

/-- The control code `SIO_TCP_INFO` (mstcpip.h). -/
def SIO_TCP_INFO : Nat := 0xD8000027

/-- The table `tcpInfoSize` of lines 267-272. -/
def tcpInfoSize : List Nat := [sizeofTcpInfoV0, sizeofTcpInfoV1, sizeofTcpInfoV2]

/-- The request `H2AfdQueryTcpInfo` makes for a version, lines 274-278 and
282-290: the control structure it sends. -/
def H2AfdQueryTcpInfo.controlInfo (abi : AfdAbi) (TcpInfoVersion : Nat) :
    AFD_TL_IO_CONTROL_INFO :=
  ⟨abi.TlSocketIoControlType, 0, SIO_TCP_INFO, true, some (bytesULONG TcpInfoVersion),
    sizeofULONG⟩

/-- Lines 255-293.  `TcpInfo` is the caller's `TCP_INFO_v2`, as bytes. -/
def H2AfdQueryTcpInfo (k : Kernel) (abi : AfdAbi) (w : World) (SocketHandle : Nat)
    (TcpInfoVersion : Nat) (TcpInfo : List Nat) : BufferResult :=
  if TcpInfoVersion > 2 then
    ⟨STATUS_INVALID_PARAMETER, TcpInfo, w⟩
  else
    let controlInfo := H2AfdQueryTcpInfo.controlInfo abi TcpInfoVersion
    let TcpInfo := RtlZeroMemory TcpInfo sizeofTcpInfoV2
    let r := H2AfdDeviceIoControl k w SocketHandle abi.IOCTL_AFD_TRANSPORT_IOCTL
      (some (abi.encodeTlIoControlInfo controlInfo)) abi.sizeofAfdTlIoControlInfo
      (some TcpInfo) (tcpInfoSize.getD TcpInfoVersion 0) none
    ⟨r.status, r.output.getD TcpInfo, r.world⟩

/-- The request `H2AfdQueryTcpInfo` hands to `H2AfdDeviceIoControl` for a
version, lines 282-290: the arguments of the call, with the zeroed buffer as
the output buffer. -/
def H2AfdQueryTcpInfo.request (abi : AfdAbi) (SocketHandle TcpInfoVersion : Nat)
    (TcpInfo : List Nat) : IoctlRequest :=
  ⟨SocketHandle, abi.IOCTL_AFD_TRANSPORT_IOCTL,
    some (abi.encodeTlIoControlInfo (H2AfdQueryTcpInfo.controlInfo abi TcpInfoVersion)),
    abi.sizeofAfdTlIoControlInfo, some (RtlZeroMemory TcpInfo sizeofTcpInfoV2),
    tcpInfoSize.getD TcpInfoVersion 0⟩

/-- The values of `INVALID_HANDLE_VALUE` and of the `NULL` handle. -/
def INVALID_HANDLE_VALUE : Nat := 2 ^ 64 - 1
def NULL : Nat := 0

/-- What `H2AfdQueryTdiHandle` hands back: the status, the caller's
`*TdiHandle` after the call and the new history. -/
structure TdiHandleResult where
  status : NTSTATUS
  TdiHandle : Nat
  world : World
deriving DecidableEq, Repr

/-- Lines 311 and 316-324: the request for the handles, on the zeroed
`AFD_HANDLE_INFO`. -/
def H2AfdQueryTdiHandle.query (k : Kernel) (abi : AfdAbi) (w : World) (SocketHandle : Nat)
    (QueryMode : Nat) : IoResult :=
  H2AfdDeviceIoControl k w SocketHandle abi.IOCTL_AFD_QUERY_HANDLES
    (some (bytesULONG QueryMode)) sizeofULONG
    (some (List.replicate abi.sizeofAfdHandleInfo 0)) abi.sizeofAfdHandleInfo none

/-- Lines 304-335.  `TdiHandle` is the prior content of `*TdiHandle`. -/
def H2AfdQueryTdiHandle (k : Kernel) (abi : AfdAbi) (w : World) (SocketHandle : Nat)
    (QueryMode : Nat) (TdiHandle : Nat) : TdiHandleResult :=
  if QueryMode ≠ abi.AFD_QUERY_ADDRESS_HANDLE ∧ QueryMode ≠ abi.AFD_QUERY_CONNECTION_HANDLE then
    ⟨STATUS_INVALID_INFO_CLASS, TdiHandle, w⟩
  else
    let r := H2AfdQueryTdiHandle.query k abi w SocketHandle QueryMode
    let handles := r.output.getD []
    if NT_SUCCESS r.status then
      if QueryMode = abi.AFD_QUERY_ADDRESS_HANDLE then
        ⟨r.status, readHANDLE handles abi.offsetTdiAddressHandle, r.world⟩
      else
        ⟨r.status, readHANDLE handles abi.offsetTdiConnectionHandle, r.world⟩
    else
      ⟨r.status, TdiHandle, r.world⟩

/-! ## Printing (printsocket.c) -/

/-- An argument of a `wprintf_s` call.  `H2AfdGetPropertyName` stands for the
string that function returns for the property under the print mode (the name
table of lines 305-555 is not expanded). -/
inductive PrintArg where
  | H2AfdGetPropertyName (Property : Nat) (H2RawPrintMode : Bool)
  | Status (Status : NTSTATUS)
  | Number (Value : Nat)
  | UnicodeString (Value : UNICODE_STRING)
deriving DecidableEq, Repr

/-- What the printing code does, in order: the `wprintf_s` calls, the calls
of the value printers (not expanded) and the releases. -/
inductive Print where
  | wprintf_s (format : String) (args : List PrintArg)
  | H2AfdPrintPropertyTcpState (Property Value : Nat)
  | H2AfdPrintPropertyBytes (Property Value : Nat)
  | H2AfdPrintPropertyTime (Property Value Units : Nat) (PrintAsTimeAgo : Bool)
  | H2AfdPrintPropertyBoolean (Property Value : Nat)
  | H2AfdPrintPropertyDecimal (Property Value : Nat)
  | RtlFreeUnicodeString (UnicodeString : UNICODE_STRING)
  | NtClose (Handle : Nat)
deriving DecidableEq, Repr

/-- Whether a print is the call of a value printer. -/
def Print.isValue : Print → Bool
  | .H2AfdPrintPropertyTcpState _ _ => true
  | .H2AfdPrintPropertyBytes _ _ => true
  | .H2AfdPrintPropertyTime _ _ _ _ => true
  | .H2AfdPrintPropertyBoolean _ _ => true
  | .H2AfdPrintPropertyDecimal _ _ => true
  | _ => false

/-- The property a value printer is called for. -/
def Print.property : Print → Option Nat
  | .H2AfdPrintPropertyTcpState p _ => some p
  | .H2AfdPrintPropertyBytes p _ => some p
  | .H2AfdPrintPropertyTime p _ _ _ => some p
  | .H2AfdPrintPropertyBoolean p _ => some p
  | .H2AfdPrintPropertyDecimal p _ => some p
  | _ => none

/-- The property a printed line is about: the one a value printer is called
for, or the one whose name is the first argument of a `wprintf_s`. -/
def Print.reported : Print → Option Nat
  | .wprintf_s _ (.H2AfdGetPropertyName Property _ :: _) => some Property
  | line => line.property

/-- The enumerators of `H2_TIME_UNIT` (lines 646-651). -/
def H2_TIME_UNIT_US : Nat := 0
def H2_TIME_UNIT_MS : Nat := 1
def H2_TIME_UNIT_SEC : Nat := 2

/-- The enumerators of `H2_AFD_PROPERTY` (lines 24-287) used below, by their
position in the enumeration. -/
def H2_AFD_PROPERTY_TDI_ADDRESS_DEVICE : Nat := 88
def H2_AFD_PROPERTY_TDI_CONNECTION_DEVICE : Nat := 89
def H2_AFD_PROPERTY_TCP_INFO_STATE : Nat := 197
def H2_AFD_PROPERTY_TCP_INFO_MSS : Nat := 198
def H2_AFD_PROPERTY_TCP_INFO_CONNECTION_TIME : Nat := 199
def H2_AFD_PROPERTY_TCP_INFO_TIMESTAMPS_ENABLED : Nat := 200
def H2_AFD_PROPERTY_TCP_INFO_RTT : Nat := 201
def H2_AFD_PROPERTY_TCP_INFO_MINRTT : Nat := 202
def H2_AFD_PROPERTY_TCP_INFO_BYTES_IN_FLIGHT : Nat := 203
def H2_AFD_PROPERTY_TCP_INFO_CONGESTION_WINDOW : Nat := 204
def H2_AFD_PROPERTY_TCP_INFO_SEND_WINDOW : Nat := 205
def H2_AFD_PROPERTY_TCP_INFO_RECEIVE_WINDOW : Nat := 206
def H2_AFD_PROPERTY_TCP_INFO_RECEIVE_BUFFER : Nat := 207
def H2_AFD_PROPERTY_TCP_INFO_BYTES_OUT : Nat := 208
def H2_AFD_PROPERTY_TCP_INFO_BYTES_IN : Nat := 209
def H2_AFD_PROPERTY_TCP_INFO_BYTES_REORDERED : Nat := 210
def H2_AFD_PROPERTY_TCP_INFO_BYTES_RETRANSMITTED : Nat := 211
def H2_AFD_PROPERTY_TCP_INFO_FAST_RETRANSMIT : Nat := 212
def H2_AFD_PROPERTY_TCP_INFO_DUPLICATE_ACKS_IN : Nat := 213
def H2_AFD_PROPERTY_TCP_INFO_TIMEOUT_EPISODES : Nat := 214
def H2_AFD_PROPERTY_TCP_INFO_SYN_RETRANSMITS : Nat := 215
def H2_AFD_PROPERTY_TCP_INFO_RECEIVER_LIMITED_TRANSITIONS : Nat := 216
def H2_AFD_PROPERTY_TCP_INFO_RECEIVER_LIMITED_TIME : Nat := 217
def H2_AFD_PROPERTY_TCP_INFO_RECEIVER_LIMITED_BYTES : Nat := 218
def H2_AFD_PROPERTY_TCP_INFO_CONGESTION_LIMITED_TRANSITIONS : Nat := 219
def H2_AFD_PROPERTY_TCP_INFO_CONGESTION_LIMITED_TIME : Nat := 220
def H2_AFD_PROPERTY_TCP_INFO_CONGESTION_LIMITED_BYTES : Nat := 221
def H2_AFD_PROPERTY_TCP_INFO_SENDER_LIMITED_TRANSITIONS : Nat := 222
def H2_AFD_PROPERTY_TCP_INFO_SENDER_LIMITED_TIME : Nat := 223
def H2_AFD_PROPERTY_TCP_INFO_SENDER_LIMITED_BYTES : Nat := 224
def H2_AFD_PROPERTY_TCP_INFO_OUT_OF_ORDER_PACKETS : Nat := 225
def H2_AFD_PROPERTY_TCP_INFO_ECN_NEGOTIATED : Nat := 226
def H2_AFD_PROPERTY_TCP_INFO_ECE_ACKS_IN : Nat := 227
def H2_AFD_PROPERTY_TCP_INFO_PTO_EPISODES : Nat := 228

/-- Lines 738-747: `H2AfdPrintPropertyStatus` under the print mode. -/
def H2AfdPrintPropertyStatus (H2RawPrintMode : Bool) (Property : Nat) (Status : NTSTATUS) :
    List Print :=
  if H2RawPrintMode then
    [.wprintf_s "%s: (query failed: 0x%0.8X)\r\n"
      [.H2AfdGetPropertyName Property H2RawPrintMode, .Status Status]]
  else
    [.wprintf_s "%s: \r\n" [.H2AfdGetPropertyName Property H2RawPrintMode]]

/-- The loop `for (i = First; i <= Last; i++) H2AfdPrintPropertyStatus(i, Status)`
of lines 2052, 2072 and 2087. -/
def H2AfdPrintPropertyStatus.range (H2RawPrintMode : Bool) (First Last : Nat)
    (Status : NTSTATUS) : List Print :=
  ((List.range (Last + 1 - First)).map (fun i => First + i)).flatMap
    (fun i => H2AfdPrintPropertyStatus H2RawPrintMode i Status)

/-! ## Version-negotiated statistics: `H2AfdQueryPrintPropertiesTcpInfo` (lines 1989-2092) -/

/-- A `UCHAR` or `BOOLEAN` read at byte offset `off`. -/
def readUCHAR (mem : List Nat) (off : Nat) : Nat := mem.getD off 0 % 256

/-- A `ULONG64` read little-endian at byte offset `off`. -/
def readULONG64 (mem : List Nat) (off : Nat) : Nat :=
  readULONG mem off + 2 ^ 32 * readULONG mem (off + 4)

/-- The fields of `TCP_INFO_v2` (mstcpip.h), read from the bytes of the
structure: those of `TCP_INFO_v0` up to offset 88, those added by
`TCP_INFO_v1` up to 136, those added by `TCP_INFO_v2` up to 152. -/
def TCP_INFO_v2.State (tcpInfo : List Nat) : Nat := readULONG tcpInfo 0
def TCP_INFO_v2.Mss (tcpInfo : List Nat) : Nat := readULONG tcpInfo 4
def TCP_INFO_v2.ConnectionTimeMs (tcpInfo : List Nat) : Nat := readULONG64 tcpInfo 8
def TCP_INFO_v2.TimestampsEnabled (tcpInfo : List Nat) : Nat := readUCHAR tcpInfo 16
def TCP_INFO_v2.RttUs (tcpInfo : List Nat) : Nat := readULONG tcpInfo 20
def TCP_INFO_v2.MinRttUs (tcpInfo : List Nat) : Nat := readULONG tcpInfo 24
def TCP_INFO_v2.BytesInFlight (tcpInfo : List Nat) : Nat := readULONG tcpInfo 28
def TCP_INFO_v2.Cwnd (tcpInfo : List Nat) : Nat := readULONG tcpInfo 32
def TCP_INFO_v2.SndWnd (tcpInfo : List Nat) : Nat := readULONG tcpInfo 36
def TCP_INFO_v2.RcvWnd (tcpInfo : List Nat) : Nat := readULONG tcpInfo 40
def TCP_INFO_v2.RcvBuf (tcpInfo : List Nat) : Nat := readULONG tcpInfo 44
def TCP_INFO_v2.BytesOut (tcpInfo : List Nat) : Nat := readULONG64 tcpInfo 48
def TCP_INFO_v2.BytesIn (tcpInfo : List Nat) : Nat := readULONG64 tcpInfo 56
def TCP_INFO_v2.BytesReordered (tcpInfo : List Nat) : Nat := readULONG tcpInfo 64
def TCP_INFO_v2.BytesRetrans (tcpInfo : List Nat) : Nat := readULONG tcpInfo 68
def TCP_INFO_v2.FastRetrans (tcpInfo : List Nat) : Nat := readULONG tcpInfo 72
def TCP_INFO_v2.DupAcksIn (tcpInfo : List Nat) : Nat := readULONG tcpInfo 76
def TCP_INFO_v2.TimeoutEpisodes (tcpInfo : List Nat) : Nat := readULONG tcpInfo 80
def TCP_INFO_v2.SynRetrans (tcpInfo : List Nat) : Nat := readUCHAR tcpInfo 84
def TCP_INFO_v2.SndLimTransRwin (tcpInfo : List Nat) : Nat := readULONG tcpInfo 88
def TCP_INFO_v2.SndLimTimeRwin (tcpInfo : List Nat) : Nat := readULONG tcpInfo 92
def TCP_INFO_v2.SndLimBytesRwin (tcpInfo : List Nat) : Nat := readULONG64 tcpInfo 96
def TCP_INFO_v2.SndLimTransCwnd (tcpInfo : List Nat) : Nat := readULONG tcpInfo 104
def TCP_INFO_v2.SndLimTimeCwnd (tcpInfo : List Nat) : Nat := readULONG tcpInfo 108
def TCP_INFO_v2.SndLimBytesCwnd (tcpInfo : List Nat) : Nat := readULONG64 tcpInfo 112
def TCP_INFO_v2.SndLimTransSnd (tcpInfo : List Nat) : Nat := readULONG tcpInfo 120
def TCP_INFO_v2.SndLimTimeSnd (tcpInfo : List Nat) : Nat := readULONG tcpInfo 124
def TCP_INFO_v2.SndLimBytesSnd (tcpInfo : List Nat) : Nat := readULONG64 tcpInfo 128
def TCP_INFO_v2.OutOfOrderPktsIn (tcpInfo : List Nat) : Nat := readULONG tcpInfo 136
def TCP_INFO_v2.EcnNegotiated (tcpInfo : List Nat) : Nat := readUCHAR tcpInfo 140
def TCP_INFO_v2.EceAcksIn (tcpInfo : List Nat) : Nat := readULONG tcpInfo 144
def TCP_INFO_v2.PtoEpisodes (tcpInfo : List Nat) : Nat := readULONG tcpInfo 148

/-- Lines 2029-2047: the value lines of the version 0 fields. -/
def H2AfdQueryPrintPropertiesTcpInfo.values0 (tcpInfo : List Nat) : List Print :=
  [.H2AfdPrintPropertyTcpState H2_AFD_PROPERTY_TCP_INFO_STATE (TCP_INFO_v2.State tcpInfo),
   .H2AfdPrintPropertyBytes H2_AFD_PROPERTY_TCP_INFO_MSS (TCP_INFO_v2.Mss tcpInfo),
   .H2AfdPrintPropertyTime H2_AFD_PROPERTY_TCP_INFO_CONNECTION_TIME (TCP_INFO_v2.ConnectionTimeMs tcpInfo) H2_TIME_UNIT_MS true,
   .H2AfdPrintPropertyBoolean H2_AFD_PROPERTY_TCP_INFO_TIMESTAMPS_ENABLED (TCP_INFO_v2.TimestampsEnabled tcpInfo),
   .H2AfdPrintPropertyTime H2_AFD_PROPERTY_TCP_INFO_RTT (TCP_INFO_v2.RttUs tcpInfo) H2_TIME_UNIT_US false,
   .H2AfdPrintPropertyTime H2_AFD_PROPERTY_TCP_INFO_MINRTT (TCP_INFO_v2.MinRttUs tcpInfo) H2_TIME_UNIT_US false,
   .H2AfdPrintPropertyBytes H2_AFD_PROPERTY_TCP_INFO_BYTES_IN_FLIGHT (TCP_INFO_v2.BytesInFlight tcpInfo),
   .H2AfdPrintPropertyBytes H2_AFD_PROPERTY_TCP_INFO_CONGESTION_WINDOW (TCP_INFO_v2.Cwnd tcpInfo),
   .H2AfdPrintPropertyBytes H2_AFD_PROPERTY_TCP_INFO_SEND_WINDOW (TCP_INFO_v2.SndWnd tcpInfo),
   .H2AfdPrintPropertyBytes H2_AFD_PROPERTY_TCP_INFO_RECEIVE_WINDOW (TCP_INFO_v2.RcvWnd tcpInfo),
   .H2AfdPrintPropertyBytes H2_AFD_PROPERTY_TCP_INFO_RECEIVE_BUFFER (TCP_INFO_v2.RcvBuf tcpInfo),
   .H2AfdPrintPropertyBytes H2_AFD_PROPERTY_TCP_INFO_BYTES_OUT (TCP_INFO_v2.BytesOut tcpInfo),
   .H2AfdPrintPropertyBytes H2_AFD_PROPERTY_TCP_INFO_BYTES_IN (TCP_INFO_v2.BytesIn tcpInfo),
   .H2AfdPrintPropertyBytes H2_AFD_PROPERTY_TCP_INFO_BYTES_REORDERED (TCP_INFO_v2.BytesReordered tcpInfo),
   .H2AfdPrintPropertyBytes H2_AFD_PROPERTY_TCP_INFO_BYTES_RETRANSMITTED (TCP_INFO_v2.BytesRetrans tcpInfo),
   .H2AfdPrintPropertyDecimal H2_AFD_PROPERTY_TCP_INFO_FAST_RETRANSMIT (TCP_INFO_v2.FastRetrans tcpInfo),
   .H2AfdPrintPropertyDecimal H2_AFD_PROPERTY_TCP_INFO_DUPLICATE_ACKS_IN (TCP_INFO_v2.DupAcksIn tcpInfo),
   .H2AfdPrintPropertyDecimal H2_AFD_PROPERTY_TCP_INFO_TIMEOUT_EPISODES (TCP_INFO_v2.TimeoutEpisodes tcpInfo),
   .H2AfdPrintPropertyDecimal H2_AFD_PROPERTY_TCP_INFO_SYN_RETRANSMITS (TCP_INFO_v2.SynRetrans tcpInfo)]

/-- Lines 2059-2067: the value lines of the fields added by version 1. -/
def H2AfdQueryPrintPropertiesTcpInfo.values1 (tcpInfo : List Nat) : List Print :=
  [.H2AfdPrintPropertyDecimal H2_AFD_PROPERTY_TCP_INFO_RECEIVER_LIMITED_TRANSITIONS (TCP_INFO_v2.SndLimTransRwin tcpInfo),
   .H2AfdPrintPropertyTime H2_AFD_PROPERTY_TCP_INFO_RECEIVER_LIMITED_TIME (TCP_INFO_v2.SndLimTimeRwin tcpInfo) H2_TIME_UNIT_MS false,
   .H2AfdPrintPropertyBytes H2_AFD_PROPERTY_TCP_INFO_RECEIVER_LIMITED_BYTES (TCP_INFO_v2.SndLimBytesRwin tcpInfo),
   .H2AfdPrintPropertyDecimal H2_AFD_PROPERTY_TCP_INFO_CONGESTION_LIMITED_TRANSITIONS (TCP_INFO_v2.SndLimTransCwnd tcpInfo),
   .H2AfdPrintPropertyTime H2_AFD_PROPERTY_TCP_INFO_CONGESTION_LIMITED_TIME (TCP_INFO_v2.SndLimTimeCwnd tcpInfo) H2_TIME_UNIT_MS false,
   .H2AfdPrintPropertyBytes H2_AFD_PROPERTY_TCP_INFO_CONGESTION_LIMITED_BYTES (TCP_INFO_v2.SndLimBytesCwnd tcpInfo),
   .H2AfdPrintPropertyDecimal H2_AFD_PROPERTY_TCP_INFO_SENDER_LIMITED_TRANSITIONS (TCP_INFO_v2.SndLimTransSnd tcpInfo),
   .H2AfdPrintPropertyTime H2_AFD_PROPERTY_TCP_INFO_SENDER_LIMITED_TIME (TCP_INFO_v2.SndLimTimeSnd tcpInfo) H2_TIME_UNIT_MS false,
   .H2AfdPrintPropertyBytes H2_AFD_PROPERTY_TCP_INFO_SENDER_LIMITED_BYTES (TCP_INFO_v2.SndLimBytesSnd tcpInfo)]

/-- Lines 2079-2082: the value lines of the fields added by version 2. -/
def H2AfdQueryPrintPropertiesTcpInfo.values2 (tcpInfo : List Nat) : List Print :=
  [.H2AfdPrintPropertyDecimal H2_AFD_PROPERTY_TCP_INFO_OUT_OF_ORDER_PACKETS (TCP_INFO_v2.OutOfOrderPktsIn tcpInfo),
   .H2AfdPrintPropertyBoolean H2_AFD_PROPERTY_TCP_INFO_ECN_NEGOTIATED (TCP_INFO_v2.EcnNegotiated tcpInfo),
   .H2AfdPrintPropertyDecimal H2_AFD_PROPERTY_TCP_INFO_ECE_ACKS_IN (TCP_INFO_v2.EceAcksIn tcpInfo),
   .H2AfdPrintPropertyDecimal H2_AFD_PROPERTY_TCP_INFO_PTO_EPISODES (TCP_INFO_v2.PtoEpisodes tcpInfo)]

/-- What the negotiation leaves: the array `status`, the buffer `tcpInfo` and
the history. -/
structure TcpInfoNegotiation where
  status0 : NTSTATUS
  status1 : NTSTATUS
  status2 : NTSTATUS
  tcpInfo : List Nat
  world : World
deriving DecidableEq, Repr

/-- Lines 2001-2024: the negotiation.  `tcpInfo` is the indeterminate initial
content of the local variable of that name. -/
def H2AfdQueryPrintPropertiesTcpInfo.negotiate (k : Kernel) (abi : AfdAbi) (w : World)
    (SocketHandle : Nat) (tcpInfo : List Nat) : TcpInfoNegotiation :=
  let r2 := H2AfdQueryTcpInfo k abi w SocketHandle 2 tcpInfo
  if NT_SUCCESS r2.status then
    ⟨r2.status, r2.status, r2.status, r2.buffer, r2.world⟩
  else
    let r1 := H2AfdQueryTcpInfo k abi r2.world SocketHandle 1 r2.buffer
    if NT_SUCCESS r1.status then
      ⟨r1.status, r1.status, r2.status, r1.buffer, r1.world⟩
    else
      let r0 := H2AfdQueryTcpInfo k abi r1.world SocketHandle 0 r1.buffer
      ⟨r0.status, r1.status, r2.status, r0.buffer, r0.world⟩

/-- The last property of the fields of version `v`: the bound of the loops at
lines 2052, 2072 and 2087. -/
def lastTcpInfoProperty (v : Nat) : Nat :=
  if v = 0 then H2_AFD_PROPERTY_TCP_INFO_SYN_RETRANSMITS
  else if v = 1 then H2_AFD_PROPERTY_TCP_INFO_SENDER_LIMITED_BYTES
  else H2_AFD_PROPERTY_TCP_INFO_PTO_EPISODES

/-- Lines 2026-2091: what is printed after the negotiation. -/
def H2AfdQueryPrintPropertiesTcpInfo.report (H2RawPrintMode : Bool) (n : TcpInfoNegotiation) :
    List Print :=
  (if NT_SUCCESS n.status0 then
    H2AfdQueryPrintPropertiesTcpInfo.values0 n.tcpInfo
  else
    H2AfdPrintPropertyStatus.range H2RawPrintMode H2_AFD_PROPERTY_TCP_INFO_STATE
      H2_AFD_PROPERTY_TCP_INFO_SYN_RETRANSMITS n.status0) ++
  (if NT_SUCCESS n.status1 then
    H2AfdQueryPrintPropertiesTcpInfo.values1 n.tcpInfo
  else
    H2AfdPrintPropertyStatus.range H2RawPrintMode
      H2_AFD_PROPERTY_TCP_INFO_RECEIVER_LIMITED_TRANSITIONS
      H2_AFD_PROPERTY_TCP_INFO_SENDER_LIMITED_BYTES n.status1) ++
  (if NT_SUCCESS n.status2 then
    H2AfdQueryPrintPropertiesTcpInfo.values2 n.tcpInfo
  else
    H2AfdPrintPropertyStatus.range H2RawPrintMode H2_AFD_PROPERTY_TCP_INFO_OUT_OF_ORDER_PACKETS
      H2_AFD_PROPERTY_TCP_INFO_PTO_EPISODES n.status2) ++
  [.wprintf_s "\r\n" []]

/-- What a printing phase leaves: what it printed and the history. -/
structure PhaseResult where
  output : List Print
  world : World
deriving DecidableEq, Repr

/-- Lines 1996-1999: the heading. -/
def H2AfdQueryPrintPropertiesTcpInfo.header (H2RawPrintMode : Bool) : Print :=
  if H2RawPrintMode then .wprintf_s "[-- IOCTL_AFD_TRANSPORT_IOCTL on SIO_TCP_INFO --]\r\n" []
  else .wprintf_s "[----- TCP information -----]\r\n" []

/-- Lines 1989-2092. -/
def H2AfdQueryPrintPropertiesTcpInfo (k : Kernel) (abi : AfdAbi) (H2RawPrintMode : Bool)
    (w : World) (SocketHandle : Nat) (tcpInfo : List Nat) : PhaseResult :=
  let n := H2AfdQueryPrintPropertiesTcpInfo.negotiate k abi w SocketHandle tcpInfo
  ⟨H2AfdQueryPrintPropertiesTcpInfo.header H2RawPrintMode ::
    H2AfdQueryPrintPropertiesTcpInfo.report H2RawPrintMode n, n.world⟩

/-! ## Legacy device handles: `H2AfdFormatDeviceName` (socket_strings.c, lines 378-412),
`H2AfdPrintPropertyDeviceName` and `H2AfdQueryPrintTDIDevices` (printsocket.c) -/

/-- The routine `RtlInitUnicodeString` of ntdll on a string constant: the
characters with their terminator, `Length` in bytes without it (at most
`0xFFFC`) and `MaximumLength` with it. -/
def RtlInitUnicodeString (SourceString : String) : UNICODE_STRING :=
  let chars := SourceString.toList.map Char.toNat
  let Length := min (sizeofWCHAR * chars.length) 0xFFFC
  ⟨Length, Length + sizeofWCHAR, chars ++ [0]⟩

/-- The routines of ntdll whose outcome the program cannot foresee.
`RtlDuplicateUnicodeString` takes the flags, the source string and the prior
content of the destination; it gives the status and the destination after the
call. -/
structure Runtime where
  RtlDuplicateUnicodeString : Nat → UNICODE_STRING → UNICODE_STRING → NTSTATUS × UNICODE_STRING

/-- What `H2AfdFormatDeviceName` hands back: the status, the caller's
`*DeviceName` after the call and the new history. -/
structure DeviceNameResult where
  status : NTSTATUS
  DeviceName : UNICODE_STRING
  world : World
deriving DecidableEq, Repr

/-- The value of `sizeof(buffer)` for the union of socket_strings.c, lines 386-389. -/
def sizeofFormatBuffer : Nat := 0x200

/-- The function of socket_strings.c, lines 378-412.  `DeviceName` is the prior
content of `*DeviceName`, `buffer` the prior content of the characters of
`buffer.VolumeName.DeviceName`, which the function does not initialise. -/
def H2AfdFormatDeviceName (k : Kernel) (rt : Runtime) (w : World) (FileHandle : Nat)
    (DeviceName : UNICODE_STRING) (buffer : List Nat) : DeviceNameResult :=
  let resp := k.NtQueryInformationFile w FileHandle sizeofFormatBuffer
  let w1 := w.tick
  let status := resp.status
  if NT_SUCCESS status then
    let Length := resp.DeviceNameLength % 2 ^ 32 % 65536
    let localString : UNICODE_STRING := ⟨Length, Length, storeBytes resp.DeviceName buffer⟩
    let duplicate := rt.RtlDuplicateUnicodeString 0 localString DeviceName
    ⟨duplicate.1, duplicate.2, w1⟩
  else
    ⟨status, DeviceName, w1⟩

/-- Lines 846-879 under the print mode.  `deviceName` and `buffer` are the
prior contents of the local of that name and of the local buffer of
`H2AfdFormatDeviceName`. -/
def H2AfdPrintPropertyDeviceName (k : Kernel) (rt : Runtime) (H2RawPrintMode : Bool)
    (w : World) (Property FileHandle : Nat) (deviceName : UNICODE_STRING)
    (buffer : List Nat) : PhaseResult :=
  let status := STATUS_SUCCESS
  let freeOnSuccess := false
  let named : DeviceNameResult × Bool :=
    if FileHandle = INVALID_HANDLE_VALUE then
      (⟨status, RtlInitUnicodeString
        (if H2RawPrintMode then "INVALID_HANDLE_VALUE" else "N/A (transport is not TDI)"), w⟩,
        freeOnSuccess)
    else if FileHandle = NULL then
      (⟨status, RtlInitUnicodeString (if H2RawPrintMode then "NULL" else "None"), w⟩,
        freeOnSuccess)
    else
      (H2AfdFormatDeviceName k rt w FileHandle deviceName buffer, true)
  let status := named.1.status
  let deviceName := named.1.DeviceName
  let freeOnSuccess := named.2
  if NT_SUCCESS status then
    ⟨[.wprintf_s "%s: %wZ\r\n"
        [.H2AfdGetPropertyName Property H2RawPrintMode, .UnicodeString deviceName]] ++
      (if freeOnSuccess then [.RtlFreeUnicodeString deviceName] else []), named.1.world⟩
  else
    ⟨H2AfdPrintPropertyStatus H2RawPrintMode Property status, named.1.world⟩

/-- What one of the two device blocks leaves: the prints, the local
`tdiHandle` and the history. -/
structure DeviceResult where
  output : List Print
  tdiHandle : Nat
  world : World
deriving DecidableEq, Repr

/-- Lines 1227-1235 and 1238-1246: the block for one device.  `tdiHandle` is
the content of the local of that name when the block starts. -/
def H2AfdQueryPrintTDIDevices.device (k : Kernel) (abi : AfdAbi) (rt : Runtime)
    (H2RawPrintMode : Bool) (w : World) (SocketHandle QueryMode Property tdiHandle : Nat)
    (deviceName : UNICODE_STRING) (buffer : List Nat) : DeviceResult :=
  let query := H2AfdQueryTdiHandle k abi w SocketHandle QueryMode tdiHandle
  let status := query.status
  let tdiHandle := query.TdiHandle
  if NT_SUCCESS status then
    let printed := H2AfdPrintPropertyDeviceName k rt H2RawPrintMode query.world Property
      tdiHandle deviceName buffer
    if tdiHandle ≠ INVALID_HANDLE_VALUE ∧ tdiHandle ≠ NULL then
      ⟨printed.output ++ [.NtClose tdiHandle], tdiHandle, printed.world.tick⟩
    else
      ⟨printed.output, tdiHandle, printed.world⟩
  else
    ⟨H2AfdPrintPropertyStatus H2RawPrintMode Property status, tdiHandle, query.world⟩

/-- Lines 1214-1249 under the print mode.  `tdiHandle`, `deviceName` and
`buffer` are the prior contents of the locals the code does not initialise. -/
def H2AfdQueryPrintTDIDevices (k : Kernel) (abi : AfdAbi) (rt : Runtime)
    (H2RawPrintMode : Bool) (w : World) (SocketHandle tdiHandle : Nat)
    (deviceName : UNICODE_STRING) (buffer : List Nat) : PhaseResult :=
  let header : Print :=
    if H2RawPrintMode then .wprintf_s "[-------- IOCTL_AFD_QUERY_HANDLES --------]\r\n" []
    else .wprintf_s "[------- TDI devices -------]\r\n" []
  let address := H2AfdQueryPrintTDIDevices.device k abi rt H2RawPrintMode w SocketHandle
    abi.AFD_QUERY_ADDRESS_HANDLE H2_AFD_PROPERTY_TDI_ADDRESS_DEVICE tdiHandle deviceName buffer
  let connection := H2AfdQueryPrintTDIDevices.device k abi rt H2RawPrintMode address.world
    SocketHandle abi.AFD_QUERY_CONNECTION_HANDLE H2_AFD_PROPERTY_TDI_CONNECTION_DEVICE
    address.tdiHandle deviceName buffer
  ⟨header :: (address.output ++ connection.output ++ [.wprintf_s "\r\n" []]), connection.world⟩

/-! ## The queries of `H2AfdQueryPrintSharedInfo` and `H2AfdQueryPrintSimpleInfo`
(printsocket.c, lines 970-1072 and 1146-1207) -/

/-- The history `later` continues the history `earlier`: its requests are
those of `earlier`, followed by more. -/
def World.continues (earlier later : World) : Prop :=
  ∃ more, later.trace = earlier.trace ++ more

/-- What `H2AfdQueryPrintSharedInfo` does to the history: the one call of
`H2AfdQuerySharedInfo` at line 980; the printing leaves the history as it is.
`SharedInfo` is the indeterminate initial content of the local of that name,
`returnedSize` the one of the local of `H2AfdQuerySharedInfo`. -/
def H2AfdQueryPrintSharedInfo.history (k : Kernel) (abi : AfdAbi) (w : World)
    (SocketHandle : Nat) (SharedInfo : List Nat) (returnedSize : Nat) : World :=
  (H2AfdQuerySharedInfo k abi w SocketHandle SharedInfo returnedSize).world

/-- The information classes `H2AfdQueryPrintSimpleInfo` asks for, in the order
of lines 1161-1196. -/
def H2AfdQueryPrintSimpleInfo.classes (abi : AfdAbi) : List Nat :=
  [abi.AFD_MAX_SEND_SIZE, abi.AFD_SENDS_PENDING, abi.AFD_MAX_PATH_SEND_SIZE,
    abi.AFD_RECEIVE_WINDOW_SIZE, abi.AFD_SEND_WINDOW_SIZE, abi.AFD_CONNECT_TIME,
    abi.AFD_GROUP_ID_AND_TYPE]

/-- One call `H2AfdQuerySimpleInfo(SocketHandle, InformationType, &info)` on the
history and the local `info` the calls before it left. -/
def H2AfdQueryPrintSimpleInfo.query (k : Kernel) (abi : AfdAbi) (SocketHandle : Nat)
    (st : World × List Nat) (InformationType : Nat) : World × List Nat :=
  ((H2AfdQuerySimpleInfo k abi st.1 SocketHandle InformationType st.2).world,
    (H2AfdQuerySimpleInfo k abi st.1 SocketHandle InformationType st.2).buffer)

/-- What `H2AfdQueryPrintSimpleInfo` does to the history: its seven calls of
`H2AfdQuerySimpleInfo`, one after the other on the same local `info`; the
printing leaves the history as it is.  `info` is the indeterminate initial
content of the local of that name. -/
def H2AfdQueryPrintSimpleInfo.history (k : Kernel) (abi : AfdAbi) (w : World)
    (SocketHandle : Nat) (info : List Nat) : World :=
  ((H2AfdQueryPrintSimpleInfo.classes abi).foldl
    (H2AfdQueryPrintSimpleInfo.query k abi SocketHandle) (w, info)).1

/-! ## The orchestrator: `H2AfdQueryPrintDetailsSocket` (printsocket.c, lines 2179-2206) -/

/-- The decoders `H2AfdQueryPrintDetailsSocket` calls. -/
inductive Phase where
  | H2AfdQueryPrintSharedInfo
  | H2AfdQueryPrintAddresses
  | H2AfdQueryPrintSimpleInfo
  | H2AfdQueryPrintTDIDevices
  | H2AfdQueryPrintPropertiesSol
  | H2AfdQueryPrintPropertiesIp
  | H2AfdQueryPrintPropertiesTcp
  | H2AfdQueryPrintPropertiesTcpInfo
  | H2AfdQueryPrintPropertiesUdp
  | H2AfdQueryPrintPropertiesHv
deriving DecidableEq, Repr

/-- The decoders as `H2AfdQueryPrintDetailsSocket` sees them: what each does
to the history, given the handle and the value of `H2RawPrintMode`. -/
abbrev PhaseRun := Phase → World → Nat → Bool → World

/-- What `H2AfdQueryPrintDetailsSocket` leaves: the decoders it called, in
order, and the history. -/
structure DetailsResult where
  calls : List Phase
  world : World
deriving DecidableEq, Repr

/-- One call of a decoder, recorded. -/
def DetailsResult.call (st : DetailsResult) (d : PhaseRun) (p : Phase) (SocketHandle : Nat)
    (H2RawPrintMode : Bool) : DetailsResult :=
  ⟨st.calls ++ [p], d p st.world SocketHandle H2RawPrintMode⟩

/-- Lines 2190-2194: the four decoders that come before the probe. -/
def H2AfdQueryPrintDetailsSocket.before (d : PhaseRun) (w : World) (SocketHandle : Nat)
    (VerboseMode : Bool) : DetailsResult :=
  let H2RawPrintMode := VerboseMode
  let st : DetailsResult := ⟨[], w⟩
  let st := st.call d .H2AfdQueryPrintSharedInfo SocketHandle H2RawPrintMode
  let st := st.call d .H2AfdQueryPrintAddresses SocketHandle H2RawPrintMode
  let st := st.call d .H2AfdQueryPrintSimpleInfo SocketHandle H2RawPrintMode
  st.call d .H2AfdQueryPrintTDIDevices SocketHandle H2RawPrintMode

/-- Line 2201: the probe, issued on the history the four decoders left.
`option` is the prior content of the local of that name. -/
def H2AfdQueryPrintDetailsSocket.probe (k : Kernel) (abi : AfdAbi) (d : PhaseRun) (w : World)
    (SocketHandle : Nat) (VerboseMode : Bool) (option : List Nat) : BufferResult :=
  H2AfdQueryOption k abi (H2AfdQueryPrintDetailsSocket.before d w SocketHandle VerboseMode).world
    SocketHandle 0xDEAD 0xDEAD option

/-- Lines 2179-2206. -/
def H2AfdQueryPrintDetailsSocket (k : Kernel) (abi : AfdAbi) (d : PhaseRun) (w : World)
    (SocketHandle : Nat) (VerboseMode : Bool) (option : List Nat) : DetailsResult :=
  let H2RawPrintMode := VerboseMode
  let st := H2AfdQueryPrintDetailsSocket.before d w SocketHandle VerboseMode
  let probe := H2AfdQueryPrintDetailsSocket.probe k abi d w SocketHandle VerboseMode option
  let st : DetailsResult := ⟨st.calls, probe.world⟩
  if !NT_SUCCESS probe.status then
    let st := st.call d .H2AfdQueryPrintPropertiesSol SocketHandle H2RawPrintMode
    let st := st.call d .H2AfdQueryPrintPropertiesIp SocketHandle H2RawPrintMode
    let st := st.call d .H2AfdQueryPrintPropertiesTcp SocketHandle H2RawPrintMode
    let st := st.call d .H2AfdQueryPrintPropertiesTcpInfo SocketHandle H2RawPrintMode
    let st := st.call d .H2AfdQueryPrintPropertiesUdp SocketHandle H2RawPrintMode
    st.call d .H2AfdQueryPrintPropertiesHv SocketHandle H2RawPrintMode
  else
    st

/-! ## Protocol names: `H2AfdGetProtocolString`, `H2AfdGetProtocolSummaryString`
(socket_strings.c, lines 123-235) -/

/-- The protocol numbers of ws2def.h, ws2bth.h and hvsocket.h. -/
def IPPROTO_ICMP : Int := 1
def IPPROTO_IGMP : Int := 2
def IPPROTO_TCP : Int := 6
def IPPROTO_UDP : Int := 17
def IPPROTO_RDP : Int := 27
def IPPROTO_ICMPV6 : Int := 58
def IPPROTO_PGM : Int := 113
def IPPROTO_L2TP : Int := 115
def IPPROTO_SCTP : Int := 132
def IPPROTO_RAW : Int := 255
def IPPROTO_RESERVED_IPSEC : Int := 258
def BTHPROTO_RFCOMM : Int := 3
def BTHPROTO_L2CAP : Int := 0x100
def HV_PROTOCOL_RAW : Int := 1

/-- Lines 133-157: the inner `switch (Protocol)` under `case AF_INET: case AF_INET6:`;
`none` when no label matches and control leaves the inner `switch`. -/
def H2AfdGetProtocolString.inet (Protocol : Int) (RawName : Bool) : Option String :=
  if Protocol = IPPROTO_ICMP then some (if RawName then "IPPROTO_ICMP" else "ICMP")
  else if Protocol = IPPROTO_IGMP then some (if RawName then "IPPROTO_IGMP" else "IGMP")
  else if Protocol = IPPROTO_TCP then some (if RawName then "IPPROTO_TCP" else "TCP")
  else if Protocol = IPPROTO_UDP then some (if RawName then "IPPROTO_UDP" else "UDP")
  else if Protocol = IPPROTO_RDP then some (if RawName then "IPPROTO_RDP" else "RDP")
  else if Protocol = IPPROTO_ICMPV6 then some (if RawName then "IPPROTO_ICMPV6" else "ICMPv6")
  else if Protocol = IPPROTO_PGM then some (if RawName then "IPPROTO_PGM" else "PGM")
  else if Protocol = IPPROTO_L2TP then some (if RawName then "IPPROTO_L2TP" else "L2TP")
  else if Protocol = IPPROTO_SCTP then some (if RawName then "IPPROTO_SCTP" else "SCTP")
  else if Protocol = IPPROTO_RAW then some (if RawName then "IPPROTO_RAW" else "RAW")
  else if Protocol = IPPROTO_RESERVED_IPSEC then
    some (if RawName then "IPPROTO_RESERVED_IPSEC" else "IPSec")
  else none

/-- Lines 159-165: the inner `switch (Protocol)` under `case AF_BTH:`. -/
def H2AfdGetProtocolString.bth (Protocol : Int) (RawName : Bool) : Option String :=
  if Protocol = BTHPROTO_RFCOMM then some (if RawName then "BTHPROTO_RFCOMM" else "RFCOMM")
  else if Protocol = BTHPROTO_L2CAP then some (if RawName then "BTHPROTO_L2CAP" else "L2CAP")
  else none

/-- Lines 167-171: the inner `switch (Protocol)` under `case AF_HYPERV:`. -/
def H2AfdGetProtocolString.hyperv (Protocol : Int) (RawName : Bool) : Option String :=
  if Protocol = HV_PROTOCOL_RAW then some (if RawName then "HV_PROTOCOL_RAW" else "RAW")
  else none

/-- Lines 123-175.  `none` is `NULL`.  No `break` follows an inner `switch`, so
when no label of an inner `switch` matches, control runs on into the block of
the next `case` label of the outer `switch`. -/
def H2AfdGetProtocolString (AddressFamily Protocol : Int) (RawName : Bool) : Option String :=
  if AddressFamily = AF_INET ∨ AddressFamily = AF_INET6 then
    (H2AfdGetProtocolString.inet Protocol RawName).orElse fun _ =>
    (H2AfdGetProtocolString.bth Protocol RawName).orElse fun _ =>
    H2AfdGetProtocolString.hyperv Protocol RawName
  else if AddressFamily = AF_BTH then
    (H2AfdGetProtocolString.bth Protocol RawName).orElse fun _ =>
    H2AfdGetProtocolString.hyperv Protocol RawName
  else if AddressFamily = AF_HYPERV then
    H2AfdGetProtocolString.hyperv Protocol RawName
  else
    none

/-- Lines 195-205: the inner `switch (Protocol)` under `case AF_INET:`. -/
def H2AfdGetProtocolSummaryString.inet (Protocol : Int) : Option String :=
  if Protocol = IPPROTO_ICMP then some "ICMP"
  else if Protocol = IPPROTO_TCP then some "TCP"
  else if Protocol = IPPROTO_UDP then some "UDP"
  else if Protocol = IPPROTO_RAW then some "RAW/IPv4"
  else none

/-- Lines 207-217: the inner `switch (Protocol)` under `case AF_INET6:`. -/
def H2AfdGetProtocolSummaryString.inet6 (Protocol : Int) : Option String :=
  if Protocol = IPPROTO_ICMPV6 then some "ICMP6"
  else if Protocol = IPPROTO_TCP then some "TCP6"
  else if Protocol = IPPROTO_UDP then some "UDP6"
  else if Protocol = IPPROTO_RAW then some "RAW/IPv6"
  else none

/-- Lines 219-225: the inner `switch (Protocol)` under `case AF_BTH:`. -/
def H2AfdGetProtocolSummaryString.bth (Protocol : Int) : Option String :=
  if Protocol = BTHPROTO_RFCOMM then some "RFCOMM [Bluetooth]"
  else if Protocol = BTHPROTO_L2CAP then some "L2CAP [Bluetooth]"
  else none

/-- Lines 227-231: the inner `switch (Protocol)` under `case AF_HYPERV:`. -/
def H2AfdGetProtocolSummaryString.hyperv (Protocol : Int) : Option String :=
  if Protocol = HV_PROTOCOL_RAW then some "Hyper-V RAW" else none

/-- Lines 187-235.  `none` is `NULL`.  As in `H2AfdGetProtocolString`, no
`break` follows an inner `switch`. -/
def H2AfdGetProtocolSummaryString (AddressFamily Protocol : Int) : Option String :=
  if AddressFamily = AF_INET then
    (H2AfdGetProtocolSummaryString.inet Protocol).orElse fun _ =>
    (H2AfdGetProtocolSummaryString.inet6 Protocol).orElse fun _ =>
    (H2AfdGetProtocolSummaryString.bth Protocol).orElse fun _ =>
    H2AfdGetProtocolSummaryString.hyperv Protocol
  else if AddressFamily = AF_INET6 then
    (H2AfdGetProtocolSummaryString.inet6 Protocol).orElse fun _ =>
    (H2AfdGetProtocolSummaryString.bth Protocol).orElse fun _ =>
    H2AfdGetProtocolSummaryString.hyperv Protocol
  else if AddressFamily = AF_BTH then
    (H2AfdGetProtocolSummaryString.bth Protocol).orElse fun _ =>
    H2AfdGetProtocolSummaryString.hyperv Protocol
  else if AddressFamily = AF_HYPERV then
    H2AfdGetProtocolSummaryString.hyperv Protocol
  else
    none

/-- The protocols the tables list under each address family, as the comments
and the layout of the two functions present them: what each function is meant
to recognise. -/
def listedProtocolNames (AddressFamily : Int) : List Int :=
  if AddressFamily = AF_INET ∨ AddressFamily = AF_INET6 then
    [IPPROTO_ICMP, IPPROTO_IGMP, IPPROTO_TCP, IPPROTO_UDP, IPPROTO_RDP, IPPROTO_ICMPV6,
      IPPROTO_PGM, IPPROTO_L2TP, IPPROTO_SCTP, IPPROTO_RAW, IPPROTO_RESERVED_IPSEC]
  else if AddressFamily = AF_BTH then [BTHPROTO_RFCOMM, BTHPROTO_L2CAP]
  else if AddressFamily = AF_HYPERV then [HV_PROTOCOL_RAW]
  else []

def listedProtocolSummaries (AddressFamily : Int) : List Int :=
  if AddressFamily = AF_INET then [IPPROTO_ICMP, IPPROTO_TCP, IPPROTO_UDP, IPPROTO_RAW]
  else if AddressFamily = AF_INET6 then [IPPROTO_ICMPV6, IPPROTO_TCP, IPPROTO_UDP, IPPROTO_RAW]
  else if AddressFamily = AF_BTH then [BTHPROTO_RFCOMM, BTHPROTO_L2CAP]
  else if AddressFamily = AF_HYPERV then [HV_PROTOCOL_RAW]
  else []

/-! ## Address formatting: the dispatch of `H2AfdFormatAddress`
(socket_strings.c, lines 425-564) -/

/-- The branches of the `if` chain of lines 435-555, named after the structure
each one reads the address as; the last one is `return STATUS_UNKNOWN_REVISION`. -/
inductive FormatBranch where
  | SOCKADDR_IN
  | SOCKADDR_IN6
  | SOCKADDR_BTH
  | SOCKADDR_HV
  | STATUS_UNKNOWN_REVISION
deriving DecidableEq, Repr

/-- The conditions of lines 435, 454, 474, 493 and the `else` of line 552: the
branch `H2AfdFormatAddress` takes for an address. -/
def H2AfdFormatAddress.branch (Address : List Nat) : FormatBranch :=
  if ssFamily Address = AF_INET then .SOCKADDR_IN
  else if ssFamily Address = AF_INET6 then .SOCKADDR_IN6
  else if ssFamily Address = AF_BTH then .SOCKADDR_BTH
  else if ssFamily Address = AF_HYPERV then .SOCKADDR_HV
  else .STATUS_UNKNOWN_REVISION

/-! ## Object names: `H2AfdIsSocketObjectName` (nativesocket.c, lines 20-29) -/

/-- The routine `RtlPrefixUnicodeString` of ntdll: `String2` is at least as long
as `String1` and agrees with it on every character of `String1`, after upcasing
when `CaseInSensitive`. -/
def RtlPrefixUnicodeString (upcaseChar : Nat → Nat) (String1 String2 : UNICODE_STRING)
    (CaseInSensitive : Bool) : Bool :=
  decide (String1.Length ≤ String2.Length) &&
  (List.range (String1.Length / sizeofWCHAR)).all (fun i =>
    let c1 := String1.Buffer.getD i 0
    let c2 := String2.Buffer.getD i 0
    if CaseInSensitive then decide (upcaseChar c1 = upcaseChar c2) else decide (c1 = c2))

/-- The character `OBJ_NAME_PATH_SEPARATOR`, a backslash. -/
def OBJ_NAME_PATH_SEPARATOR : Nat := 92

/-- Lines 20-29.  The `&&` and `||` of line 26-28 evaluate their right operand
only when the left one does not decide the result, so the character after the
prefix is read in the innermost `else` only. -/
def H2AfdIsSocketObjectName (k : Kernel) (abi : AfdAbi) (ObjectName : UNICODE_STRING) : Bool :=
  if RtlPrefixUnicodeString k.RtlUpcaseUnicodeChar (afdDeviceName abi) ObjectName true then
    if ObjectName.Length = (afdDeviceName abi).Length then true
    else decide (ObjectName.Buffer.getD ((afdDeviceName abi).Length / sizeofWCHAR) 0
      = OBJ_NAME_PATH_SEPARATOR)
  else false

/-- The words of the description of `H2AfdIsSocketObjectName`: the name starts
with the AFD device name, compared case-insensitively. -/
def startsWithAfdDeviceName (k : Kernel) (abi : AfdAbi) (ObjectName : UNICODE_STRING) : Prop :=
  sizeofWCHAR * abi.AFD_DEVICE_NAME.length ≤ ObjectName.Length ∧
  ∀ i, i < abi.AFD_DEVICE_NAME.length →
    k.RtlUpcaseUnicodeChar (ObjectName.Buffer.getD i 0) =
      k.RtlUpcaseUnicodeChar (abi.AFD_DEVICE_NAME.getD i 0)

/-! ## Numbers on the command line: `H2ParseInteger` (string_helpers.c, lines 257-295) -/

def STATUS_INTEGER_OVERFLOW : NTSTATUS := toLONG 0xC0000095

/-- The values of `UINT_MAX` and `UINT_ERROR` (ntintsafe.h). -/
def UINT_MAX : Nat := 0xFFFFFFFF
def UINT_ERROR : Nat := 0xFFFFFFFF

/-- The inline routine `RtlUIntMult` of ntintsafe.h: the status and `*puResult`. -/
def RtlUIntMult (uMultiplicand uMultiplier : Nat) : NTSTATUS × Nat :=
  if uMultiplicand * uMultiplier ≤ UINT_MAX then (STATUS_SUCCESS, uMultiplicand * uMultiplier)
  else (STATUS_INTEGER_OVERFLOW, UINT_ERROR)

/-- The inline routine `RtlUIntAdd` of ntintsafe.h: the status and `*puResult`. -/
def RtlUIntAdd (uAugend uAddend : Nat) : NTSTATUS × Nat :=
  if uAugend + uAddend ≤ UINT_MAX then (STATUS_SUCCESS, uAugend + uAddend)
  else (STATUS_INTEGER_OVERFLOW, UINT_ERROR)

/-- Lines 276-283: the digit `current` for the character `String[i]`, `none`
when the `else` of line 282 returns `STATUS_INVALID_PARAMETER`. -/
def H2ParseInteger.current (isHex : Bool) (c : Nat) : Option Nat :=
  if 48 ≤ c ∧ c ≤ 57 then some (c - 48)
  else if isHex = true ∧ 97 ≤ c ∧ c ≤ 102 then some (c - 97 + 0xa)
  else if isHex = true ∧ 65 ≤ c ∧ c ≤ 70 then some (c - 65 + 0xA)
  else none

/-- Lines 269-289: the loop over the characters from `String[i]` on, a list here,
with `status` and `accumulated` as they are when the loop reaches them.  The
loop ends at a zero character or at the end of the list, where the terminator
is; `.error` is a `return` from inside the loop, `.ok` the state after it. -/
def H2ParseInteger.loop (isHex : Bool) :
    List Nat → NTSTATUS → Nat → Except NTSTATUS (NTSTATUS × Nat)
  | [], status, accumulated => .ok (status, accumulated)
  | c :: rest, status, accumulated =>
    if c = 0 then .ok (status, accumulated)
    else
      let multiplied := RtlUIntMult accumulated (if isHex then 16 else 10)
      if !NT_SUCCESS multiplied.1 then .error multiplied.1
      else
        match H2ParseInteger.current isHex c with
        | none => .error STATUS_INVALID_PARAMETER
        | some current =>
          let added := RtlUIntAdd multiplied.2 current
          if !NT_SUCCESS added.1 then .error added.1
          else H2ParseInteger.loop isHex rest added.1 added.2

/-- What `H2ParseInteger` hands back: the status and the caller's `*Value`
after the call. -/
structure IntegerResult where
  status : NTSTATUS
  Value : Nat
deriving DecidableEq, Repr

/-- Lines 291-294, and the `return`s from inside the loop, which leave
`*Value` as it was. -/
def H2ParseInteger.finish (r : Except NTSTATUS (NTSTATUS × Nat)) (Value : Nat) :
    IntegerResult :=
  match r with
  | .error status => ⟨status, Value⟩
  | .ok (status, accumulated) =>
    if NT_SUCCESS status then ⟨status, accumulated⟩ else ⟨status, Value⟩

/-- Line 267: `String[0] == L'0' && (String[1] == L'x' || String[1] == L'X')`.
`String` holds the characters before the terminator, so a read at its end
gives the terminator. -/
def H2ParseInteger.isHex (String : List Nat) : Bool :=
  decide (String.getD 0 0 = 48) && (decide (String.getD 1 0 = 120) || decide (String.getD 1 0 = 88))

/-- Lines 257-295.  `Value` is the prior content of `*Value`. -/
def H2ParseInteger (String : List Nat) (Value : Nat) : IntegerResult :=
  let status := STATUS_INVALID_PARAMETER
  let accumulated := 0
  let isHex := H2ParseInteger.isHex String
  H2ParseInteger.finish
    (H2ParseInteger.loop isHex (String.drop (if isHex then 2 else 0)) status accumulated) Value

/-- The number a list of digits denotes in a base, continuing from `start`. -/
def valueOfDigits (base : Nat) (digits : List Nat) (start : Nat) : Nat :=
  digits.foldl (fun value digit => value * base + digit) start

/-- The character for a decimal digit. -/
def decimalChar (digit : Nat) : Nat := 48 + digit

/-- The character for a hexadecimal digit, in upper or in lower case. -/
def hexChar (digit : Nat × Bool) : Nat :=
  if digit.1 < 10 then 48 + digit.1 else if digit.2 then 55 + digit.1 else 87 + digit.1

/-! ## The command line: `H2ParseArguments` (argument_parsing.c, lines 25-104) -/

def STATUS_INVALID_CID : NTSTATUS := toLONG 0xC000000B
def STATUS_INVALID_HANDLE : NTSTATUS := toLONG 0xC0000008
def STATUS_NO_MEMORY : NTSTATUS := toLONG 0xC0000017

/-- The structure `H2_ARGUMENTS` of argument_parsing.h. -/
structure H2_ARGUMENTS where
  ProcessFilter : UNICODE_STRING
  ProcessId : Nat
  HandleValue : Nat
  Verbose : Bool
deriving DecidableEq, Repr

/-- The routines `H2ParseArguments` calls whose outcome it cannot foresee.
`lstrcmpW` compares two strings under the user's locale; the three routines
that fill a string take the prior content of the destination last but one or
first, as in their C signatures, and give the destination after the call. -/
structure ArgumentRuntime where
  lstrcmpW : List Nat → List Nat → Int
  H2QueryProcessIdImageName : Nat → Bool → UNICODE_STRING → NTSTATUS × UNICODE_STRING
  RtlCreateUnicodeString : UNICODE_STRING → List Nat → Bool × UNICODE_STRING
  RtlUpcaseUnicodeString : UNICODE_STRING → UNICODE_STRING → Bool → NTSTATUS × UNICODE_STRING

/-- The routine `RtlInitUnicodeString` of ntdll on a string given by its
characters before the terminator. -/
def RtlInitUnicodeString.chars (SourceString : List Nat) : UNICODE_STRING :=
  let Length := min (sizeofWCHAR * SourceString.length) 0xFFFC
  ⟨Length, Length + sizeofWCHAR, SourceString ++ [0]⟩

/-- The string constants `L"-p"`, `L"-h"`, `L"-v"` and `L"Unknown process"`. -/
def optionP : List Nat := [45, 112]
def optionH : List Nat := [45, 104]
def optionV : List Nat := [45, 118]
def unknownProcess : List Nat :=
  [85, 110, 107, 110, 111, 119, 110, 32, 112, 114, 111, 99, 101, 115, 115]

/-- The locals `status`, `parsedArguments` and `value` of `H2ParseArguments`. -/
structure ArgumentState where
  status : NTSTATUS
  parsedArguments : H2_ARGUMENTS
  value : Nat
deriving DecidableEq, Repr

/-- Lines 35-98: the loop over the arguments from `argv[i]` on, a list here, in
the state the loop reaches them with.  `.error` is a `return` from inside the
loop, `.ok` the state after it.  For a last argument `-p` or `-h` the test
`++i >= argc` of lines 39 and 74 holds; otherwise `next` is `argv[++i]`. -/
def H2ParseArguments.loop (rt : ArgumentRuntime) :
    List (List Nat) → ArgumentState → Except NTSTATUS ArgumentState
  | [], st => .ok st
  | [arg], st =>
    if rt.lstrcmpW arg optionP = 0 then .error STATUS_INVALID_PARAMETER
    else if rt.lstrcmpW arg optionH = 0 then .error STATUS_INVALID_PARAMETER
    else if rt.lstrcmpW arg optionV = 0 then
      .ok ⟨st.status, { st.parsedArguments with Verbose := true }, st.value⟩
    else .error STATUS_INVALID_PARAMETER
  | arg :: next :: rest, st =>
    if rt.lstrcmpW arg optionP = 0 then
      let parsed := H2ParseInteger next st.value
      let value := parsed.Value
      if NT_SUCCESS parsed.status then
        if value = 0 then .error STATUS_INVALID_CID
        else
          let parsedArguments := { st.parsedArguments with ProcessId := value }
          let image := rt.H2QueryProcessIdImageName parsedArguments.ProcessId true
            parsedArguments.ProcessFilter
          if !NT_SUCCESS image.1 then
            let created := rt.RtlCreateUnicodeString image.2 unknownProcess
            if !created.1 then .error STATUS_NO_MEMORY
            else
              H2ParseArguments.loop rt rest
                ⟨STATUS_SUCCESS, { parsedArguments with ProcessFilter := created.2 }, value⟩
          else
            H2ParseArguments.loop rt rest
              ⟨STATUS_SUCCESS, { parsedArguments with ProcessFilter := image.2 }, value⟩
      else
        let filter := RtlInitUnicodeString.chars next
        let upcased := rt.RtlUpcaseUnicodeString st.parsedArguments.ProcessFilter filter true
        let status := upcased.1
        if !NT_SUCCESS status then .error status
        else
          H2ParseArguments.loop rt rest
            ⟨STATUS_SUCCESS, { st.parsedArguments with ProcessFilter := upcased.2 }, value⟩
    else if rt.lstrcmpW arg optionH = 0 then
      let parsed := H2ParseInteger next st.value
      let status := parsed.status
      let value := parsed.Value
      if !NT_SUCCESS status then .error status
      else if value = 0 then .error STATUS_INVALID_HANDLE
      else
        H2ParseArguments.loop rt rest
          ⟨status, { st.parsedArguments with HandleValue := value }, value⟩
    else if rt.lstrcmpW arg optionV = 0 then
      H2ParseArguments.loop rt (next :: rest)
        ⟨st.status, { st.parsedArguments with Verbose := true }, st.value⟩
    else .error STATUS_INVALID_PARAMETER

/-- What `H2ParseArguments` hands back: the status and the caller's
`*ParsedArguments` after the call. -/
structure ArgumentsResult where
  status : NTSTATUS
  ParsedArguments : H2_ARGUMENTS
deriving DecidableEq, Repr

/-- The initial state of the locals, lines 31-33; `value` is not initialised. -/
def ArgumentState.initial (value : Nat) : ArgumentState :=
  ⟨STATUS_INVALID_PARAMETER, ⟨⟨0, 0, []⟩, 0, 0, false⟩, value⟩

/-- Lines 25-104.  `argv` holds the `argc` argument strings, the program name
first; `ParsedArguments` is the prior content of `*ParsedArguments` and `value`
the indeterminate initial content of the local of that name. -/
def H2ParseArguments (rt : ArgumentRuntime) (argv : List (List Nat))
    (ParsedArguments : H2_ARGUMENTS) (value : Nat) : ArgumentsResult :=
  match H2ParseArguments.loop rt (argv.drop 1) (ArgumentState.initial value) with
  | .error status => ⟨status, ParsedArguments⟩
  | .ok st =>
    if NT_SUCCESS st.status then ⟨st.status, st.parsedArguments⟩
    else ⟨st.status, ParsedArguments⟩

/-- A command line as the usage text describes it: every argument is `-v`, or
is `-p` or `-h` followed by one more argument. -/
def wellFormedCommandLine (rt : ArgumentRuntime) : List (List Nat) → Bool
  | [] => true
  | [arg] =>
    !decide (rt.lstrcmpW arg optionP = 0) && !decide (rt.lstrcmpW arg optionH = 0) &&
      decide (rt.lstrcmpW arg optionV = 0)
  | arg :: next :: rest =>
    if rt.lstrcmpW arg optionP = 0 ∨ rt.lstrcmpW arg optionH = 0 then
      wellFormedCommandLine rt rest
    else decide (rt.lstrcmpW arg optionV = 0) && wellFormedCommandLine rt (next :: rest)

/-! ## Status descriptions: `H2FindStatusDescription` (string_helpers.c, lines 161-230) -/

/-- The structure `MESSAGE_RESOURCE_ENTRY`: `Length` is the size of the entry in
bytes, header included; `Text` holds the characters of a Unicode entry. -/
structure MESSAGE_RESOURCE_ENTRY where
  Length : Nat
  Flags : Nat
  Text : List Nat
deriving DecidableEq, Repr

/-- The flag `MESSAGE_RESOURCE_UNICODE`, the value of
`FIELD_OFFSET(MESSAGE_RESOURCE_ENTRY, Text)` and the resource type
`RT_MESSAGETABLE`. -/
def MESSAGE_RESOURCE_UNICODE : Nat := 1
def offsetMessageText : Nat := 4
def RT_MESSAGETABLE : Nat := 11

/-- The cast `(ULONG)Status`. -/
def toULONG (Status : NTSTATUS) : Nat := (Status % 2 ^ 32).toNat

/-- The macros `NT_FACILITY`, `NT_NTWIN32` and `WIN32_FROM_NTSTATUS` of the
platform headers, with `FACILITY_NTWIN32`. -/
def FACILITY_NTWIN32 : Nat := 7
def NT_FACILITY (Status : NTSTATUS) : Nat := toULONG Status / 2 ^ 16 % 2 ^ 12
def NT_NTWIN32 (Status : NTSTATUS) : Bool := decide (NT_FACILITY Status = FACILITY_NTWIN32)
def WIN32_FROM_NTSTATUS (Status : NTSTATUS) : Nat := toULONG Status % 2 ^ 16

/-- The loader routines `H2FindStatusDescription` calls: `LdrGetDllHandle` gives
the status and the base of the named module; `RtlFindMessage` takes the base,
the resource type, the language and the message id and gives the status and
the entry it found. -/
structure Loader where
  LdrGetDllHandle : UNICODE_STRING → NTSTATUS × Nat
  RtlFindMessage : Nat → Nat → Nat → Nat → NTSTATUS × MESSAGE_RESOURCE_ENTRY

/-- Lines 203-205: `Message` pointed at the text of the entry.  The two
lengths are `USHORT`s. -/
def H2FindStatusDescription.point (messageEntry : MESSAGE_RESOURCE_ENTRY) : UNICODE_STRING :=
  let MaximumLength := (messageEntry.Length % 65536 + 65536 - offsetMessageText) % 65536
  let Length := (MaximumLength + 65536 - sizeofWCHAR) % 65536
  ⟨Length, MaximumLength, messageEntry.Text⟩

/-- Lines 211-213: the test for the end of a `{Error name}\r\n` prefix at
`prefixEnd`. -/
def H2FindStatusDescription.isPrefixEnd (Buffer : List Nat) (prefixEnd : Nat) : Bool :=
  decide (Buffer.getD (prefixEnd - 2) 0 = 125) && decide (Buffer.getD (prefixEnd - 1) 0 = 13) &&
    decide (Buffer.getD prefixEnd 0 = 10)

/-- Lines 208-221: the prefix is trimmed at the first `prefixEnd` from 3 below
`Message->Length / sizeof(WCHAR)` that passes the test; the two lengths are
reduced in `USHORT` arithmetic. -/
def H2FindStatusDescription.trimPrefix (Message : UNICODE_STRING) : UNICODE_STRING :=
  if Message.Length > sizeofWCHAR ∧ Message.Buffer.getD 0 0 = 123 then
    match (List.range' 3 (Message.Length / sizeofWCHAR - 3)).find?
      (H2FindStatusDescription.isPrefixEnd Message.Buffer) with
    | some prefixEnd =>
      let prefixEnd := prefixEnd + 1
      ⟨(Message.Length + 2 * 65536 - prefixEnd * sizeofWCHAR) % 65536,
        (Message.MaximumLength + 2 * 65536 - prefixEnd * sizeofWCHAR) % 65536,
        Message.Buffer.drop prefixEnd⟩
    | none => Message
  else Message

/-- Line 226: the characters the second loop trims. -/
def H2FindStatusDescription.isTrailing (lastChar : Nat) : Bool :=
  decide (lastChar = 13) || decide (lastChar = 10) || decide (lastChar = 32) ||
    decide (lastChar = 9) || decide (lastChar = 0)

/-- Lines 224-227: the `while` loop, for at most `fuel` rounds. -/
def H2FindStatusDescription.trimEnd : Nat → UNICODE_STRING → UNICODE_STRING
  | 0, Message => Message
  | fuel + 1, Message =>
    if Message.Length ≥ sizeofWCHAR ∧ H2FindStatusDescription.isTrailing
        (Message.Buffer.getD (Message.Length / sizeofWCHAR - 1) 0) = true then
      H2FindStatusDescription.trimEnd fuel { Message with Length := Message.Length - sizeofWCHAR }
    else Message

/-- Lines 175-178: the module whose message table holds the description. -/
def H2FindStatusDescription.dllName (Status : NTSTATUS) : UNICODE_STRING :=
  if NT_NTWIN32 Status then RtlInitUnicodeString "kernel32.dll"
  else RtlInitUnicodeString "ntdll.dll"

/-- Line 191: the message id looked up. -/
def H2FindStatusDescription.messageId (Status : NTSTATUS) : Nat :=
  if NT_NTWIN32 Status then WIN32_FROM_NTSTATUS Status else toULONG Status

/-- An entry of a message table: `Length` covers the header and the characters
of `Text`, which hold at least the terminator. -/
def MESSAGE_RESOURCE_ENTRY.wellFormed (messageEntry : MESSAGE_RESOURCE_ENTRY) : Prop :=
  messageEntry.Length = offsetMessageText + sizeofWCHAR * messageEntry.Text.length ∧
  1 ≤ messageEntry.Text.length ∧ messageEntry.Length < 65536

/-- What `H2FindStatusDescription` hands back: the status and the caller's
`*Message` after the call. -/
structure DescriptionResult where
  status : NTSTATUS
  Message : UNICODE_STRING
deriving DecidableEq, Repr

/-- Lines 161-230.  `Message` is the prior content of `*Message`.  The second
loop is given `Message->Length / sizeof(WCHAR)` rounds, one for each
character it could trim. -/
def H2FindStatusDescription (ld : Loader) (Status : NTSTATUS) (Message : UNICODE_STRING) :
    DescriptionResult :=
  let dllName := H2FindStatusDescription.dllName Status
  let dll := ld.LdrGetDllHandle dllName
  if !NT_SUCCESS dll.1 then ⟨dll.1, Message⟩
  else
    let found := ld.RtlFindMessage dll.2 RT_MESSAGETABLE 0
      (H2FindStatusDescription.messageId Status)
    if !NT_SUCCESS found.1 then ⟨found.1, Message⟩
    else
      let messageEntry := found.2
      if messageEntry.Flags &&& MESSAGE_RESOURCE_UNICODE = 0 then
        ⟨STATUS_NOT_SUPPORTED, Message⟩
      else
        let Message := H2FindStatusDescription.point messageEntry
        let Message := H2FindStatusDescription.trimPrefix Message
        let Message := H2FindStatusDescription.trimEnd (Message.Length / sizeofWCHAR) Message
        ⟨STATUS_SUCCESS, Message⟩

/-! ## Sample instances used to run the model -/

/-- A sample layout of `AFD_TL_IO_CONTROL_INFO`: the fields in order, the
pointer replaced by the bytes it points to. -/
def sampleEncodeTlIoControlInfo (c : AFD_TL_IO_CONTROL_INFO) : List Nat :=
  bytesULONG c.Type_ ++ bytesULONG c.Level ++ bytesULONG c.IoControlCode ++
    [if c.EndpointIoctl then 1 else 0] ++ c.InputBuffer.getD [] ++ bytesULONG c.InputBufferLength

/-- A sample set of platform constants (the device name is `\Device\Afd`). -/
def sampleAbi : AfdAbi :=
  ⟨0x12043, 0x1202F, 0x120BF, 248, 144, [92, 68, 101, 118, 105, 99, 101, 92, 65, 102, 100],
    0x1207B, 0x1202D, 0x12037, 16, 32, sampleEncodeTlIoControlInfo, 2, 3, 16, 0, 8, 1, 2,
    3, 4, 5, 6, 7, 8, 10⟩

/-- A kernel that creates every event and answers every request with `resp`. -/
def constKernel (resp : IoctlResponse) : Kernel :=
  ⟨fun _ => STATUS_SUCCESS, fun _ _ => resp, fun _ _ _ => ⟨STATUS_SUCCESS, 0, []⟩,
    fun _ _ h => (STATUS_SUCCESS, h), id⟩

/-- A kernel that completes the zero-size requests with `probeStatus` and
answers the others with `resp`. -/
def probeKernel (probeStatus : NTSTATUS) (resp : IoctlResponse) : Kernel :=
  ⟨fun _ => STATUS_SUCCESS,
    fun _ req => if req.outSize = 0 then ⟨probeStatus, 0, 0, []⟩ else resp,
    fun _ _ _ => ⟨STATUS_SUCCESS, 0, []⟩, fun _ _ h => (STATUS_SUCCESS, h), id⟩

/-- A legacy-wrapped Bluetooth address: `ActivityCount = 1`,
`TAAddressCount = 1`, `AddressLength = 28`, `AddressType = AF_BTH`, then
28 bytes of payload. -/
def sampleTdiBytes : List Nat :=
  [1, 0, 0, 0, 1, 0, 0, 0, 28, 0, 32, 0] ++ List.range 28

/-- A legacy-wrapped address whose `ActivityCount` is 2 and whose declared
`AddressLength` is 65535. -/
def oversizedTdiBytes : List Nat :=
  [2, 0, 0, 0, 1, 0, 0, 0, 255, 255, 32, 0, 7, 7, 7, 7]

/-- A legacy-wrapped address whose `ActivityCount` is 1 and whose declared
`AddressLength` is 65535. -/
def oversizedLegacyBytes : List Nat :=
  [1, 0, 0, 0, 1, 0, 0, 0, 255, 255, 32, 0, 7, 7, 7, 7]

/-- An IPv4 socket address: `AF_INET`, port 80, 127.0.0.1. -/
def sampleInetBytes : List Nat :=
  [2, 0, 0, 80, 127, 0, 0, 1]

/-- A caller's `SOCKADDR_STORAGE` holding stale bytes. -/
def staleAddress : List Nat := List.replicate 128 170

/-- A kernel whose volume-name query answers `resp` for every handle and at
every moment; duplicated handles get the fresh values 1000, 1001, ... -/
def volumeKernel (resp : VolumeNameResponse) : Kernel :=
  ⟨fun _ => STATUS_SUCCESS, fun _ _ => ⟨STATUS_SUCCESS, 0, 0, []⟩, fun _ _ _ => resp,
    fun w _ _ => (STATUS_SUCCESS, 1000 + w.handleCalls),
    fun c => if 97 ≤ c ∧ c ≤ 122 then c - 32 else c⟩

/-- The name `\DEVICE\AFD`, in capital letters. -/
def upperAfdName : List Nat := [92, 68, 69, 86, 73, 67, 69, 92, 65, 70, 68]

/-- The name `\Device\Nsi`. -/
def nsiName : List Nat := [92, 68, 101, 118, 105, 99, 101, 92, 78, 115, 105]

/-- The code `STATUS_ACCESS_DENIED`. -/
def STATUS_ACCESS_DENIED : NTSTATUS := toLONG 0xC0000022

/-- The code `STATUS_INSUFFICIENT_RESOURCES`. -/
def STATUS_INSUFFICIENT_RESOURCES : NTSTATUS := toLONG 0xC000009A

/-- A kernel that cannot create any event. -/
def noEventKernel : Kernel :=
  ⟨fun _ => STATUS_INSUFFICIENT_RESOURCES, fun _ _ => ⟨STATUS_SUCCESS, 0, 0, []⟩,
    fun _ _ _ => ⟨STATUS_SUCCESS, 0, []⟩, fun _ _ h => (STATUS_SUCCESS, h), id⟩

/-- A kernel whose driver completes every request with `STATUS_SUCCESS` and
fills the whole output buffer with the byte 7. -/
def fillKernel : Kernel :=
  ⟨fun _ => STATUS_SUCCESS,
    fun _ req => ⟨STATUS_SUCCESS, 0, req.outSize, List.replicate req.outSize 7⟩,
    fun _ _ _ => ⟨STATUS_SUCCESS, 0, []⟩, fun _ _ h => (STATUS_SUCCESS, h), id⟩

/-- A kernel whose driver looks at the ninth byte of the input: it completes
the request with `STATUS_SUCCESS` when that byte is zero and with
`STATUS_INVALID_PARAMETER` otherwise, and writes nothing. -/
def inputKernel : Kernel :=
  ⟨fun _ => STATUS_SUCCESS,
    fun _ req => if (req.input.getD []).getD 8 0 = 0 then ⟨STATUS_SUCCESS, 0, 0, []⟩
      else ⟨STATUS_INVALID_PARAMETER, 0, 0, []⟩,
    fun _ _ _ => ⟨STATUS_SUCCESS, 0, []⟩, fun _ _ h => (STATUS_SUCCESS, h), id⟩

/-- A handle table answer: the address-side handle is `0x1A4`, the
connection-side one is `INVALID_HANDLE_VALUE`. -/
def sampleHandleInfoBytes : List Nat :=
  [0xA4, 1, 0, 0, 0, 0, 0, 0, 255, 255, 255, 255, 255, 255, 255, 255]

/-- A caller's `AFD_INFORMATION` holding zero bytes, and one holding stale
bytes. -/
def zeroInformation : List Nat := List.replicate 16 0
def staleInformation : List Nat := List.replicate 16 170

/-- A kernel whose driver supports the TCP information up to version `v`: a
request whose output size is at most `sizeof(TCP_INFO_v<v>)` is completed with
`STATUS_SUCCESS` and its output filled with the byte 7, a larger one is
rejected with `STATUS_NOT_SUPPORTED`. -/
def versionKernel (v : Nat) : Kernel :=
  ⟨fun _ => STATUS_SUCCESS,
    fun _ req => if req.outSize ≤ tcpInfoSize.getD v 0
      then ⟨STATUS_SUCCESS, 0, req.outSize, List.replicate req.outSize 7⟩
      else ⟨STATUS_NOT_SUPPORTED, 0, 0, []⟩,
    fun _ _ _ => ⟨STATUS_SUCCESS, 0, []⟩, fun _ _ h => (STATUS_SUCCESS, h), id⟩

/-- A caller's `TCP_INFO_v2` holding stale bytes. -/
def staleTcpInfo : List Nat := List.replicate 152 170

/-- A runtime whose `lstrcmpW` tells equal strings from different ones, whose
process lookup fails and whose string routines succeed. -/
def exactRuntime : ArgumentRuntime :=
  ⟨fun a b => if a = b then 0 else 1,
    fun _ _ ProcessFilter => (STATUS_NOT_FOUND, ProcessFilter),
    fun _ SourceString => (true, RtlInitUnicodeString.chars SourceString),
    fun _ SourceString _ => (STATUS_SUCCESS, SourceString)⟩

/-- A caller's `H2_ARGUMENTS` holding stale values. -/
def staleArguments : H2_ARGUMENTS := ⟨⟨2, 4, [65, 0]⟩, 77, 88, true⟩

/-- The program name `AfdSocketView`, as characters. -/
def programName : List Nat := [65, 102, 100, 83, 111, 99, 107, 101, 116, 86, 105, 101, 119]

/-- A loader that finds every module and answers every message lookup with
the Unicode entry of the given text. -/
def textLoader (Text : List Nat) : Loader :=
  ⟨fun _ => (STATUS_SUCCESS, 0x7FF0), fun _ _ _ _ =>
    (STATUS_SUCCESS, ⟨offsetMessageText + sizeofWCHAR * Text.length, 1, Text⟩)⟩

/-- The text `{Ab}\r\nNo. \r\n` with its terminator and one character of padding. -/
def sampleMessageText : List Nat :=
  [123, 65, 98, 125, 13, 10, 78, 111, 46, 32, 13, 10, 0, 0]

/-- Decoders of which `H2AfdQueryPrintSharedInfo` and `H2AfdQueryPrintSimpleInfo`
make their queries and the others leave the history as it is. -/
def queryDecoders (k : Kernel) (abi : AfdAbi) : PhaseRun := fun p w SocketHandle _ =>
  match p with
  | .H2AfdQueryPrintSharedInfo =>
    H2AfdQueryPrintSharedInfo.history k abi w SocketHandle (List.replicate 248 170) 0
  | .H2AfdQueryPrintSimpleInfo =>
    H2AfdQueryPrintSimpleInfo.history k abi w SocketHandle (List.replicate 16 170)
  | _ => w

/-- The state of `wmain` when the handle loop starts. -/
def ScanState.initial : ScanState := ⟨STATUS_SUCCESS, 0, 0, [], World.initial⟩

/-! # Theorems -/

set_option maxRecDepth 8000

/-! ## Transport -/

/-- A request that ends with a success status was issued: the history grew
by exactly that request. -/
theorem H2AfdDeviceIoControl_trace_of_success (k : Kernel) (w : World) (h code : Nat)
    (inB : Option (List Nat)) (inSize : Nat) (outB : Option (List Nat)) (outSize : Nat)
    (bytes : Option Nat)
    (hs : NT_SUCCESS (H2AfdDeviceIoControl k w h code inB inSize outB outSize bytes).status = true) :
    (H2AfdDeviceIoControl k w h code inB inSize outB outSize bytes).world.trace
      = w.trace ++ [⟨h, code, inB, inSize, outB, outSize⟩] := by
  unfold H2AfdDeviceIoControl at hs ⊢
  by_cases hc : NT_SUCCESS (k.NtCreateEvent w) = true
  · simp only [hc, Bool.not_true, Bool.false_eq_true, if_false]
    split <;> rfl
  · simp only [Bool.not_eq_true] at hc
    simp [hc] at hs

/-- The output buffer after a request is at least as long as before it. -/
theorem H2AfdDeviceIoControl_output_length (k : Kernel) (w : World) (h code : Nat)
    (inB : Option (List Nat)) (inSize : Nat) (buf : List Nat) (outSize : Nat)
    (bytes : Option Nat) :
    buf.length ≤
      ((H2AfdDeviceIoControl k w h code inB inSize (some buf) outSize bytes).output.getD []).length := by
  unfold H2AfdDeviceIoControl
  by_cases hc : NT_SUCCESS (k.NtCreateEvent w) = true
  · simp only [hc, Bool.not_true, Bool.false_eq_true, if_false, Option.map_some', Option.getD_some,
      storeBytes, List.length_append, List.length_drop]
    omega
  · simp only [Bool.not_eq_true] at hc
    simp [hc]

/-- A request with an output buffer hands a buffer back. -/
theorem H2AfdDeviceIoControl_output_some (k : Kernel) (w : World) (h code : Nat)
    (inB : Option (List Nat)) (inSize : Nat) (buf : List Nat) (outSize : Nat)
    (bytes : Option Nat) :
    ∃ b, (H2AfdDeviceIoControl k w h code inB inSize (some buf) outSize bytes).output = some b := by
  unfold H2AfdDeviceIoControl
  by_cases hc : NT_SUCCESS (k.NtCreateEvent w) = true
  · simp [hc]
  · simp only [Bool.not_eq_true] at hc
    simp [hc]

/-! ## Address decoder -/

theorem remainingCapacity_eq (abi : AfdAbi) (h1 : 12 ≤ abi.sizeofAfdAddress)
    (h2 : abi.sizeofAfdAddress < 2 ^ 64) : remainingCapacity abi = abi.sizeofAfdAddress - 12 := by
  unfold remainingCapacity sizeofThroughAddressType offsetAddressType sizeofAddressType
  omega

theorem H2AfdIsSupportedAddressFamily_iff (n : Nat) :
    H2AfdIsSupportedAddressFamily (n : Int) = true ↔
      n = AF_INET ∨ n = AF_INET6 ∨ n = AF_BTH ∨ n = AF_HYPERV := by
  unfold H2AfdIsSupportedAddressFamily AF_INET AF_INET6 AF_BTH AF_HYPERV
  constructor
  · intro h
    split_ifs at h with h1 h2 h3 h4
    · left; exact_mod_cast h1
    · right; left; exact_mod_cast h2
    · right; right; left; exact_mod_cast h3
    · right; right; right; exact_mod_cast h4
  · rintro (h | h | h | h) <;> subst h <;> simp

/-- The buffer the full address query hands to the decoder holds at least
`sizeof(AFD_ADDRESS)` bytes. -/
theorem H2AfdQueryAddress_query_length (k : Kernel) (abi : AfdAbi) (w : World) (h : Nat)
    (Remote : Bool) :
    abi.sizeofAfdAddress ≤ ((H2AfdQueryAddress.query k abi w h Remote).output.getD []).length := by
  have := H2AfdDeviceIoControl_output_length k w h
    (if Remote then abi.IOCTL_AFD_GET_REMOTE_ADDRESS else abi.IOCTL_AFD_GET_ADDRESS)
    none 0 (List.replicate abi.sizeofAfdAddress 0) abi.sizeofAfdAddress none
  simpa [H2AfdQueryAddress.query] using this

/-- When the full query is reached, the function is the decoding of its answer. -/
theorem H2AfdQueryAddress_eq_finish (k : Kernel) (abi : AfdAbi) (w : World) (h : Nat)
    (Remote : Bool) (Address : List Nat)
    (hprobe : Remote = true → NT_SUCCESS (H2AfdQueryAddress.probe k abi w h).status = false) :
    H2AfdQueryAddress k abi w h Remote Address =
      H2AfdQueryAddress.finish abi
        (H2AfdQueryAddress.query k abi (H2AfdQueryAddress.worldAtQuery k abi w h Remote) h Remote)
        Address := by
  cases Remote with
  | false => simp [H2AfdQueryAddress, H2AfdQueryAddress.worldAtQuery]
  | true => simp [H2AfdQueryAddress, H2AfdQueryAddress.worldAtQuery, hprobe rfl]

/-- C1. When `H2AfdQueryAddress` is called with `Remote = TRUE` and the
zero-size probe (`IOCTL_AFD_GET_REMOTE_ADDRESS` with no input and no output
buffer) ends with a success status, the function returns `STATUS_NOT_FOUND`,
the probe is the only request it issued, and the caller's `Address` is as it
was; this for every handle, kernel and earlier history. -/
theorem H2AfdQueryAddress_remote_probe_success (k : Kernel) (abi : AfdAbi) (w : World)
    (SocketHandle : Nat) (Address : List Nat)
    (hprobe : NT_SUCCESS (H2AfdDeviceIoControl k w SocketHandle abi.IOCTL_AFD_GET_REMOTE_ADDRESS
      none 0 none 0 none).status = true) :
    (H2AfdQueryAddress k abi w SocketHandle true Address).status = STATUS_NOT_FOUND ∧
    (H2AfdQueryAddress k abi w SocketHandle true Address).world.trace =
      w.trace ++ [⟨SocketHandle, abi.IOCTL_AFD_GET_REMOTE_ADDRESS, none, 0, none, 0⟩] ∧
    (H2AfdQueryAddress k abi w SocketHandle true Address).Address = Address := by
  have ht := H2AfdDeviceIoControl_trace_of_success k w SocketHandle
    abi.IOCTL_AFD_GET_REMOTE_ADDRESS none 0 none 0 none hprobe
  simp only [H2AfdQueryAddress, H2AfdQueryAddress.probe, hprobe, if_true]
  exact ⟨trivial, ht, trivial⟩

theorem H2AfdQueryAddress_remote_probe_success_witness :
    NT_SUCCESS (H2AfdDeviceIoControl (probeKernel STATUS_SUCCESS ⟨0, 0, 8, sampleInetBytes⟩)
      World.initial 7 sampleAbi.IOCTL_AFD_GET_REMOTE_ADDRESS none 0 none 0 none).status = true ∧
    (H2AfdQueryAddress (probeKernel STATUS_SUCCESS ⟨0, 0, 8, sampleInetBytes⟩) sampleAbi
      World.initial 7 true staleAddress).status = STATUS_NOT_FOUND ∧
    (H2AfdQueryAddress (probeKernel STATUS_SUCCESS ⟨0, 0, 8, sampleInetBytes⟩) sampleAbi
      World.initial 7 true staleAddress).world.trace =
      World.initial.trace ++ [⟨7, sampleAbi.IOCTL_AFD_GET_REMOTE_ADDRESS, none, 0, none, 0⟩] ∧
    (H2AfdQueryAddress (probeKernel STATUS_SUCCESS ⟨0, 0, 8, sampleInetBytes⟩) sampleAbi
      World.initial 7 true staleAddress).Address = staleAddress :=
  ⟨by decide,
    H2AfdQueryAddress_remote_probe_success (probeKernel STATUS_SUCCESS ⟨0, 0, 8, sampleInetBytes⟩)
      sampleAbi World.initial 7 staleAddress (by decide)⟩

/-- The decoding of a buffer whose leading family is not supported. -/
theorem H2AfdQueryAddress_decode_legacy (abi : AfdAbi) (status : NTSTATUS)
    (buffer Address : List Nat) (w : World)
    (hfamily : H2AfdIsSupportedAddressFamily (ssFamily buffer) = false) :
    H2AfdQueryAddress.decode abi status buffer Address w =
      if legacyHeaderValid abi buffer then
        ⟨status, RtlCopyMemory (RtlZeroMemory Address sizeofSockaddrStorage)
          (buffer.drop offsetEmbeddedAddress)
          (readUSHORT buffer offsetAddressLength + sizeofAddressType), w⟩
      else ⟨STATUS_UNKNOWN_REVISION, Address, w⟩ := by
  simp [H2AfdQueryAddress.decode, hfamily]

theorem legacyHeaderValid_iff (abi : AfdAbi) (buffer : List Nat)
    (h1 : 12 ≤ abi.sizeofAfdAddress) (h2 : abi.sizeofAfdAddress < 2 ^ 64) :
    legacyHeaderValid abi buffer = true ↔
      (0 < readULONG buffer 0 ∧ 1 ≤ readLONG buffer 4 ∧
        readUSHORT buffer 8 ≤ abi.sizeofAfdAddress - 12 ∧
        (readUSHORT buffer 10 = AF_INET ∨ readUSHORT buffer 10 = AF_INET6 ∨
          readUSHORT buffer 10 = AF_BTH ∨ readUSHORT buffer 10 = AF_HYPERV)) := by
  simp only [legacyHeaderValid, Bool.and_eq_true, decide_eq_true_eq, remainingCapacity_eq abi h1 h2,
    H2AfdIsSupportedAddressFamily_iff, offsetActivityCount, offsetTAAddressCount,
    offsetAddressLength, offsetAddressType, and_assoc]

theorem STATUS_UNKNOWN_REVISION_not_success : NT_SUCCESS STATUS_UNKNOWN_REVISION = false := by
  decide

/-- C2. For every address buffer the driver returns with a success status
whose leading family field is not one of `AF_INET`, `AF_INET6`, `AF_BTH`,
`AF_HYPERV`: `H2AfdQueryAddress` returns success if and only if the four
legacy checks hold (`ActivityCount > 0`, `TAAddressCount >= 1`, inner
`AddressLength <= sizeof(buffer) - 12`, inner `AddressType` one of the four
families); then the status is the driver's and the output `Address` is
exactly the `AddressLength + 2` bytes that start at the inner `AddressType`
field (offset 10), followed by zero bytes up to `sizeof(SOCKADDR_STORAGE)`
(128 bytes in all when `sizeof(AFD_ADDRESS)` is at most 138); when a check
fails the result is `STATUS_UNKNOWN_REVISION`. -/
theorem H2AfdQueryAddress_legacy (k : Kernel) (abi : AfdAbi) (w : World) (SocketHandle : Nat)
    (Remote : Bool) (Address : List Nat) (q : IoResult) (buffer : List Nat)
    (hprobe : Remote = true → NT_SUCCESS (H2AfdQueryAddress.probe k abi w SocketHandle).status = false)
    (hq : H2AfdQueryAddress.query k abi (H2AfdQueryAddress.worldAtQuery k abi w SocketHandle Remote)
      SocketHandle Remote = q)
    (hstatus : NT_SUCCESS q.status = true)
    (hbuffer : q.output = some buffer)
    (hfamily : ¬ (readUSHORT buffer 0 = AF_INET ∨ readUSHORT buffer 0 = AF_INET6 ∨
      readUSHORT buffer 0 = AF_BTH ∨ readUSHORT buffer 0 = AF_HYPERV))
    (hsize : 12 ≤ abi.sizeofAfdAddress) (hsize64 : abi.sizeofAfdAddress < 2 ^ 64)
    (hAddress : Address.length = sizeofSockaddrStorage) :
    (NT_SUCCESS (H2AfdQueryAddress k abi w SocketHandle Remote Address).status = true ↔
      (0 < readULONG buffer 0 ∧ 1 ≤ readLONG buffer 4 ∧
        readUSHORT buffer 8 ≤ abi.sizeofAfdAddress - 12 ∧
        (readUSHORT buffer 10 = AF_INET ∨ readUSHORT buffer 10 = AF_INET6 ∨
          readUSHORT buffer 10 = AF_BTH ∨ readUSHORT buffer 10 = AF_HYPERV))) ∧
    (NT_SUCCESS (H2AfdQueryAddress k abi w SocketHandle Remote Address).status = true →
      (H2AfdQueryAddress k abi w SocketHandle Remote Address).status = q.status ∧
      (H2AfdQueryAddress k abi w SocketHandle Remote Address).Address =
        (buffer.drop 10).take (readUSHORT buffer 8 + 2) ++
          List.replicate (sizeofSockaddrStorage - (readUSHORT buffer 8 + 2)) 0 ∧
      ((buffer.drop 10).take (readUSHORT buffer 8 + 2)).length = readUSHORT buffer 8 + 2 ∧
      (abi.sizeofAfdAddress ≤ 138 →
        (H2AfdQueryAddress k abi w SocketHandle Remote Address).Address.length
          = sizeofSockaddrStorage)) ∧
    (NT_SUCCESS (H2AfdQueryAddress k abi w SocketHandle Remote Address).status = false →
      (H2AfdQueryAddress k abi w SocketHandle Remote Address).status = STATUS_UNKNOWN_REVISION) := by
  have hlen : abi.sizeofAfdAddress ≤ buffer.length := by
    have := H2AfdQueryAddress_query_length k abi
      (H2AfdQueryAddress.worldAtQuery k abi w SocketHandle Remote) SocketHandle Remote
    rw [hq, hbuffer] at this
    simpa using this
  have hfam : H2AfdIsSupportedAddressFamily (ssFamily buffer) = false := by
    rw [← Bool.not_eq_true, ssFamily, H2AfdIsSupportedAddressFamily_iff]
    exact hfamily
  rw [H2AfdQueryAddress_eq_finish k abi w SocketHandle Remote Address hprobe, hq]
  simp only [H2AfdQueryAddress.finish, hstatus, Bool.not_true, Bool.false_eq_true, if_false,
    hbuffer, Option.getD_some, H2AfdQueryAddress_decode_legacy abi q.status buffer Address q.world hfam]
  have hiff := legacyHeaderValid_iff abi buffer hsize hsize64
  by_cases hv : legacyHeaderValid abi buffer = true
  · have hv2 := hiff.mp hv
    simp only [hv, if_true, hstatus, true_iff, forall_const, Bool.true_eq_false, false_implies,
      and_true]
    have hcopy : RtlCopyMemory (RtlZeroMemory Address sizeofSockaddrStorage)
        (buffer.drop offsetEmbeddedAddress)
        (readUSHORT buffer offsetAddressLength + sizeofAddressType) =
        (buffer.drop 10).take (readUSHORT buffer 8 + 2) ++
          List.replicate (sizeofSockaddrStorage - (readUSHORT buffer 8 + 2)) 0 := by
      simp only [RtlCopyMemory, RtlZeroMemory, offsetEmbeddedAddress, offsetAddressType,
        offsetAddressLength, sizeofAddressType]
      congr 1
      rw [List.drop_eq_nil_of_le (le_of_eq hAddress), List.append_nil, List.drop_replicate]
    have htake : ((buffer.drop 10).take (readUSHORT buffer 8 + 2)).length
        = readUSHORT buffer 8 + 2 := by
      rw [List.length_take, List.length_drop]
      omega
    refine ⟨hv2, trivial, hcopy, htake, ?_⟩
    intro h138
    rw [hcopy, List.length_append, htake, List.length_replicate]
    unfold sizeofSockaddrStorage
    omega
  · have hv3 : ¬ _ := fun h => hv (hiff.mpr h)
    simp only [hv, Bool.false_eq_true, if_false, STATUS_UNKNOWN_REVISION_not_success,
      false_iff, false_implies, forall_const, and_true, true_and]
    exact hv3

theorem H2AfdQueryAddress_legacy_witness :
    NT_SUCCESS (H2AfdQueryAddress (constKernel ⟨0, 0, 40, sampleTdiBytes⟩) sampleAbi
      World.initial 7 false staleAddress).status = true ∧
    (H2AfdQueryAddress (constKernel ⟨0, 0, 40, sampleTdiBytes⟩) sampleAbi
      World.initial 7 false staleAddress).Address =
        [32, 0] ++ List.range 28 ++ List.replicate 98 0 :=
  ⟨by decide,
    ((H2AfdQueryAddress_legacy (constKernel ⟨0, 0, 40, sampleTdiBytes⟩) sampleAbi World.initial 7
      false staleAddress
      (H2AfdQueryAddress.query (constKernel ⟨0, 0, 40, sampleTdiBytes⟩) sampleAbi World.initial 7
        false)
      (storeBytes sampleTdiBytes (List.replicate 144 0))
      (by decide) rfl (by decide) rfl (by decide) (by decide) (by decide)
      rfl).2.1 (by decide)).2.1.trans rfl⟩

/-- C3 fails as stated. A legacy-wrapped buffer with
`ActivityCount = 2`, `TAAddressCount = 1`, `AddressLength = 65535` (above
`sizeof(buffer) - 12 = 132`) and `AddressType = AF_BTH`, returned with
`STATUS_SUCCESS`: the low half of `ActivityCount` reads as `AF_INET` in
`ss_family`, so line 403 takes the buffer as a direct address and the
function returns `STATUS_SUCCESS`, not `STATUS_UNKNOWN_REVISION`. -/
theorem H2AfdQueryAddress_oversized_accepted :
    (H2AfdQueryAddress.query (constKernel ⟨STATUS_SUCCESS, 0, 16, oversizedTdiBytes⟩) sampleAbi
      World.initial 7 false).output = some (storeBytes oversizedTdiBytes (List.replicate 144 0)) ∧
    readULONG (storeBytes oversizedTdiBytes (List.replicate 144 0)) 0 = 2 ∧
    readLONG (storeBytes oversizedTdiBytes (List.replicate 144 0)) 4 = 1 ∧
    readUSHORT (storeBytes oversizedTdiBytes (List.replicate 144 0)) 8 = 65535 ∧
    sampleAbi.sizeofAfdAddress - 12 = 132 ∧
    (H2AfdQueryAddress (constKernel ⟨STATUS_SUCCESS, 0, 16, oversizedTdiBytes⟩) sampleAbi
      World.initial 7 false staleAddress).status = STATUS_SUCCESS ∧
    (H2AfdQueryAddress (constKernel ⟨STATUS_SUCCESS, 0, 16, oversizedTdiBytes⟩) sampleAbi
      World.initial 7 false staleAddress).status ≠ STATUS_UNKNOWN_REVISION :=
  ⟨rfl, by decide, by decide, by decide, by decide, by decide, by decide⟩

/-- C3, amended. For every address buffer returned with a success status
whose leading family field (the low 16 bits of `ActivityCount`) is not one of
the four supported families and whose inner `AddressLength` exceeds
`sizeof(buffer) - 12`, `H2AfdQueryAddress` returns `STATUS_UNKNOWN_REVISION`
and leaves `Address` as it was, for every value of the inner family field,
of `TAAddressCount` and of the rest of `ActivityCount`. -/
theorem H2AfdQueryAddress_oversized_rejected (k : Kernel) (abi : AfdAbi) (w : World)
    (SocketHandle : Nat) (Remote : Bool) (Address : List Nat) (q : IoResult) (buffer : List Nat)
    (hprobe : Remote = true → NT_SUCCESS (H2AfdQueryAddress.probe k abi w SocketHandle).status = false)
    (hq : H2AfdQueryAddress.query k abi (H2AfdQueryAddress.worldAtQuery k abi w SocketHandle Remote)
      SocketHandle Remote = q)
    (hstatus : NT_SUCCESS q.status = true)
    (hbuffer : q.output = some buffer)
    (hfamily : ¬ (readUSHORT buffer 0 = AF_INET ∨ readUSHORT buffer 0 = AF_INET6 ∨
      readUSHORT buffer 0 = AF_BTH ∨ readUSHORT buffer 0 = AF_HYPERV))
    (hsize : 12 ≤ abi.sizeofAfdAddress) (hsize64 : abi.sizeofAfdAddress < 2 ^ 64)
    (hover : abi.sizeofAfdAddress - 12 < readUSHORT buffer 8) :
    (H2AfdQueryAddress k abi w SocketHandle Remote Address).status = STATUS_UNKNOWN_REVISION ∧
    (H2AfdQueryAddress k abi w SocketHandle Remote Address).Address = Address := by
  have hfam : H2AfdIsSupportedAddressFamily (ssFamily buffer) = false := by
    rw [← Bool.not_eq_true, ssFamily, H2AfdIsSupportedAddressFamily_iff]
    exact hfamily
  have hv : legacyHeaderValid abi buffer = false := by
    rw [← Bool.not_eq_true, legacyHeaderValid_iff abi buffer hsize hsize64]
    rintro ⟨_, _, h3, _⟩
    omega
  rw [H2AfdQueryAddress_eq_finish k abi w SocketHandle Remote Address hprobe, hq]
  simp [H2AfdQueryAddress.finish, hstatus, hbuffer,
    H2AfdQueryAddress_decode_legacy abi q.status buffer Address q.world hfam, hv]

theorem H2AfdQueryAddress_oversized_rejected_witness :
    readUSHORT (storeBytes oversizedLegacyBytes (List.replicate 144 0)) 8 = 65535 ∧
    (H2AfdQueryAddress (constKernel ⟨STATUS_SUCCESS, 0, 16, oversizedLegacyBytes⟩) sampleAbi
      World.initial 7 false staleAddress).status = STATUS_UNKNOWN_REVISION ∧
    (H2AfdQueryAddress (constKernel ⟨STATUS_SUCCESS, 0, 16, oversizedLegacyBytes⟩) sampleAbi
      World.initial 7 false staleAddress).Address = staleAddress :=
  ⟨by decide,
    H2AfdQueryAddress_oversized_rejected (constKernel ⟨STATUS_SUCCESS, 0, 16, oversizedLegacyBytes⟩)
      sampleAbi World.initial 7 false staleAddress
      (H2AfdQueryAddress.query (constKernel ⟨STATUS_SUCCESS, 0, 16, oversizedLegacyBytes⟩) sampleAbi
        World.initial 7 false)
      (storeBytes oversizedLegacyBytes (List.replicate 144 0))
      (by decide) rfl (by decide) rfl (by decide) (by decide) (by decide) (by decide)⟩

/-- C4. For every address buffer the driver returns with a success status
whose leading family field is `AF_INET`, `AF_INET6`, `AF_BTH` or `AF_HYPERV`,
`H2AfdQueryAddress` returns the driver's status and the output `Address` is
byte for byte the leading `sizeof(SOCKADDR_STORAGE)` bytes of the buffer: no
legacy check is consulted and no byte is altered. -/
theorem H2AfdQueryAddress_direct (k : Kernel) (abi : AfdAbi) (w : World) (SocketHandle : Nat)
    (Remote : Bool) (Address : List Nat) (q : IoResult) (buffer : List Nat)
    (hprobe : Remote = true → NT_SUCCESS (H2AfdQueryAddress.probe k abi w SocketHandle).status = false)
    (hq : H2AfdQueryAddress.query k abi (H2AfdQueryAddress.worldAtQuery k abi w SocketHandle Remote)
      SocketHandle Remote = q)
    (hstatus : NT_SUCCESS q.status = true)
    (hbuffer : q.output = some buffer)
    (hfamily : readUSHORT buffer 0 = AF_INET ∨ readUSHORT buffer 0 = AF_INET6 ∨
      readUSHORT buffer 0 = AF_BTH ∨ readUSHORT buffer 0 = AF_HYPERV)
    (hAddress : Address.length = sizeofSockaddrStorage) :
    (H2AfdQueryAddress k abi w SocketHandle Remote Address).status = q.status ∧
    NT_SUCCESS (H2AfdQueryAddress k abi w SocketHandle Remote Address).status = true ∧
    (H2AfdQueryAddress k abi w SocketHandle Remote Address).Address =
      buffer.take sizeofSockaddrStorage := by
  have hfam : H2AfdIsSupportedAddressFamily (ssFamily buffer) = true := by
    rw [ssFamily, H2AfdIsSupportedAddressFamily_iff]
    exact hfamily
  rw [H2AfdQueryAddress_eq_finish k abi w SocketHandle Remote Address hprobe, hq]
  simp only [H2AfdQueryAddress.finish, hstatus, Bool.not_true, Bool.false_eq_true, if_false,
    hbuffer, Option.getD_some, H2AfdQueryAddress.decode, hfam, if_true, RtlCopyMemory, true_and]
  rw [List.drop_eq_nil_of_le (le_of_eq hAddress), List.append_nil]

theorem H2AfdQueryAddress_direct_witness :
    (H2AfdQueryAddress (probeKernel STATUS_NOT_FOUND ⟨STATUS_SUCCESS, 0, 16, sampleInetBytes⟩)
      sampleAbi World.initial 7 true staleAddress).status = STATUS_SUCCESS ∧
    (H2AfdQueryAddress (probeKernel STATUS_NOT_FOUND ⟨STATUS_SUCCESS, 0, 16, sampleInetBytes⟩)
      sampleAbi World.initial 7 true staleAddress).Address =
        [2, 0, 0, 80, 127, 0, 0, 1] ++ List.replicate 120 0 :=
  have h := H2AfdQueryAddress_direct
    (probeKernel STATUS_NOT_FOUND ⟨STATUS_SUCCESS, 0, 16, sampleInetBytes⟩) sampleAbi
    World.initial 7 true staleAddress
    (H2AfdQueryAddress.query (probeKernel STATUS_NOT_FOUND ⟨STATUS_SUCCESS, 0, 16, sampleInetBytes⟩)
      sampleAbi
      (H2AfdQueryAddress.worldAtQuery
        (probeKernel STATUS_NOT_FOUND ⟨STATUS_SUCCESS, 0, 16, sampleInetBytes⟩) sampleAbi
        World.initial 7 true) 7 true)
    (storeBytes sampleInetBytes (List.replicate 144 0))
    (fun _ => by decide) rfl (by decide) rfl (by decide) rfl
  ⟨h.1.trans (by decide), h.2.2.trans rfl⟩

/-- What follows the full query writes `Address` only when it returns success. -/
theorem H2AfdQueryAddress_finish_failure (abi : AfdAbi) (q : IoResult) (Address : List Nat)
    (hfail : NT_SUCCESS (H2AfdQueryAddress.finish abi q Address).status = false) :
    (H2AfdQueryAddress.finish abi q Address).Address = Address := by
  unfold H2AfdQueryAddress.finish at hfail ⊢
  by_cases hs : NT_SUCCESS q.status = true
  · simp only [hs, Bool.not_true, Bool.false_eq_true, if_false] at hfail ⊢
    unfold H2AfdQueryAddress.decode at hfail ⊢
    split_ifs at hfail ⊢ with h1 h2
    · simp [hs] at hfail
    · simp [hs] at hfail
    · rfl
  · simp only [Bool.not_eq_true] at hs
    simp [hs]

/-- C5. Atomicity of `H2AfdQueryAddress`: on every return with a
non-success status (remote probe hit, transport failure or
`STATUS_UNKNOWN_REVISION`) the caller's `Address` is exactly as it was before
the call; it is written only on the two success paths. -/
theorem H2AfdQueryAddress_failure_keeps_Address (k : Kernel) (abi : AfdAbi) (w : World)
    (SocketHandle : Nat) (Remote : Bool) (Address : List Nat)
    (hfail : NT_SUCCESS (H2AfdQueryAddress k abi w SocketHandle Remote Address).status = false) :
    (H2AfdQueryAddress k abi w SocketHandle Remote Address).Address = Address := by
  unfold H2AfdQueryAddress at hfail ⊢
  cases Remote with
  | false =>
    simp only [Bool.false_eq_true, if_false] at hfail ⊢
    exact H2AfdQueryAddress_finish_failure abi _ Address hfail
  | true =>
    simp only [if_true] at hfail ⊢
    split_ifs at hfail ⊢ with hp
    · rfl
    · exact H2AfdQueryAddress_finish_failure abi _ Address hfail

theorem H2AfdQueryAddress_failure_keeps_Address_witness :
    NT_SUCCESS (H2AfdQueryAddress (constKernel ⟨STATUS_PENDING, STATUS_ACCESS_DENIED, 0, [2, 0, 9]⟩)
      sampleAbi World.initial 7 false staleAddress).status = false ∧
    (H2AfdQueryAddress (constKernel ⟨STATUS_PENDING, STATUS_ACCESS_DENIED, 0, [2, 0, 9]⟩)
      sampleAbi World.initial 7 false staleAddress).Address = staleAddress :=
  ⟨by decide,
    H2AfdQueryAddress_failure_keeps_Address
      (constKernel ⟨STATUS_PENDING, STATUS_ACCESS_DENIED, 0, [2, 0, 9]⟩) sampleAbi World.initial 7
      false staleAddress (by decide)⟩

/-! ## Shared-context decoder -/

theorem STATUS_BUFFER_OVERFLOW_not_success : NT_SUCCESS STATUS_BUFFER_OVERFLOW = false := by
  decide

theorem STATUS_NOT_FOUND_not_success : NT_SUCCESS STATUS_NOT_FOUND = false := by
  decide

theorem ne_STATUS_BUFFER_OVERFLOW_of_success (status : NTSTATUS)
    (h : NT_SUCCESS status = true) : status ≠ STATUS_BUFFER_OVERFLOW := by
  intro he
  rw [he, STATUS_BUFFER_OVERFLOW_not_success] at h
  exact Bool.false_ne_true h

/-- C6. Whenever the get-context request ends with
`STATUS_BUFFER_OVERFLOW`, `H2AfdQuerySharedInfo` returns `STATUS_SUCCESS`, and
the caller's `SharedInfo` is the buffer as the request left it. -/
theorem H2AfdQuerySharedInfo_overflow (k : Kernel) (abi : AfdAbi) (w : World)
    (SocketHandle : Nat) (SharedInfo : List Nat) (returnedSize : Nat)
    (hoverflow : (H2AfdDeviceIoControl k w SocketHandle abi.IOCTL_AFD_GET_CONTEXT none 0
      (some SharedInfo) abi.sizeofSockSharedInfo (some returnedSize)).status
        = STATUS_BUFFER_OVERFLOW) :
    (H2AfdQuerySharedInfo k abi w SocketHandle SharedInfo returnedSize).status = STATUS_SUCCESS ∧
    some (H2AfdQuerySharedInfo k abi w SocketHandle SharedInfo returnedSize).SharedInfo =
      (H2AfdDeviceIoControl k w SocketHandle abi.IOCTL_AFD_GET_CONTEXT none 0
        (some SharedInfo) abi.sizeofSockSharedInfo (some returnedSize)).output := by
  obtain ⟨b, hb⟩ := H2AfdDeviceIoControl_output_some k w SocketHandle abi.IOCTL_AFD_GET_CONTEXT
    none 0 SharedInfo abi.sizeofSockSharedInfo (some returnedSize)
  unfold H2AfdQuerySharedInfo
  simp only [hoverflow, if_true, true_and, hb, Option.getD_some]

theorem H2AfdQuerySharedInfo_overflow_witness :
    (H2AfdDeviceIoControl (constKernel ⟨STATUS_PENDING, STATUS_BUFFER_OVERFLOW, 5, [1, 2, 3, 4, 5]⟩)
      World.initial 7 sampleAbi.IOCTL_AFD_GET_CONTEXT none 0 (some [9, 9, 9, 9, 9])
      sampleAbi.sizeofSockSharedInfo (some 77)).status = STATUS_BUFFER_OVERFLOW ∧
    (H2AfdQuerySharedInfo (constKernel ⟨STATUS_PENDING, STATUS_BUFFER_OVERFLOW, 5, [1, 2, 3, 4, 5]⟩)
      sampleAbi World.initial 7 [9, 9, 9, 9, 9] 77).status = STATUS_SUCCESS :=
  ⟨by decide,
    (H2AfdQuerySharedInfo_overflow
      (constKernel ⟨STATUS_PENDING, STATUS_BUFFER_OVERFLOW, 5, [1, 2, 3, 4, 5]⟩) sampleAbi
      World.initial 7 [9, 9, 9, 9, 9] 77 (by decide)).1⟩

/-- C7 fails as stated. A get-context request that ends
with `STATUS_BUFFER_OVERFLOW` and reports 3 returned bytes, fewer than
`sizeof(SOCK_SHARED_INFO)`: line 173 returns `STATUS_SUCCESS` before the size
is looked at, so the result is a success status and not `STATUS_NOT_FOUND`. -/
theorem H2AfdQuerySharedInfo_accepts_short_overflow :
    (H2AfdDeviceIoControl (constKernel ⟨STATUS_BUFFER_OVERFLOW, 0, 3, [1, 2, 3]⟩)
      World.initial 7 sampleAbi.IOCTL_AFD_GET_CONTEXT none 0 (some [9, 9, 9, 9, 9])
      sampleAbi.sizeofSockSharedInfo (some 77)).status = STATUS_BUFFER_OVERFLOW ∧
    (H2AfdDeviceIoControl (constKernel ⟨STATUS_BUFFER_OVERFLOW, 0, 3, [1, 2, 3]⟩)
      World.initial 7 sampleAbi.IOCTL_AFD_GET_CONTEXT none 0 (some [9, 9, 9, 9, 9])
      sampleAbi.sizeofSockSharedInfo (some 77)).bytesReturned = some 3 ∧
    3 < sampleAbi.sizeofSockSharedInfo ∧
    (H2AfdQuerySharedInfo (constKernel ⟨STATUS_BUFFER_OVERFLOW, 0, 3, [1, 2, 3]⟩) sampleAbi
      World.initial 7 [9, 9, 9, 9, 9] 77).status = STATUS_SUCCESS ∧
    (H2AfdQuerySharedInfo (constKernel ⟨STATUS_BUFFER_OVERFLOW, 0, 3, [1, 2, 3]⟩) sampleAbi
      World.initial 7 [9, 9, 9, 9, 9] 77).status ≠ STATUS_NOT_FOUND :=
  ⟨by decide, by decide, by decide, by decide, by decide⟩

/-- C7, amended. For every get-context request that ends with a success
status and reports fewer returned bytes than `sizeof(SOCK_SHARED_INFO)`,
`H2AfdQuerySharedInfo` returns `STATUS_NOT_FOUND`, which is not a success
status. -/
theorem H2AfdQuerySharedInfo_short (k : Kernel) (abi : AfdAbi) (w : World)
    (SocketHandle : Nat) (SharedInfo : List Nat) (returnedSize n : Nat)
    (hstatus : NT_SUCCESS (H2AfdDeviceIoControl k w SocketHandle abi.IOCTL_AFD_GET_CONTEXT none 0
      (some SharedInfo) abi.sizeofSockSharedInfo (some returnedSize)).status = true)
    (hbytes : (H2AfdDeviceIoControl k w SocketHandle abi.IOCTL_AFD_GET_CONTEXT none 0
      (some SharedInfo) abi.sizeofSockSharedInfo (some returnedSize)).bytesReturned = some n)
    (hshort : n < abi.sizeofSockSharedInfo) :
    (H2AfdQuerySharedInfo k abi w SocketHandle SharedInfo returnedSize).status = STATUS_NOT_FOUND ∧
    NT_SUCCESS (H2AfdQuerySharedInfo k abi w SocketHandle SharedInfo returnedSize).status
      = false := by
  have hne := ne_STATUS_BUFFER_OVERFLOW_of_success _ hstatus
  have hr : (H2AfdQuerySharedInfo k abi w SocketHandle SharedInfo returnedSize).status
      = STATUS_NOT_FOUND := by
    unfold H2AfdQuerySharedInfo
    simp only [hne, if_false, hstatus, Bool.not_true, Bool.false_eq_true, hbytes,
      Option.getD_some, hshort, if_true]
  exact ⟨hr, by rw [hr]; exact STATUS_NOT_FOUND_not_success⟩

theorem H2AfdQuerySharedInfo_short_witness :
    (H2AfdQuerySharedInfo (constKernel ⟨STATUS_SUCCESS, 0, 3, [1, 2, 3]⟩) sampleAbi
      World.initial 7 [9, 9, 9, 9, 9] 77).status = STATUS_NOT_FOUND ∧
    NT_SUCCESS (H2AfdQuerySharedInfo (constKernel ⟨STATUS_SUCCESS, 0, 3, [1, 2, 3]⟩) sampleAbi
      World.initial 7 [9, 9, 9, 9, 9] 77).status = false :=
  H2AfdQuerySharedInfo_short (constKernel ⟨STATUS_SUCCESS, 0, 3, [1, 2, 3]⟩) sampleAbi
    World.initial 7 [9, 9, 9, 9, 9] 77 3 (by decide) (by decide) (by decide)

/-! ## Identity check -/

/-- C8. `H2AfdIsSocketHandle` maps the status of the device-name query as
follows: `STATUS_BUFFER_OVERFLOW` yields `STATUS_NOT_SAME_DEVICE`; every other
non-success status is returned unchanged. -/
theorem H2AfdIsSocketHandle_status_map (k : Kernel) (abi : AfdAbi) (w : World) (Handle : Nat) :
    ((k.NtQueryInformationFile w Handle (sizeofProbeBuffer abi)).status = STATUS_BUFFER_OVERFLOW →
      (H2AfdIsSocketHandle k abi w Handle).1 = STATUS_NOT_SAME_DEVICE) ∧
    ((k.NtQueryInformationFile w Handle (sizeofProbeBuffer abi)).status ≠ STATUS_BUFFER_OVERFLOW →
      NT_SUCCESS (k.NtQueryInformationFile w Handle (sizeofProbeBuffer abi)).status = false →
      (H2AfdIsSocketHandle k abi w Handle).1 =
        (k.NtQueryInformationFile w Handle (sizeofProbeBuffer abi)).status) := by
  constructor
  · intro h
    simp [H2AfdIsSocketHandle, h]
  · intro h1 h2
    simp [H2AfdIsSocketHandle, h1, h2]

theorem H2AfdIsSocketHandle_status_map_witness :
    (H2AfdIsSocketHandle (volumeKernel ⟨STATUS_BUFFER_OVERFLOW, 40, nsiName⟩) sampleAbi
      World.initial 4).1 = STATUS_NOT_SAME_DEVICE ∧
    (H2AfdIsSocketHandle (volumeKernel ⟨STATUS_ACCESS_DENIED, 0, []⟩) sampleAbi
      World.initial 4).1 = STATUS_ACCESS_DENIED :=
  ⟨(H2AfdIsSocketHandle_status_map (volumeKernel ⟨STATUS_BUFFER_OVERFLOW, 40, nsiName⟩)
      sampleAbi World.initial 4).1 (by decide),
    (H2AfdIsSocketHandle_status_map (volumeKernel ⟨STATUS_ACCESS_DENIED, 0, []⟩)
      sampleAbi World.initial 4).2 (by decide) (by decide)⟩

theorem getD_append_of_lt (a pad : List Nat) (i : Nat) (h : i < a.length) :
    (a ++ pad).getD i 0 = a[i] := by
  rw [List.getD_eq_getElem?_getD, List.getElem?_append_left h, List.getElem?_eq_getElem h]
  rfl

/-- Two counted strings whose lengths are those of their characters are equal
for `RtlEqualUnicodeString`, case-insensitively, exactly when their upcased
characters agree. -/
theorem RtlEqualUnicodeString_iff (up : Nat → Nat) (a b padA padB : List Nat) (m1 m2 : Nat) :
    RtlEqualUnicodeString up ⟨sizeofWCHAR * a.length, m1, a ++ padA⟩
      ⟨sizeofWCHAR * b.length, m2, b ++ padB⟩ true = true ↔ a.map up = b.map up := by
  simp only [RtlEqualUnicodeString, sizeofWCHAR, Bool.and_eq_true, decide_eq_true_eq,
    List.all_eq_true, List.mem_range, if_true]
  constructor
  · rintro ⟨hl, hall⟩
    have hlen : a.length = b.length := by omega
    apply List.ext_getElem (by simp [hlen])
    intro i h1 h2
    simp only [List.length_map] at h1 h2
    have := hall i (by omega)
    rw [getD_append_of_lt a padA i h1, getD_append_of_lt b padB i h2] at this
    simpa using this
  · intro h
    have hlen : a.length = b.length := by simpa using congrArg List.length h
    refine ⟨by omega, ?_⟩
    intro i hi
    have h1 : i < a.length := by omega
    have h2 : i < b.length := by omega
    rw [getD_append_of_lt a padA i h1, getD_append_of_lt b padB i h2]
    have := congrArg (fun l => l[i]?) h
    simpa [List.getElem?_map, List.getElem?_eq_getElem h1, List.getElem?_eq_getElem h2] using this

theorem sizeofProbeBuffer_ge (abi : AfdAbi) :
    8 + 2 * abi.AFD_DEVICE_NAME.length ≤ sizeofProbeBuffer abi := by
  unfold sizeofProbeBuffer sizeofFileVolumeNameInformation sizeofWCHAR
  omega

/-- After a successful, well-formed device-name query the identity check is
the case-insensitive comparison of the reported name with the AFD name. -/
theorem H2AfdIsSocketHandle_of_success (k : Kernel) (abi : AfdAbi) (w : World) (Handle : Nat)
    (hstatus : NT_SUCCESS (k.NtQueryInformationFile w Handle (sizeofProbeBuffer abi)).status = true)
    (hlength : (k.NtQueryInformationFile w Handle (sizeofProbeBuffer abi)).DeviceNameLength =
      sizeofWCHAR * (k.NtQueryInformationFile w Handle (sizeofProbeBuffer abi)).DeviceName.length)
    (hfits : offsetDeviceName +
      (k.NtQueryInformationFile w Handle (sizeofProbeBuffer abi)).DeviceNameLength
        ≤ sizeofProbeBuffer abi)
    (hbuffer : sizeofProbeBuffer abi ≤ 65535) :
    (H2AfdIsSocketHandle k abi w Handle).1 =
      if (k.NtQueryInformationFile w Handle (sizeofProbeBuffer abi)).DeviceName.map
          k.RtlUpcaseUnicodeChar = abi.AFD_DEVICE_NAME.map k.RtlUpcaseUnicodeChar
      then STATUS_SUCCESS else STATUS_NOT_SAME_DEVICE := by
  have hne := ne_STATUS_BUFFER_OVERFLOW_of_success _ hstatus
  have hge := sizeofProbeBuffer_ge abi
  have h1 : (k.NtQueryInformationFile w Handle (sizeofProbeBuffer abi)).DeviceNameLength
      % 2 ^ 32 % 65536 =
      sizeofWCHAR * (k.NtQueryInformationFile w Handle (sizeofProbeBuffer abi)).DeviceName.length := by
    rw [← hlength]
    unfold offsetDeviceName at hfits
    omega
  have h2 : (sizeofWCHAR * abi.AFD_DEVICE_NAME.length) % 65536 =
      sizeofWCHAR * abi.AFD_DEVICE_NAME.length := by
    unfold sizeofWCHAR
    omega
  unfold H2AfdIsSocketHandle
  simp only [hne, if_false, hstatus, Bool.not_true, Bool.false_eq_true, h1, afdDeviceName, h2,
    probeDeviceName, storeBytes, RtlEqualUnicodeString_iff]
  split_ifs <;> rfl

/-- C9. When the device-name query succeeds, `H2AfdIsSocketHandle` returns
`STATUS_SUCCESS` if and only if the returned device name equals the AFD device
name under case-insensitive comparison, and `STATUS_NOT_SAME_DEVICE`
otherwise; in particular a name of another length (a proper prefix or an
extension of the AFD name) is rejected. -/
theorem H2AfdIsSocketHandle_success_iff (k : Kernel) (abi : AfdAbi) (w : World) (Handle : Nat)
    (hstatus : NT_SUCCESS (k.NtQueryInformationFile w Handle (sizeofProbeBuffer abi)).status = true)
    (hlength : (k.NtQueryInformationFile w Handle (sizeofProbeBuffer abi)).DeviceNameLength =
      sizeofWCHAR * (k.NtQueryInformationFile w Handle (sizeofProbeBuffer abi)).DeviceName.length)
    (hfits : offsetDeviceName +
      (k.NtQueryInformationFile w Handle (sizeofProbeBuffer abi)).DeviceNameLength
        ≤ sizeofProbeBuffer abi)
    (hbuffer : sizeofProbeBuffer abi ≤ 65535) :
    ((H2AfdIsSocketHandle k abi w Handle).1 = STATUS_SUCCESS ↔
      (k.NtQueryInformationFile w Handle (sizeofProbeBuffer abi)).DeviceName.map
        k.RtlUpcaseUnicodeChar = abi.AFD_DEVICE_NAME.map k.RtlUpcaseUnicodeChar) ∧
    ((H2AfdIsSocketHandle k abi w Handle).1 ≠ STATUS_SUCCESS →
      (H2AfdIsSocketHandle k abi w Handle).1 = STATUS_NOT_SAME_DEVICE) ∧
    ((k.NtQueryInformationFile w Handle (sizeofProbeBuffer abi)).DeviceName.length ≠
        abi.AFD_DEVICE_NAME.length →
      (H2AfdIsSocketHandle k abi w Handle).1 = STATUS_NOT_SAME_DEVICE) := by
  have hdiff : STATUS_NOT_SAME_DEVICE ≠ STATUS_SUCCESS := by decide
  rw [H2AfdIsSocketHandle_of_success k abi w Handle hstatus hlength hfits hbuffer]
  refine ⟨?_, ?_, ?_⟩
  · split_ifs with h
    · simp [h]
    · simp [h, hdiff]
  · split_ifs with h
    · intro hc; exact absurd rfl hc
    · intro _; rfl
  · intro hl
    have hmap : ¬ (k.NtQueryInformationFile w Handle (sizeofProbeBuffer abi)).DeviceName.map
        k.RtlUpcaseUnicodeChar = abi.AFD_DEVICE_NAME.map k.RtlUpcaseUnicodeChar := by
      intro he
      exact hl (by simpa using congrArg List.length he)
    simp [hmap]

theorem H2AfdIsSocketHandle_success_iff_witness :
    (H2AfdIsSocketHandle (volumeKernel ⟨STATUS_SUCCESS, 22, upperAfdName⟩) sampleAbi
      World.initial 4).1 = STATUS_SUCCESS ∧
    (H2AfdIsSocketHandle (volumeKernel ⟨STATUS_SUCCESS, 22, nsiName⟩) sampleAbi
      World.initial 4).1 = STATUS_NOT_SAME_DEVICE ∧
    (H2AfdIsSocketHandle (volumeKernel ⟨STATUS_SUCCESS, 20, upperAfdName.take 10⟩) sampleAbi
      World.initial 4).1 = STATUS_NOT_SAME_DEVICE :=
  ⟨(H2AfdIsSocketHandle_success_iff (volumeKernel ⟨STATUS_SUCCESS, 22, upperAfdName⟩) sampleAbi
      World.initial 4 (by decide) (by decide) (by decide) (by decide)).1.mpr (by decide),
    (H2AfdIsSocketHandle_success_iff (volumeKernel ⟨STATUS_SUCCESS, 22, nsiName⟩) sampleAbi
      World.initial 4 (by decide) (by decide) (by decide) (by decide)).2.1 (by decide),
    (H2AfdIsSocketHandle_success_iff (volumeKernel ⟨STATUS_SUCCESS, 20, upperAfdName.take 10⟩)
      sampleAbi World.initial 4 (by decide) (by decide) (by decide) (by decide)).2.2 (by decide)⟩

/-! ## The caller -/

theorem mem_of_mem_ite_nil {α : Type} (p : Prop) [Decidable p] (L : List α) (c : α)
    (h : c ∈ if p then L else []) : c ∈ L := by
  split_ifs at h with hp
  · exact h
  · simp at h

/-- A decoder call made while one snapshot entry is checked is the summary of
the handle just duplicated, and that handle passed the identity check. -/
theorem wmain_checkHandle_decoder (k : Kernel) (abi : AfdAbi) (d : Decoders)
    (processHandle : Nat) (st : ScanState) (entry : HandleEntry) (c : Call)
    (hc : c ∈ (wmain.checkHandle k abi d processHandle st entry).2.2.2.1)
    (hdec : c.isDecoder = true) :
    c = .H2AfdQueryPrintSummarySocket
      (k.NtDuplicateObject st.world processHandle entry.HandleValue).2 ∧
    NT_SUCCESS (H2AfdIsSocketHandle k abi st.world.tick
      (k.NtDuplicateObject st.world processHandle entry.HandleValue).2).1 = true := by
  unfold wmain.checkHandle at hc
  by_cases hd : NT_SUCCESS (k.NtDuplicateObject st.world processHandle entry.HandleValue).1 = true
  · simp only [hd, if_true] at hc
    by_cases hs : NT_SUCCESS (H2AfdIsSocketHandle k abi st.world.tick
        (k.NtDuplicateObject st.world processHandle entry.HandleValue).2).1 = true
    · simp only [hs, if_true, List.mem_cons, List.mem_singleton, List.not_mem_nil,
        or_false] at hc
      rcases hc with hc | hc | hc
      · subst hc; simp [Call.isDecoder] at hdec
      · exact ⟨hc, hs⟩
      · subst hc; simp [Call.isDecoder] at hdec
    · simp only [hs, Bool.false_eq_true, if_false] at hc
      split_ifs at hc <;> simp at hc
  · simp only [hd] at hc
    simp at hc

/-- The calls one pass of the handle loop adds; a decoder call among them is
the summary of the handle just duplicated, which passed the identity check. -/
theorem wmain_scanHandle_added (k : Kernel) (abi : AfdAbi) (d : Decoders)
    (processHandle pid typeIndex : Nat) (Verbose : Bool) (st : ScanState) (entry : HandleEntry) :
    ∃ added, (wmain.scanHandle k abi d processHandle pid typeIndex Verbose st entry).calls
        = st.calls ++ added ∧
      ∀ c ∈ added, c.isDecoder = true →
        c = .H2AfdQueryPrintSummarySocket
          (k.NtDuplicateObject st.world processHandle entry.HandleValue).2 ∧
        NT_SUCCESS (H2AfdIsSocketHandle k abi st.world.tick
          (k.NtDuplicateObject st.world processHandle entry.HandleValue).2).1 = true := by
  unfold wmain.scanHandle
  by_cases hsel : entry.UniqueProcessId = pid ∧ entry.ObjectTypeIndex = typeIndex
  · rw [if_pos hsel]
    refine ⟨(wmain.checkHandle k abi d processHandle st entry).2.2.2.1 ++
      ((if !NT_SUCCESS (wmain.checkHandle k abi d processHandle st entry).1 && Verbose then
          [.wprintf_s "[0x%0.4zX] <Unable to %s>: " [entry.HandleValue],
           .H2PrintStatusWithDescription (wmain.checkHandle k abi d processHandle st entry).1,
           .wprintf_s "\r\n" []]
        else []) ++
        (if (wmain.checkHandle k abi d processHandle st entry).2.1 ≠ 0 then
          [.NtClose (wmain.checkHandle k abi d processHandle st entry).2.1]
        else [])), by simp only [List.append_assoc], ?_⟩
    intro c hc hdec
    simp only [List.mem_append] at hc
    rcases hc with hc | hc | hc
    · exact wmain_checkHandle_decoder k abi d processHandle st entry c hc hdec
    · have hc2 := mem_of_mem_ite_nil _ _ _ hc
      simp only [List.mem_cons, List.mem_singleton, List.not_mem_nil, or_false] at hc2
      rcases hc2 with hc2 | hc2 | hc2 <;> subst hc2 <;> simp [Call.isDecoder] at hdec
    · have hc2 := mem_of_mem_ite_nil _ _ _ hc
      simp only [List.mem_singleton] at hc2
      subst hc2; simp [Call.isDecoder] at hdec
  · rw [if_neg hsel]
    exact ⟨[], by simp, by simp⟩

/-- A decoder call that the handle loop adds is the summary of a handle that
passed the identity check at some moment of the loop. -/
theorem wmain_scanHandles_calls (k : Kernel) (abi : AfdAbi) (d : Decoders)
    (processHandle pid typeIndex : Nat)
    (Verbose : Bool) (Handles : List HandleEntry) (st : ScanState) (c : Call)
    (hc : c ∈ (wmain.scanHandles k abi d processHandle pid typeIndex Verbose st Handles).calls)
    (hdec : c.isDecoder = true) :
    c ∈ st.calls ∨ ∃ w h, c = .H2AfdQueryPrintSummarySocket h ∧
      NT_SUCCESS (H2AfdIsSocketHandle k abi w h).1 = true := by
  induction Handles generalizing st with
  | nil => exact Or.inl hc
  | cons e es ih =>
    simp only [wmain.scanHandles, List.foldl_cons] at hc
    rcases ih _ hc with h | h
    · obtain ⟨added, hadd, hprop⟩ :=
        wmain_scanHandle_added k abi d processHandle pid typeIndex Verbose st e
      rw [hadd, List.mem_append] at h
      rcases h with h | h
      · exact Or.inl h
      · exact Or.inr ⟨_, _, hprop c h hdec⟩
    · exact Or.inr h

/-- Every call of `H2AfdDeviceIoControl` asks for one event; the request
reaches the driver exactly when the event is created, and otherwise the
status of `NtCreateEvent` comes back with the buffers as they were. -/
theorem H2AfdDeviceIoControl_world (k : Kernel) (w : World) (h code : Nat)
    (inB : Option (List Nat)) (inSize : Nat) (outB : Option (List Nat)) (outSize : Nat)
    (bytes : Option Nat) :
    (H2AfdDeviceIoControl k w h code inB inSize outB outSize bytes).world.createCalls
      = w.createCalls + 1 ∧
    (NT_SUCCESS (k.NtCreateEvent w) = true →
      (H2AfdDeviceIoControl k w h code inB inSize outB outSize bytes).world.trace
        = w.trace ++ [⟨h, code, inB, inSize, outB, outSize⟩]) ∧
    (NT_SUCCESS (k.NtCreateEvent w) = false →
      (H2AfdDeviceIoControl k w h code inB inSize outB outSize bytes).world.trace = w.trace ∧
      (H2AfdDeviceIoControl k w h code inB inSize outB outSize bytes).status
        = k.NtCreateEvent w ∧
      (H2AfdDeviceIoControl k w h code inB inSize outB outSize bytes).output = outB) := by
  unfold H2AfdDeviceIoControl
  by_cases hc : NT_SUCCESS (k.NtCreateEvent w) = true
  · simp only [hc, Bool.not_true, Bool.false_eq_true, if_false, true_implies, false_implies,
      Bool.true_eq_false, and_true]
    constructor
    · split <;> rfl
    · split <;> rfl
  · simp only [Bool.not_eq_true] at hc
    simp [hc]

/-- The output buffer after a request: the bytes the driver wrote, then the
rest of the buffer as it was. -/
theorem H2AfdDeviceIoControl_output_getElem (k : Kernel) (w : World) (h code : Nat)
    (inB : Option (List Nat)) (inSize : Nat) (buf : List Nat) (outSize : Nat)
    (bytes : Option Nat) (n i : Nat)
    (hwritten : ∀ w1 req, (k.NtDeviceIoControlFile w1 req).written.length ≤ req.outSize)
    (hn : outSize ≤ n) (hi : n ≤ i) :
    ((H2AfdDeviceIoControl k w h code inB inSize (some buf) outSize bytes).output.getD [])[i]?
      = buf[i]? := by
  unfold H2AfdDeviceIoControl
  by_cases hc : NT_SUCCESS (k.NtCreateEvent w) = true
  · simp only [hc, Bool.not_true, Bool.false_eq_true, if_false, Option.map_some',
      Option.getD_some, storeBytes]
    have hw := hwritten
      { w with createCalls := w.createCalls + 1, eventsCreated := w.eventsCreated + 1 }
      ⟨h, code, inB, inSize, some buf, outSize⟩
    simp only at hw
    rw [List.getElem?_append_right (by omega), List.getElem?_drop]
    congr 1
    omega
  · simp only [Bool.not_eq_true] at hc
    simp [hc]

/-! ## Option transport -/

/-- C11 fails as stated. With a kernel that cannot create the private event,
`H2AfdQueryTcpInfo` for version 1 returns the status of `NtCreateEvent` and
the history holds no request: line 116 of `H2AfdDeviceIoControl` returns
before `NtDeviceIoControlFile`, so not one IOCTL but none is issued. -/
theorem H2AfdQueryTcpInfo_without_event :
    (1 : Nat) ≤ 2 ∧
    (H2AfdQueryTcpInfo noEventKernel sampleAbi World.initial 7 1 staleTcpInfo).status
      = STATUS_INSUFFICIENT_RESOURCES ∧
    (H2AfdQueryTcpInfo noEventKernel sampleAbi World.initial 7 1 staleTcpInfo).world.trace = [] :=
  ⟨by decide, by decide, by decide⟩

/-- C11, amended. For every `TcpInfoVersion` greater than 2,
`H2AfdQueryTcpInfo` returns `STATUS_INVALID_PARAMETER` without issuing any
IOCTL (the history and the caller's buffer are as they were); for every
`TcpInfoVersion <= 2` the size-table lookup is in range and exactly one
transport request is made, whose input names the version and whose output
size is the size of that version's structure; it is issued to the driver as
exactly one IOCTL when the private event can be created, and not issued when
it cannot. -/
theorem H2AfdQueryTcpInfo_requests (k : Kernel) (abi : AfdAbi) (w : World)
    (SocketHandle TcpInfoVersion : Nat) (TcpInfo : List Nat) :
    (2 < TcpInfoVersion →
      H2AfdQueryTcpInfo k abi w SocketHandle TcpInfoVersion TcpInfo
        = ⟨STATUS_INVALID_PARAMETER, TcpInfo, w⟩) ∧
    (TcpInfoVersion ≤ 2 →
      TcpInfoVersion < tcpInfoSize.length ∧
      tcpInfoSize.getD TcpInfoVersion 0 =
        (if TcpInfoVersion = 0 then sizeofTcpInfoV0
          else if TcpInfoVersion = 1 then sizeofTcpInfoV1 else sizeofTcpInfoV2) ∧
      (H2AfdQueryTcpInfo k abi w SocketHandle TcpInfoVersion TcpInfo).world.createCalls
        = w.createCalls + 1 ∧
      (NT_SUCCESS (k.NtCreateEvent w) = true →
        (H2AfdQueryTcpInfo k abi w SocketHandle TcpInfoVersion TcpInfo).world.trace =
          w.trace ++ [⟨SocketHandle, abi.IOCTL_AFD_TRANSPORT_IOCTL,
            some (abi.encodeTlIoControlInfo
              ⟨abi.TlSocketIoControlType, 0, SIO_TCP_INFO, true,
                some (bytesULONG TcpInfoVersion), sizeofULONG⟩),
            abi.sizeofAfdTlIoControlInfo,
            some (RtlZeroMemory TcpInfo sizeofTcpInfoV2),
            tcpInfoSize.getD TcpInfoVersion 0⟩]) ∧
      (NT_SUCCESS (k.NtCreateEvent w) = false →
        (H2AfdQueryTcpInfo k abi w SocketHandle TcpInfoVersion TcpInfo).world.trace = w.trace ∧
        (H2AfdQueryTcpInfo k abi w SocketHandle TcpInfoVersion TcpInfo).status
          = k.NtCreateEvent w)) := by
  constructor
  · intro hv
    simp [H2AfdQueryTcpInfo, hv]
  · intro hv
    have hnot : ¬ TcpInfoVersion > 2 := by omega
    have hw := H2AfdDeviceIoControl_world k w SocketHandle abi.IOCTL_AFD_TRANSPORT_IOCTL
      (some (abi.encodeTlIoControlInfo (H2AfdQueryTcpInfo.controlInfo abi TcpInfoVersion)))
      abi.sizeofAfdTlIoControlInfo (some (RtlZeroMemory TcpInfo sizeofTcpInfoV2))
      (tcpInfoSize.getD TcpInfoVersion 0) none
    simp only [H2AfdQueryTcpInfo, hnot, if_false]
    refine ⟨by simp [tcpInfoSize]; omega, ?_, hw.1, hw.2.1, fun he => ⟨(hw.2.2 he).1, (hw.2.2 he).2.1⟩⟩
    interval_cases TcpInfoVersion <;> rfl

theorem H2AfdQueryTcpInfo_requests_witness :
    H2AfdQueryTcpInfo fillKernel sampleAbi World.initial 7 3 staleTcpInfo
      = ⟨STATUS_INVALID_PARAMETER, staleTcpInfo, World.initial⟩ ∧
    (H2AfdQueryTcpInfo fillKernel sampleAbi World.initial 7 1 staleTcpInfo).world.trace =
      [⟨7, sampleAbi.IOCTL_AFD_TRANSPORT_IOCTL,
        some (sampleEncodeTlIoControlInfo ⟨3, 0, SIO_TCP_INFO, true, some [1, 0, 0, 0], 4⟩),
        32, some (List.replicate 152 0), 136⟩] :=
  ⟨(H2AfdQueryTcpInfo_requests fillKernel sampleAbi World.initial 7 3 staleTcpInfo).1 (by decide),
    (((H2AfdQueryTcpInfo_requests fillKernel sampleAbi World.initial 7 1 staleTcpInfo).2
      (by decide)).2.2.2.1 (by decide)).trans rfl⟩

/-- The bytes `RtlZeroMemory` clears read as zero. -/
theorem RtlZeroMemory_getElem (dst : List Nat) (n i : Nat) (hi : i < n) :
    (RtlZeroMemory dst n)[i]? = some 0 := by
  rw [RtlZeroMemory, List.getElem?_append_left (by simpa using hi)]
  simp [hi]

/-- After `H2AfdQueryTcpInfo` against a driver that writes at most the requested
output size, the buffer from the size of the requested version on is as
`RtlZeroMemory` left it. -/
theorem H2AfdQueryTcpInfo_buffer_getElem (k : Kernel) (abi : AfdAbi) (w : World)
    (SocketHandle TcpInfoVersion : Nat) (TcpInfo : List Nat) (i : Nat)
    (hversion : TcpInfoVersion ≤ 2)
    (hwritten : ∀ w1 req, (k.NtDeviceIoControlFile w1 req).written.length ≤ req.outSize)
    (hfrom : tcpInfoSize.getD TcpInfoVersion 0 ≤ i) :
    (H2AfdQueryTcpInfo k abi w SocketHandle TcpInfoVersion TcpInfo).buffer[i]?
      = (RtlZeroMemory TcpInfo sizeofTcpInfoV2)[i]? := by
  have hnot : ¬ TcpInfoVersion > 2 := by omega
  obtain ⟨b, hb⟩ := H2AfdDeviceIoControl_output_some k w SocketHandle
    abi.IOCTL_AFD_TRANSPORT_IOCTL
    (some (abi.encodeTlIoControlInfo (H2AfdQueryTcpInfo.controlInfo abi TcpInfoVersion)))
    abi.sizeofAfdTlIoControlInfo (RtlZeroMemory TcpInfo sizeofTcpInfoV2)
    (tcpInfoSize.getD TcpInfoVersion 0) none
  have hget := H2AfdDeviceIoControl_output_getElem k w SocketHandle
    abi.IOCTL_AFD_TRANSPORT_IOCTL
    (some (abi.encodeTlIoControlInfo (H2AfdQueryTcpInfo.controlInfo abi TcpInfoVersion)))
    abi.sizeofAfdTlIoControlInfo (RtlZeroMemory TcpInfo sizeofTcpInfoV2)
    (tcpInfoSize.getD TcpInfoVersion 0) none (tcpInfoSize.getD TcpInfoVersion 0) i hwritten
    (le_refl _) hfrom
  simp only [H2AfdQueryTcpInfo, hnot, if_false]
  rw [hb] at hget ⊢
  simpa only [Option.getD_some] using hget

/-- C12. For every version `v <= 2` and every prior content of the caller's
`TCP_INFO_v2` buffer, after `H2AfdQueryTcpInfo` against a driver that writes
at most the requested output size, every byte of the buffer at an offset
from `sizeof(TCP_INFO_v<v>)` up to `sizeof(TCP_INFO_v2)` is zero, whether the
request succeeded or failed. -/
theorem H2AfdQueryTcpInfo_tail_zero (k : Kernel) (abi : AfdAbi) (w : World)
    (SocketHandle TcpInfoVersion : Nat) (TcpInfo : List Nat) (i : Nat)
    (hversion : TcpInfoVersion ≤ 2)
    (hwritten : ∀ w1 req, (k.NtDeviceIoControlFile w1 req).written.length ≤ req.outSize)
    (hfrom : tcpInfoSize.getD TcpInfoVersion 0 ≤ i) (hto : i < sizeofTcpInfoV2) :
    (H2AfdQueryTcpInfo k abi w SocketHandle TcpInfoVersion TcpInfo).buffer[i]? = some 0 := by
  have hkept := H2AfdQueryTcpInfo_buffer_getElem k abi w SocketHandle TcpInfoVersion TcpInfo i
    hversion hwritten hfrom
  have hzero := RtlZeroMemory_getElem TcpInfo sizeofTcpInfoV2 i hto
  rw [hkept]
  exact hzero

theorem H2AfdQueryTcpInfo_tail_zero_witness :
    (H2AfdQueryTcpInfo fillKernel sampleAbi World.initial 7 1 staleTcpInfo).buffer[135]? = some 7 ∧
    (H2AfdQueryTcpInfo fillKernel sampleAbi World.initial 7 1 staleTcpInfo).buffer[136]? = some 0 :=
  ⟨by rfl,
    H2AfdQueryTcpInfo_tail_zero fillKernel sampleAbi World.initial 7 1 staleTcpInfo 136
      (by decide) (fun _ _ => by simp [fillKernel]) (by decide) (by decide)⟩

/-- The status of a request that reaches the driver is the one it ends with. -/
theorem H2AfdDeviceIoControl_status (k : Kernel) (w : World) (h code : Nat)
    (inB : Option (List Nat)) (inSize : Nat) (outB : Option (List Nat)) (outSize : Nat)
    (bytes : Option Nat) (hevent : NT_SUCCESS (k.NtCreateEvent w) = true) :
    (H2AfdDeviceIoControl k w h code inB inSize outB outSize bytes).status =
      (k.NtDeviceIoControlFile w.eventCreated ⟨h, code, inB, inSize, outB, outSize⟩).completion := by
  unfold H2AfdDeviceIoControl IoctlResponse.completion World.eventCreated
  simp only [hevent, Bool.not_true, Bool.false_eq_true, if_false, decide_eq_true_eq]

/-- C16. For every `QueryMode` other than `AFD_QUERY_ADDRESS_HANDLE` and
`AFD_QUERY_CONNECTION_HANDLE`, `H2AfdQueryTdiHandle` returns
`STATUS_INVALID_INFO_CLASS` without issuing any IOCTL and without writing
`*TdiHandle`; for the two valid modes the status is the request's, a
successful request stores the address-side handle for the address mode and
the connection-side handle for the connection mode, and a failed request
leaves `*TdiHandle` unwritten. -/
theorem H2AfdQueryTdiHandle_modes (k : Kernel) (abi : AfdAbi) (w : World)
    (SocketHandle QueryMode TdiHandle : Nat)
    (hmodes : abi.AFD_QUERY_ADDRESS_HANDLE ≠ abi.AFD_QUERY_CONNECTION_HANDLE) :
    (QueryMode ≠ abi.AFD_QUERY_ADDRESS_HANDLE → QueryMode ≠ abi.AFD_QUERY_CONNECTION_HANDLE →
      H2AfdQueryTdiHandle k abi w SocketHandle QueryMode TdiHandle
        = ⟨STATUS_INVALID_INFO_CLASS, TdiHandle, w⟩) ∧
    (QueryMode = abi.AFD_QUERY_ADDRESS_HANDLE ∨ QueryMode = abi.AFD_QUERY_CONNECTION_HANDLE →
      (H2AfdQueryTdiHandle k abi w SocketHandle QueryMode TdiHandle).status =
        (H2AfdQueryTdiHandle.query k abi w SocketHandle QueryMode).status ∧
      (H2AfdQueryTdiHandle k abi w SocketHandle QueryMode TdiHandle).world =
        (H2AfdQueryTdiHandle.query k abi w SocketHandle QueryMode).world ∧
      (NT_SUCCESS (H2AfdQueryTdiHandle.query k abi w SocketHandle QueryMode).status = true →
        QueryMode = abi.AFD_QUERY_ADDRESS_HANDLE →
        (H2AfdQueryTdiHandle k abi w SocketHandle QueryMode TdiHandle).TdiHandle =
          readHANDLE ((H2AfdQueryTdiHandle.query k abi w SocketHandle QueryMode).output.getD [])
            abi.offsetTdiAddressHandle) ∧
      (NT_SUCCESS (H2AfdQueryTdiHandle.query k abi w SocketHandle QueryMode).status = true →
        QueryMode = abi.AFD_QUERY_CONNECTION_HANDLE →
        (H2AfdQueryTdiHandle k abi w SocketHandle QueryMode TdiHandle).TdiHandle =
          readHANDLE ((H2AfdQueryTdiHandle.query k abi w SocketHandle QueryMode).output.getD [])
            abi.offsetTdiConnectionHandle) ∧
      (NT_SUCCESS (H2AfdQueryTdiHandle.query k abi w SocketHandle QueryMode).status = false →
        (H2AfdQueryTdiHandle k abi w SocketHandle QueryMode TdiHandle).TdiHandle = TdiHandle)) := by
  constructor
  · intro h1 h2
    simp [H2AfdQueryTdiHandle, h1, h2]
  · intro hvalid
    have hnot : ¬ (QueryMode ≠ abi.AFD_QUERY_ADDRESS_HANDLE ∧
        QueryMode ≠ abi.AFD_QUERY_CONNECTION_HANDLE) := by
      rintro ⟨h1, h2⟩
      rcases hvalid with h | h
      · exact h1 h
      · exact h2 h
    simp only [H2AfdQueryTdiHandle, hnot, if_false]
    by_cases ha : QueryMode = abi.AFD_QUERY_ADDRESS_HANDLE
    · subst ha
      by_cases hs : NT_SUCCESS (H2AfdQueryTdiHandle.query k abi w SocketHandle
          abi.AFD_QUERY_ADDRESS_HANDLE).status = true
      · simp [hs, hmodes]
      · simp only [Bool.not_eq_true] at hs
        simp [hs]
    · by_cases hs : NT_SUCCESS (H2AfdQueryTdiHandle.query k abi w SocketHandle QueryMode).status
          = true
      · simp [hs, ha]
      · simp only [Bool.not_eq_true] at hs
        simp [hs]

theorem H2AfdQueryTdiHandle_modes_witness :
    H2AfdQueryTdiHandle (constKernel ⟨STATUS_SUCCESS, 0, 16, sampleHandleInfoBytes⟩) sampleAbi
      World.initial 7 3 0xBAD = ⟨STATUS_INVALID_INFO_CLASS, 0xBAD, World.initial⟩ ∧
    (H2AfdQueryTdiHandle (constKernel ⟨STATUS_SUCCESS, 0, 16, sampleHandleInfoBytes⟩) sampleAbi
      World.initial 7 1 0xBAD).TdiHandle = 0x1A4 ∧
    (H2AfdQueryTdiHandle (constKernel ⟨STATUS_SUCCESS, 0, 16, sampleHandleInfoBytes⟩) sampleAbi
      World.initial 7 2 0xBAD).TdiHandle = INVALID_HANDLE_VALUE :=
  have h3 := H2AfdQueryTdiHandle_modes (constKernel ⟨STATUS_SUCCESS, 0, 16, sampleHandleInfoBytes⟩)
    sampleAbi World.initial 7 3 0xBAD (by decide)
  have h1 := H2AfdQueryTdiHandle_modes (constKernel ⟨STATUS_SUCCESS, 0, 16, sampleHandleInfoBytes⟩)
    sampleAbi World.initial 7 1 0xBAD (by decide)
  have h2 := H2AfdQueryTdiHandle_modes (constKernel ⟨STATUS_SUCCESS, 0, 16, sampleHandleInfoBytes⟩)
    sampleAbi World.initial 7 2 0xBAD (by decide)
  ⟨h3.1 (by decide) (by decide),
    ((h1.2 (Or.inl (by decide))).2.2.1 (by decide) (by decide)).trans (by decide),
    ((h2.2 (Or.inr (by decide))).2.2.2.1 (by decide) (by decide)).trans (by decide)⟩

/-! ## Simple-info decoder -/

/-- C17 fails as stated. The class `0xDEAD`, which is no AFD information
class, is not rejected locally: the request is issued to the driver, and with
a driver that completes it with `STATUS_SUCCESS` the function returns
success. -/
theorem H2AfdQuerySimpleInfo_unknown_class_forwarded :
    (H2AfdQuerySimpleInfo fillKernel sampleAbi World.initial 7 0xDEAD zeroInformation).status
      = STATUS_SUCCESS ∧
    (H2AfdQuerySimpleInfo fillKernel sampleAbi World.initial 7 0xDEAD zeroInformation).world.trace
      = [⟨7, sampleAbi.IOCTL_AFD_GET_INFORMATION,
          some ([0xAD, 0xDE, 0, 0] ++ List.replicate 12 0), 16,
          some ([0xAD, 0xDE, 0, 0] ++ List.replicate 12 0), 16⟩] :=
  ⟨by decide, by decide⟩

/-- C17, amended. For every `InformationType`, a known AFD information class
or not, `H2AfdQuerySimpleInfo` makes no local check: it stores the class at
the start of the buffer and makes exactly one transport request
(`IOCTL_AFD_GET_INFORMATION`, the buffer being both input and output), which
reaches the driver whenever the private event can be created, and it returns
the status that request ends with; a class is rejected, if at all, by the
driver. -/
theorem H2AfdQuerySimpleInfo_forwards (k : Kernel) (abi : AfdAbi) (w : World)
    (SocketHandle InformationType : Nat) (Information : List Nat)
    (hevent : NT_SUCCESS (k.NtCreateEvent w) = true) :
    (H2AfdQuerySimpleInfo k abi w SocketHandle InformationType Information).world.createCalls
      = w.createCalls + 1 ∧
    (H2AfdQuerySimpleInfo k abi w SocketHandle InformationType Information).world.trace =
      w.trace ++ [⟨SocketHandle, abi.IOCTL_AFD_GET_INFORMATION,
        some (bytesULONG InformationType ++ Information.drop 4), abi.sizeofAfdInformation,
        some (bytesULONG InformationType ++ Information.drop 4), abi.sizeofAfdInformation⟩] ∧
    (H2AfdQuerySimpleInfo k abi w SocketHandle InformationType Information).status =
      (k.NtDeviceIoControlFile w.eventCreated
        ⟨SocketHandle, abi.IOCTL_AFD_GET_INFORMATION,
          some (bytesULONG InformationType ++ Information.drop 4), abi.sizeofAfdInformation,
          some (bytesULONG InformationType ++ Information.drop 4),
          abi.sizeofAfdInformation⟩).completion := by
  have hw := H2AfdDeviceIoControl_world k w SocketHandle abi.IOCTL_AFD_GET_INFORMATION
    (some (writeULONG Information InformationType)) abi.sizeofAfdInformation
    (some (writeULONG Information InformationType)) abi.sizeofAfdInformation none
  have hs := H2AfdDeviceIoControl_status k w SocketHandle abi.IOCTL_AFD_GET_INFORMATION
    (some (writeULONG Information InformationType)) abi.sizeofAfdInformation
    (some (writeULONG Information InformationType)) abi.sizeofAfdInformation none hevent
  exact ⟨hw.1, hw.2.1 hevent, hs⟩

theorem H2AfdQuerySimpleInfo_forwards_witness :
    (H2AfdQuerySimpleInfo fillKernel sampleAbi World.initial 7 0xDEAD
      zeroInformation).world.createCalls = 1 ∧
    (H2AfdQuerySimpleInfo fillKernel sampleAbi World.initial 7 0xDEAD zeroInformation).status
      = STATUS_SUCCESS :=
  have h := H2AfdQuerySimpleInfo_forwards fillKernel sampleAbi World.initial 7 0xDEAD
    zeroInformation (by decide)
  ⟨h.1, h.2.2.trans (by decide)⟩

/-- C18, the code at the failing input. Two calls for the same handle and the
same class, one on a zeroed `AFD_INFORMATION` and one on a buffer of stale
bytes `0xAA`: the requests sent to the driver differ in the input bytes after
`InformationType`, and a driver that reads them answers `STATUS_SUCCESS` to
the first and `STATUS_INVALID_PARAMETER` to the second. -/
theorem H2AfdQuerySimpleInfo_stale_input :
    (H2AfdQuerySimpleInfo inputKernel sampleAbi World.initial 7 3 zeroInformation).world.trace =
      [⟨7, sampleAbi.IOCTL_AFD_GET_INFORMATION,
        some ([3, 0, 0, 0] ++ List.replicate 12 0), 16,
        some ([3, 0, 0, 0] ++ List.replicate 12 0), 16⟩] ∧
    (H2AfdQuerySimpleInfo inputKernel sampleAbi World.initial 7 3 staleInformation).world.trace =
      [⟨7, sampleAbi.IOCTL_AFD_GET_INFORMATION,
        some ([3, 0, 0, 0] ++ List.replicate 12 170), 16,
        some ([3, 0, 0, 0] ++ List.replicate 12 170), 16⟩] ∧
    (H2AfdQuerySimpleInfo inputKernel sampleAbi World.initial 7 3 zeroInformation).status
      = STATUS_SUCCESS ∧
    (H2AfdQuerySimpleInfo inputKernel sampleAbi World.initial 7 3 staleInformation).status
      = STATUS_INVALID_PARAMETER :=
  ⟨by decide, by decide, by decide, by decide⟩

/-! ## Printing -/

/-- C19 fails as stated. In the human-readable mode the line printed for a
failed query is the property name followed by an empty value: it names no
failure, and it is the same line for `STATUS_ACCESS_DENIED` and for
`STATUS_NOT_FOUND`, so it does not carry the failure code. -/
theorem H2AfdPrintPropertyStatus_friendly_blank :
    H2AfdPrintPropertyStatus false H2_AFD_PROPERTY_TDI_ADDRESS_DEVICE STATUS_ACCESS_DENIED =
      [.wprintf_s "%s: \r\n" [.H2AfdGetPropertyName H2_AFD_PROPERTY_TDI_ADDRESS_DEVICE false]] ∧
    H2AfdPrintPropertyStatus false H2_AFD_PROPERTY_TDI_ADDRESS_DEVICE STATUS_ACCESS_DENIED =
      H2AfdPrintPropertyStatus false H2_AFD_PROPERTY_TDI_ADDRESS_DEVICE STATUS_NOT_FOUND ∧
    STATUS_ACCESS_DENIED ≠ STATUS_NOT_FOUND :=
  ⟨by decide, by decide, by decide⟩

/-- C19, amended. For every property and every failure status,
`H2AfdPrintPropertyStatus` prints exactly one line for a failed query, never
none.  In the raw mode the line is the explicit marker `(query failed: 0x...)`
and carries the failure code: different codes give different lines.  In the
human-readable mode the line is the property name followed by an empty value,
the same for every status. -/
theorem H2AfdPrintPropertyStatus_line (H2RawPrintMode : Bool) (Property : Nat)
    (Status Other : NTSTATUS) :
    (H2AfdPrintPropertyStatus H2RawPrintMode Property Status).length = 1 ∧
    H2AfdPrintPropertyStatus true Property Status =
      [.wprintf_s "%s: (query failed: 0x%0.8X)\r\n"
        [.H2AfdGetPropertyName Property true, .Status Status]] ∧
    (H2AfdPrintPropertyStatus true Property Status = H2AfdPrintPropertyStatus true Property Other →
      Status = Other) ∧
    H2AfdPrintPropertyStatus false Property Status =
      [.wprintf_s "%s: \r\n" [.H2AfdGetPropertyName Property false]] ∧
    H2AfdPrintPropertyStatus false Property Status
      = H2AfdPrintPropertyStatus false Property Other := by
  refine ⟨?_, rfl, ?_, rfl, rfl⟩
  · cases H2RawPrintMode <;> rfl
  · intro h
    simp only [H2AfdPrintPropertyStatus, if_true, List.cons.injEq, Print.wprintf_s.injEq,
      PrintArg.Status.injEq, and_true, true_and] at h
    exact h

theorem H2AfdPrintPropertyStatus_line_witness :
    (H2AfdPrintPropertyStatus true H2_AFD_PROPERTY_TCP_INFO_STATE STATUS_NOT_SUPPORTED).length = 1 ∧
    H2AfdPrintPropertyStatus true H2_AFD_PROPERTY_TCP_INFO_STATE STATUS_NOT_SUPPORTED =
      [.wprintf_s "%s: (query failed: 0x%0.8X)\r\n"
        [.H2AfdGetPropertyName 197 true, .Status (-1073741637)]] :=
  have h := H2AfdPrintPropertyStatus_line true H2_AFD_PROPERTY_TCP_INFO_STATE
    STATUS_NOT_SUPPORTED STATUS_NOT_FOUND
  ⟨h.1, h.2.1.trans (by decide)⟩

/-! ## Version-negotiated statistics -/

/-- A request of `H2AfdQueryTcpInfo` for a version up to 2 is one transport
request. -/
theorem H2AfdQueryTcpInfo_createCalls (k : Kernel) (abi : AfdAbi) (w : World)
    (SocketHandle TcpInfoVersion : Nat) (TcpInfo : List Nat) (hversion : TcpInfoVersion ≤ 2) :
    (H2AfdQueryTcpInfo k abi w SocketHandle TcpInfoVersion TcpInfo).world.createCalls
      = w.createCalls + 1 := by
  have hnot : ¬ TcpInfoVersion > 2 := by omega
  simp only [H2AfdQueryTcpInfo, hnot, if_false]
  exact (H2AfdDeviceIoControl_world k w SocketHandle abi.IOCTL_AFD_TRANSPORT_IOCTL _ _ _ _ none).1

/-- With an event at hand, a request of `H2AfdQueryTcpInfo` for a version up to
2 reaches the driver as the one request `H2AfdQueryTcpInfo.request`. -/
theorem H2AfdQueryTcpInfo_trace (k : Kernel) (abi : AfdAbi) (w : World)
    (SocketHandle TcpInfoVersion : Nat) (TcpInfo : List Nat) (hversion : TcpInfoVersion ≤ 2)
    (hevent : NT_SUCCESS (k.NtCreateEvent w) = true) :
    (H2AfdQueryTcpInfo k abi w SocketHandle TcpInfoVersion TcpInfo).world.trace
      = w.trace ++ [H2AfdQueryTcpInfo.request abi SocketHandle TcpInfoVersion TcpInfo] := by
  have hnot : ¬ TcpInfoVersion > 2 := by omega
  simp only [H2AfdQueryTcpInfo, hnot, if_false, H2AfdQueryTcpInfo.request]
  exact (H2AfdDeviceIoControl_world k w SocketHandle abi.IOCTL_AFD_TRANSPORT_IOCTL _ _ _ _
    none).2.1 hevent

/-- C14. For every driver behaviour, the negotiation of
`H2AfdQueryPrintPropertiesTcpInfo` first requests version 2 on the initial
history and buffer; it requests version 1, on the history and buffer the
first request left, only when version 2 failed, and version 0, on what the
second request left, only when both failed; it stops at the first request
that succeeds: the history it leaves is the one of the last request made, so
one, two or three transport requests.  When events can be created the driver
receives exactly these requests after the earlier ones, in the order 2, 1, 0,
with output sizes 152, 136, 88.  The statuses are monotone: success for
version 2 implies success for version 1, which implies success for version 0. -/
theorem H2AfdQueryPrintPropertiesTcpInfo_negotiation (k : Kernel) (abi : AfdAbi) (w : World)
    (SocketHandle : Nat) (tcpInfo : List Nat) (r2 r1 r0 : BufferResult)
    (n : TcpInfoNegotiation)
    (h2 : H2AfdQueryTcpInfo k abi w SocketHandle 2 tcpInfo = r2)
    (h1 : H2AfdQueryTcpInfo k abi r2.world SocketHandle 1 r2.buffer = r1)
    (h0 : H2AfdQueryTcpInfo k abi r1.world SocketHandle 0 r1.buffer = r0)
    (hn : H2AfdQueryPrintPropertiesTcpInfo.negotiate k abi w SocketHandle tcpInfo = n) :
    (NT_SUCCESS r2.status = true →
      n = ⟨r2.status, r2.status, r2.status, r2.buffer, r2.world⟩ ∧
      n.world.createCalls = w.createCalls + 1) ∧
    (NT_SUCCESS r2.status = false → NT_SUCCESS r1.status = true →
      n = ⟨r1.status, r1.status, r2.status, r1.buffer, r1.world⟩ ∧
      n.world.createCalls = w.createCalls + 2) ∧
    (NT_SUCCESS r2.status = false → NT_SUCCESS r1.status = false →
      n = ⟨r0.status, r1.status, r2.status, r0.buffer, r0.world⟩ ∧
      n.world.createCalls = w.createCalls + 3) ∧
    ((∀ w1, NT_SUCCESS (k.NtCreateEvent w1) = true) →
      n.world.trace = w.trace ++
        (H2AfdQueryTcpInfo.request abi SocketHandle 2 tcpInfo ::
          if NT_SUCCESS r2.status then []
          else H2AfdQueryTcpInfo.request abi SocketHandle 1 r2.buffer ::
            if NT_SUCCESS r1.status then []
            else [H2AfdQueryTcpInfo.request abi SocketHandle 0 r1.buffer]) ∧
      (n.world.trace.drop w.trace.length).map (fun req => req.outSize) =
        sizeofTcpInfoV2 ::
          if NT_SUCCESS r2.status then []
          else sizeofTcpInfoV1 :: if NT_SUCCESS r1.status then [] else [sizeofTcpInfoV0]) ∧
    (NT_SUCCESS n.status2 = true → NT_SUCCESS n.status1 = true) ∧
    (NT_SUCCESS n.status1 = true → NT_SUCCESS n.status0 = true) := by
  have c2 := H2AfdQueryTcpInfo_createCalls k abi w SocketHandle 2 tcpInfo (by decide)
  have c1 := H2AfdQueryTcpInfo_createCalls k abi r2.world SocketHandle 1 r2.buffer (by decide)
  have c0 := H2AfdQueryTcpInfo_createCalls k abi r1.world SocketHandle 0 r1.buffer (by decide)
  rw [h2] at c2
  rw [h1] at c1
  rw [h0] at c0
  have hdef : n = if NT_SUCCESS r2.status then ⟨r2.status, r2.status, r2.status, r2.buffer, r2.world⟩
      else if NT_SUCCESS r1.status then ⟨r1.status, r1.status, r2.status, r1.buffer, r1.world⟩
      else ⟨r0.status, r1.status, r2.status, r0.buffer, r0.world⟩ := by
    rw [← hn]
    unfold H2AfdQueryPrintPropertiesTcpInfo.negotiate
    simp only [h2, h1, h0]
  refine ⟨?_, ?_, ?_, ?_, ?_, ?_⟩
  · intro s2
    rw [hdef, if_pos s2]
    exact ⟨rfl, c2⟩
  · intro s2 s1
    rw [hdef, if_neg (by simp [s2]), if_pos s1]
    refine ⟨rfl, ?_⟩
    simp only [c1, c2]
  · intro s2 s1
    rw [hdef, if_neg (by simp [s2]), if_neg (by simp [s1])]
    refine ⟨rfl, ?_⟩
    simp only [c0, c1, c2]
  · intro hevent
    have t2 := H2AfdQueryTcpInfo_trace k abi w SocketHandle 2 tcpInfo (by decide) (hevent w)
    have t1 := H2AfdQueryTcpInfo_trace k abi r2.world SocketHandle 1 r2.buffer (by decide)
      (hevent r2.world)
    have t0 := H2AfdQueryTcpInfo_trace k abi r1.world SocketHandle 0 r1.buffer (by decide)
      (hevent r1.world)
    rw [h2] at t2
    rw [h1] at t1
    rw [h0] at t0
    have htrace : n.world.trace = w.trace ++
        (H2AfdQueryTcpInfo.request abi SocketHandle 2 tcpInfo ::
          if NT_SUCCESS r2.status then []
          else H2AfdQueryTcpInfo.request abi SocketHandle 1 r2.buffer ::
            if NT_SUCCESS r1.status then []
            else [H2AfdQueryTcpInfo.request abi SocketHandle 0 r1.buffer]) := by
      rw [hdef]
      by_cases s2 : NT_SUCCESS r2.status = true
      · rw [if_pos s2, if_pos s2]
        exact t2
      · rw [if_neg s2, if_neg s2]
        by_cases s1 : NT_SUCCESS r1.status = true
        · rw [if_pos s1, if_pos s1]
          simp only [t1, t2, List.append_assoc, List.singleton_append]
        · rw [if_neg s1, if_neg s1]
          simp only [t0, t1, t2, List.append_assoc, List.singleton_append]
          rfl
    refine ⟨htrace, ?_⟩
    rw [htrace, List.drop_left]
    by_cases s2 : NT_SUCCESS r2.status = true
    · rw [if_pos s2, if_pos s2]
      rfl
    · rw [if_neg s2, if_neg s2]
      by_cases s1 : NT_SUCCESS r1.status = true
      · rw [if_pos s1, if_pos s1]
        rfl
      · rw [if_neg s1, if_neg s1]
        rfl
  · intro s
    rw [hdef] at s ⊢
    by_cases s2 : NT_SUCCESS r2.status = true
    · rw [if_pos s2]
      exact s2
    · rw [if_neg s2] at s
      by_cases s1 : NT_SUCCESS r1.status = true
      · rw [if_pos s1] at s
        exact absurd s s2
      · rw [if_neg s1] at s
        exact absurd s s2
  · intro s
    rw [hdef] at s ⊢
    by_cases s2 : NT_SUCCESS r2.status = true
    · rw [if_pos s2]
      exact s2
    · rw [if_neg s2] at s ⊢
      by_cases s1 : NT_SUCCESS r1.status = true
      · rw [if_pos s1]
        exact s1
      · rw [if_neg s1] at s
        exact absurd s s1

theorem H2AfdQueryPrintPropertiesTcpInfo_negotiation_witness :
    ((H2AfdQueryPrintPropertiesTcpInfo.negotiate (versionKernel 1) sampleAbi World.initial 7
      staleTcpInfo).world.trace.drop World.initial.trace.length).map (fun req => req.outSize)
        = [152, 136] ∧
    (H2AfdQueryPrintPropertiesTcpInfo.negotiate (versionKernel 1) sampleAbi World.initial 7
      staleTcpInfo).world.createCalls = 2 :=
  have h := H2AfdQueryPrintPropertiesTcpInfo_negotiation (versionKernel 1) sampleAbi
    World.initial 7 staleTcpInfo _ _ _ _ rfl rfl rfl rfl
  ⟨((h.2.2.2.1 (fun _ => rfl)).2).trans (by decide),
    ((h.2.1 (by decide) (by decide)).2).trans (by decide)⟩

/-- The lines of `H2AfdPrintPropertyStatus` are no value lines. -/
theorem H2AfdPrintPropertyStatus_range_properties (H2RawPrintMode : Bool) (First Last : Nat)
    (Status : NTSTATUS) :
    (H2AfdPrintPropertyStatus.range H2RawPrintMode First Last Status).filterMap Print.property
      = [] := by
  rw [List.filterMap_eq_nil_iff]
  intro x hx
  simp only [H2AfdPrintPropertyStatus.range, List.mem_flatMap] at hx
  obtain ⟨i, _, hxi⟩ := hx
  unfold H2AfdPrintPropertyStatus at hxi
  cases H2RawPrintMode <;> simp at hxi <;> subst hxi <;> rfl

/-- The two loops over the properties of the versions 1 and 2, lines 2072 and
2087, round by round. -/
theorem H2AfdPrintPropertyStatus_range_rounds (H2RawPrintMode : Bool) (Status : NTSTATUS) :
    H2AfdPrintPropertyStatus.range H2RawPrintMode
        H2_AFD_PROPERTY_TCP_INFO_RECEIVER_LIMITED_TRANSITIONS
        H2_AFD_PROPERTY_TCP_INFO_SENDER_LIMITED_BYTES Status =
      [H2_AFD_PROPERTY_TCP_INFO_RECEIVER_LIMITED_TRANSITIONS,
        H2_AFD_PROPERTY_TCP_INFO_RECEIVER_LIMITED_TIME,
        H2_AFD_PROPERTY_TCP_INFO_RECEIVER_LIMITED_BYTES,
        H2_AFD_PROPERTY_TCP_INFO_CONGESTION_LIMITED_TRANSITIONS,
        H2_AFD_PROPERTY_TCP_INFO_CONGESTION_LIMITED_TIME,
        H2_AFD_PROPERTY_TCP_INFO_CONGESTION_LIMITED_BYTES,
        H2_AFD_PROPERTY_TCP_INFO_SENDER_LIMITED_TRANSITIONS,
        H2_AFD_PROPERTY_TCP_INFO_SENDER_LIMITED_TIME,
        H2_AFD_PROPERTY_TCP_INFO_SENDER_LIMITED_BYTES].flatMap
        (fun Property => H2AfdPrintPropertyStatus H2RawPrintMode Property Status) ∧
    H2AfdPrintPropertyStatus.range H2RawPrintMode H2_AFD_PROPERTY_TCP_INFO_OUT_OF_ORDER_PACKETS
        H2_AFD_PROPERTY_TCP_INFO_PTO_EPISODES Status =
      [H2_AFD_PROPERTY_TCP_INFO_OUT_OF_ORDER_PACKETS, H2_AFD_PROPERTY_TCP_INFO_ECN_NEGOTIATED,
        H2_AFD_PROPERTY_TCP_INFO_ECE_ACKS_IN, H2_AFD_PROPERTY_TCP_INFO_PTO_EPISODES].flatMap
        (fun Property => H2AfdPrintPropertyStatus H2RawPrintMode Property Status) :=
  ⟨rfl, rfl⟩

/-- C13. For each `v` in 0, 1, 2: against a driver that supports exactly
version `v` (every request for a version above `v` is rejected, the request
for `v` succeeds) and writes at most the requested output size, the
negotiation of `H2AfdQueryPrintPropertiesTcpInfo` makes `3 - v` transport
requests and ends with `status[i]` successful exactly for `i <= v`.  The
output is the heading, the value lines of the fields of version 0, then for
each of the versions 1 and 2 either its value lines (version at most `v`) or,
for each of its properties in turn, the line `H2AfdPrintPropertyStatus`
prints for the failed status of that version, then the empty line.  So every
property from `TCP_INFO_STATE` to `TCP_INFO_PTO_EPISODES` has exactly one
line, in order; the value printers are called for exactly the properties of
the versions up to `v`; every property of a version above `v` has its failure
line in the output, with a status that is a failure; and the bytes of those
fields are zero in the buffer. -/
theorem H2AfdQueryPrintPropertiesTcpInfo_exact_version (k : Kernel) (abi : AfdAbi)
    (H2RawPrintMode : Bool) (w : World) (SocketHandle : Nat) (tcpInfo : List Nat) (v : Nat)
    (n : TcpInfoNegotiation)
    (hn : H2AfdQueryPrintPropertiesTcpInfo.negotiate k abi w SocketHandle tcpInfo = n)
    (hv : v ≤ 2)
    (habove : ∀ w1 t u, v < u → u ≤ 2 →
      NT_SUCCESS (H2AfdQueryTcpInfo k abi w1 SocketHandle u t).status = false)
    (hsupported : ∀ w1 t, NT_SUCCESS (H2AfdQueryTcpInfo k abi w1 SocketHandle v t).status = true)
    (hwritten : ∀ w1 req, (k.NtDeviceIoControlFile w1 req).written.length ≤ req.outSize) :
    (NT_SUCCESS n.status0 = true ∧ (NT_SUCCESS n.status1 = true ↔ 1 ≤ v) ∧
      (NT_SUCCESS n.status2 = true ↔ 2 ≤ v)) ∧
    n.world.createCalls = w.createCalls + (3 - v) ∧
    (H2AfdQueryPrintPropertiesTcpInfo k abi H2RawPrintMode w SocketHandle tcpInfo).output =
      H2AfdQueryPrintPropertiesTcpInfo.header H2RawPrintMode ::
      (H2AfdQueryPrintPropertiesTcpInfo.values0 n.tcpInfo ++
      (if 1 ≤ v then H2AfdQueryPrintPropertiesTcpInfo.values1 n.tcpInfo
        else
          [H2_AFD_PROPERTY_TCP_INFO_RECEIVER_LIMITED_TRANSITIONS,
            H2_AFD_PROPERTY_TCP_INFO_RECEIVER_LIMITED_TIME,
            H2_AFD_PROPERTY_TCP_INFO_RECEIVER_LIMITED_BYTES,
            H2_AFD_PROPERTY_TCP_INFO_CONGESTION_LIMITED_TRANSITIONS,
            H2_AFD_PROPERTY_TCP_INFO_CONGESTION_LIMITED_TIME,
            H2_AFD_PROPERTY_TCP_INFO_CONGESTION_LIMITED_BYTES,
            H2_AFD_PROPERTY_TCP_INFO_SENDER_LIMITED_TRANSITIONS,
            H2_AFD_PROPERTY_TCP_INFO_SENDER_LIMITED_TIME,
            H2_AFD_PROPERTY_TCP_INFO_SENDER_LIMITED_BYTES].flatMap
            (fun Property => H2AfdPrintPropertyStatus H2RawPrintMode Property n.status1)) ++
      (if 2 ≤ v then H2AfdQueryPrintPropertiesTcpInfo.values2 n.tcpInfo
        else
          [H2_AFD_PROPERTY_TCP_INFO_OUT_OF_ORDER_PACKETS, H2_AFD_PROPERTY_TCP_INFO_ECN_NEGOTIATED,
            H2_AFD_PROPERTY_TCP_INFO_ECE_ACKS_IN, H2_AFD_PROPERTY_TCP_INFO_PTO_EPISODES].flatMap
            (fun Property => H2AfdPrintPropertyStatus H2RawPrintMode Property n.status2)) ++
      [.wprintf_s "\r\n" []]) ∧
    (H2AfdQueryPrintPropertiesTcpInfo k abi H2RawPrintMode w SocketHandle
        tcpInfo).output.filterMap Print.reported =
      (List.range 32).map (fun i => H2_AFD_PROPERTY_TCP_INFO_STATE + i) ∧
    (H2AfdQueryPrintPropertiesTcpInfo k abi H2RawPrintMode w SocketHandle
        tcpInfo).output.filterMap Print.property =
      (List.range (lastTcpInfoProperty v + 1 - H2_AFD_PROPERTY_TCP_INFO_STATE)).map
        (fun i => H2_AFD_PROPERTY_TCP_INFO_STATE + i) ∧
    (∀ Property, lastTcpInfoProperty v < Property →
      Property ≤ H2_AFD_PROPERTY_TCP_INFO_PTO_EPISODES →
      NT_SUCCESS (if Property ≤ H2_AFD_PROPERTY_TCP_INFO_SENDER_LIMITED_BYTES then n.status1
        else n.status2) = false ∧
      ∀ line ∈ H2AfdPrintPropertyStatus H2RawPrintMode Property
          (if Property ≤ H2_AFD_PROPERTY_TCP_INFO_SENDER_LIMITED_BYTES then n.status1
            else n.status2),
        line ∈ (H2AfdQueryPrintPropertiesTcpInfo k abi H2RawPrintMode w SocketHandle
          tcpInfo).output) ∧
    (∀ i, tcpInfoSize.getD v 0 ≤ i → i < sizeofTcpInfoV2 → n.tcpInfo[i]? = some 0) := by
  have hstatus : NT_SUCCESS n.status0 = true ∧ (NT_SUCCESS n.status1 = true ↔ 1 ≤ v) ∧
      (NT_SUCCESS n.status2 = true ↔ 2 ≤ v) ∧
      n.world.createCalls = w.createCalls + (3 - v) ∧
      (∀ i, tcpInfoSize.getD v 0 ≤ i → i < sizeofTcpInfoV2 → n.tcpInfo[i]? = some 0) := by
    subst hn
    unfold H2AfdQueryPrintPropertiesTcpInfo.negotiate
    interval_cases v
    · have h2 := habove w tcpInfo 2 (by decide) (by decide)
      have h1 := habove (H2AfdQueryTcpInfo k abi w SocketHandle 2 tcpInfo).world
        (H2AfdQueryTcpInfo k abi w SocketHandle 2 tcpInfo).buffer 1 (by decide) (by decide)
      have h0 := hsupported
        (H2AfdQueryTcpInfo k abi (H2AfdQueryTcpInfo k abi w SocketHandle 2 tcpInfo).world
          SocketHandle 1 (H2AfdQueryTcpInfo k abi w SocketHandle 2 tcpInfo).buffer).world
        (H2AfdQueryTcpInfo k abi (H2AfdQueryTcpInfo k abi w SocketHandle 2 tcpInfo).world
          SocketHandle 1 (H2AfdQueryTcpInfo k abi w SocketHandle 2 tcpInfo).buffer).buffer
      simp only [h2, h1, h0, Bool.false_eq_true, if_false, true_and, false_iff]
      refine ⟨by decide, by decide, ?_, ?_⟩
      · rw [H2AfdQueryTcpInfo_createCalls _ _ _ _ 0 _ (by decide),
          H2AfdQueryTcpInfo_createCalls _ _ _ _ 1 _ (by decide),
          H2AfdQueryTcpInfo_createCalls _ _ _ _ 2 _ (by decide)]
      · intro i hfrom hto
        rw [H2AfdQueryTcpInfo_buffer_getElem k abi _ SocketHandle 0 _ i (by decide) hwritten hfrom]
        exact RtlZeroMemory_getElem _ sizeofTcpInfoV2 i hto
    · have h2 := habove w tcpInfo 2 (by decide) (by decide)
      have h1 := hsupported (H2AfdQueryTcpInfo k abi w SocketHandle 2 tcpInfo).world
        (H2AfdQueryTcpInfo k abi w SocketHandle 2 tcpInfo).buffer
      simp only [h2, h1, Bool.false_eq_true, if_false, if_true, true_and, false_iff]
      refine ⟨by decide, by decide, ?_, ?_⟩
      · rw [H2AfdQueryTcpInfo_createCalls _ _ _ _ 1 _ (by decide),
          H2AfdQueryTcpInfo_createCalls _ _ _ _ 2 _ (by decide)]
      · intro i hfrom hto
        rw [H2AfdQueryTcpInfo_buffer_getElem k abi _ SocketHandle 1 _ i (by decide) hwritten hfrom]
        exact RtlZeroMemory_getElem _ sizeofTcpInfoV2 i hto
    · have h2 := hsupported w tcpInfo
      simp only [h2, if_true, true_and]
      refine ⟨by decide, by decide, ?_, ?_⟩
      · rw [H2AfdQueryTcpInfo_createCalls _ _ _ _ 2 _ (by decide)]
      · intro i hfrom hto
        simp only [tcpInfoSize, sizeofTcpInfoV2, List.getD_cons_succ, List.getD_cons_zero]
          at hfrom hto
        omega
  obtain ⟨h0, h1, h2, hcalls, htail⟩ := hstatus
  have hout : (H2AfdQueryPrintPropertiesTcpInfo k abi H2RawPrintMode w SocketHandle
      tcpInfo).output =
      H2AfdQueryPrintPropertiesTcpInfo.header H2RawPrintMode ::
      (H2AfdQueryPrintPropertiesTcpInfo.values0 n.tcpInfo ++
      (if 1 ≤ v then H2AfdQueryPrintPropertiesTcpInfo.values1 n.tcpInfo
        else
          [H2_AFD_PROPERTY_TCP_INFO_RECEIVER_LIMITED_TRANSITIONS,
            H2_AFD_PROPERTY_TCP_INFO_RECEIVER_LIMITED_TIME,
            H2_AFD_PROPERTY_TCP_INFO_RECEIVER_LIMITED_BYTES,
            H2_AFD_PROPERTY_TCP_INFO_CONGESTION_LIMITED_TRANSITIONS,
            H2_AFD_PROPERTY_TCP_INFO_CONGESTION_LIMITED_TIME,
            H2_AFD_PROPERTY_TCP_INFO_CONGESTION_LIMITED_BYTES,
            H2_AFD_PROPERTY_TCP_INFO_SENDER_LIMITED_TRANSITIONS,
            H2_AFD_PROPERTY_TCP_INFO_SENDER_LIMITED_TIME,
            H2_AFD_PROPERTY_TCP_INFO_SENDER_LIMITED_BYTES].flatMap
            (fun Property => H2AfdPrintPropertyStatus H2RawPrintMode Property n.status1)) ++
      (if 2 ≤ v then H2AfdQueryPrintPropertiesTcpInfo.values2 n.tcpInfo
        else
          [H2_AFD_PROPERTY_TCP_INFO_OUT_OF_ORDER_PACKETS, H2_AFD_PROPERTY_TCP_INFO_ECN_NEGOTIATED,
            H2_AFD_PROPERTY_TCP_INFO_ECE_ACKS_IN, H2_AFD_PROPERTY_TCP_INFO_PTO_EPISODES].flatMap
            (fun Property => H2AfdPrintPropertyStatus H2RawPrintMode Property n.status2)) ++
      [.wprintf_s "\r\n" []]) := by
    rw [← (H2AfdPrintPropertyStatus_range_rounds H2RawPrintMode n.status1).1,
      ← (H2AfdPrintPropertyStatus_range_rounds H2RawPrintMode n.status2).2]
    simp only [H2AfdQueryPrintPropertiesTcpInfo, hn,
      H2AfdQueryPrintPropertiesTcpInfo.report, h0, if_true]
    by_cases hv1 : 1 ≤ v <;> by_cases hv2 : 2 ≤ v <;>
      simp [hv1, hv2, h1.mpr, h2.mpr, (Bool.not_eq_true _).mp (mt h1.mp _),
        (Bool.not_eq_true _).mp (mt h2.mp _)]
  have hheader : Print.property (H2AfdQueryPrintPropertiesTcpInfo.header H2RawPrintMode)
      = none := by
    cases H2RawPrintMode <;> rfl
  have hheader2 : Print.reported (H2AfdQueryPrintPropertiesTcpInfo.header H2RawPrintMode)
      = none := by
    cases H2RawPrintMode <;> rfl
  have hp0 : ∀ t, (H2AfdQueryPrintPropertiesTcpInfo.values0 t).filterMap Print.property
      = (List.range 19).map (fun i => 197 + i) := fun _ => rfl
  have hp1 : ∀ t, (H2AfdQueryPrintPropertiesTcpInfo.values1 t).filterMap Print.property
      = (List.range 9).map (fun i => 216 + i) := fun _ => rfl
  have hp2 : ∀ t, (H2AfdQueryPrintPropertiesTcpInfo.values2 t).filterMap Print.property
      = (List.range 4).map (fun i => 225 + i) := fun _ => rfl
  have hq0 : ∀ t, (H2AfdQueryPrintPropertiesTcpInfo.values0 t).filterMap Print.reported
      = (List.range 19).map (fun i => 197 + i) := fun _ => rfl
  have hq1 : ∀ t, (H2AfdQueryPrintPropertiesTcpInfo.values1 t).filterMap Print.reported
      = (List.range 9).map (fun i => 216 + i) := fun _ => rfl
  have hq2 : ∀ t, (H2AfdQueryPrintPropertiesTcpInfo.values2 t).filterMap Print.reported
      = (List.range 4).map (fun i => 225 + i) := fun _ => rfl
  have hs1 : ∀ s, ((H2AfdPrintPropertyStatus.range H2RawPrintMode
      H2_AFD_PROPERTY_TCP_INFO_RECEIVER_LIMITED_TRANSITIONS
      H2_AFD_PROPERTY_TCP_INFO_SENDER_LIMITED_BYTES s).filterMap Print.reported)
      = (List.range 9).map (fun i => 216 + i) := by
    intro s
    cases H2RawPrintMode <;> rfl
  have hs2 : ∀ s, ((H2AfdPrintPropertyStatus.range H2RawPrintMode
      H2_AFD_PROPERTY_TCP_INFO_OUT_OF_ORDER_PACKETS
      H2_AFD_PROPERTY_TCP_INFO_PTO_EPISODES s).filterMap Print.reported)
      = (List.range 4).map (fun i => 225 + i) := by
    intro s
    cases H2RawPrintMode <;> rfl
  refine ⟨⟨h0, h1, h2⟩, hcalls, hout, ?_, ?_, ?_, htail⟩
  · rw [hout, List.filterMap_cons_none hheader2,
      ← (H2AfdPrintPropertyStatus_range_rounds H2RawPrintMode n.status1).1,
      ← (H2AfdPrintPropertyStatus_range_rounds H2RawPrintMode n.status2).2]
    simp only [List.filterMap_append, hq0]
    interval_cases v
    · rw [if_neg (by decide), if_neg (by decide)]
      simp only [hs1, hs2]
      rfl
    · rw [if_pos (by decide), if_neg (by decide)]
      simp only [hq1, hs2]
      rfl
    · rw [if_pos (by decide), if_pos (by decide)]
      simp only [hq1, hq2]
      rfl
  · rw [hout, List.filterMap_cons_none hheader,
      ← (H2AfdPrintPropertyStatus_range_rounds H2RawPrintMode n.status1).1,
      ← (H2AfdPrintPropertyStatus_range_rounds H2RawPrintMode n.status2).2]
    simp only [List.filterMap_append, hp0]
    interval_cases v
    · rw [if_neg (by decide), if_neg (by decide)]
      simp only [H2AfdPrintPropertyStatus_range_properties]
      rfl
    · rw [if_pos (by decide), if_neg (by decide)]
      simp only [hp1, H2AfdPrintPropertyStatus_range_properties]
      rfl
    · rw [if_pos (by decide), if_pos (by decide)]
      simp only [hp1, hp2]
      rfl
  · intro Property hfrom hto
    have hf1 : ¬ 1 ≤ v → NT_SUCCESS n.status1 = false := fun hlt =>
      (Bool.not_eq_true _).mp (mt h1.mp hlt)
    have hf2 : ¬ 2 ≤ v → NT_SUCCESS n.status2 = false := fun hlt =>
      (Bool.not_eq_true _).mp (mt h2.mp hlt)
    rw [hout]
    by_cases hgroup : Property ≤ H2_AFD_PROPERTY_TCP_INFO_SENDER_LIMITED_BYTES
    · have hv0 : v = 0 := by
        unfold lastTcpInfoProperty H2_AFD_PROPERTY_TCP_INFO_SYN_RETRANSMITS
          H2_AFD_PROPERTY_TCP_INFO_SENDER_LIMITED_BYTES
          H2_AFD_PROPERTY_TCP_INFO_PTO_EPISODES at *
        by_contra hne
        rw [if_neg hne] at hfrom
        split_ifs at hfrom <;> omega
      subst hv0
      rw [if_pos hgroup, if_neg (by decide), if_neg (by decide)]
      refine ⟨hf1 (by decide), fun line hline => ?_⟩
      have hmem : Property ∈ [H2_AFD_PROPERTY_TCP_INFO_RECEIVER_LIMITED_TRANSITIONS,
          H2_AFD_PROPERTY_TCP_INFO_RECEIVER_LIMITED_TIME,
          H2_AFD_PROPERTY_TCP_INFO_RECEIVER_LIMITED_BYTES,
          H2_AFD_PROPERTY_TCP_INFO_CONGESTION_LIMITED_TRANSITIONS,
          H2_AFD_PROPERTY_TCP_INFO_CONGESTION_LIMITED_TIME,
          H2_AFD_PROPERTY_TCP_INFO_CONGESTION_LIMITED_BYTES,
          H2_AFD_PROPERTY_TCP_INFO_SENDER_LIMITED_TRANSITIONS,
          H2_AFD_PROPERTY_TCP_INFO_SENDER_LIMITED_TIME,
          H2_AFD_PROPERTY_TCP_INFO_SENDER_LIMITED_BYTES] := by
        have hlow : 215 < Property := hfrom
        have hhigh : Property ≤ 224 := hgroup
        interval_cases Property <;> decide
      refine List.mem_cons_of_mem _ (List.mem_append_left _ (List.mem_append_left _
        (List.mem_append_right _ ?_)))
      exact List.mem_flatMap.mpr ⟨Property, hmem, hline⟩
    · have hv2 : ¬ 2 ≤ v := by
        unfold lastTcpInfoProperty H2_AFD_PROPERTY_TCP_INFO_SYN_RETRANSMITS
          H2_AFD_PROPERTY_TCP_INFO_SENDER_LIMITED_BYTES
          H2_AFD_PROPERTY_TCP_INFO_PTO_EPISODES at *
        intro hge
        rw [if_neg (by omega), if_neg (by omega)] at hfrom
        omega
      rw [if_neg hgroup, if_neg hv2]
      refine ⟨hf2 hv2, fun line hline => ?_⟩
      have hmem : Property ∈ [H2_AFD_PROPERTY_TCP_INFO_OUT_OF_ORDER_PACKETS,
          H2_AFD_PROPERTY_TCP_INFO_ECN_NEGOTIATED, H2_AFD_PROPERTY_TCP_INFO_ECE_ACKS_IN,
          H2_AFD_PROPERTY_TCP_INFO_PTO_EPISODES] := by
        have hlow : 224 < Property := Nat.lt_of_not_le hgroup
        have hhigh : Property ≤ 228 := hto
        interval_cases Property <;> decide
      refine List.mem_cons_of_mem _ (List.mem_append_left _ (List.mem_append_right _ ?_))
      exact List.mem_flatMap.mpr ⟨Property, hmem, hline⟩

/-- The sample driver that knows `TCP_INFO_v0` and `TCP_INFO_v1` only. -/
theorem versionKernel_status (v u : Nat) (hu : u ≤ 2) (w : World) (SocketHandle : Nat)
    (TcpInfo : List Nat) :
    NT_SUCCESS (H2AfdQueryTcpInfo (versionKernel v) sampleAbi w SocketHandle u TcpInfo).status =
      decide (tcpInfoSize.getD u 0 ≤ tcpInfoSize.getD v 0) := by
  unfold H2AfdQueryTcpInfo
  rw [if_neg (by omega)]
  simp only []
  rw [H2AfdDeviceIoControl_status _ _ _ _ _ _ _ _ _ (by rfl)]
  by_cases h : tcpInfoSize.getD u 0 ≤ tcpInfoSize.getD v 0
  · simp only [versionKernel, h, if_true, decide_True]
    rfl
  · simp only [versionKernel, h, if_false, decide_False]
    rfl

theorem H2AfdQueryPrintPropertiesTcpInfo_exact_version_witness :
    (H2AfdQueryPrintPropertiesTcpInfo (versionKernel 1) sampleAbi false World.initial 7
      staleTcpInfo).output.filterMap Print.reported =
      (List.range 32).map (fun i => H2_AFD_PROPERTY_TCP_INFO_STATE + i) ∧
    (H2AfdQueryPrintPropertiesTcpInfo (versionKernel 1) sampleAbi false World.initial 7
      staleTcpInfo).output.filterMap Print.property =
      (List.range 28).map (fun i => H2_AFD_PROPERTY_TCP_INFO_STATE + i) ∧
    Print.wprintf_s "%s: \r\n"
        [.H2AfdGetPropertyName H2_AFD_PROPERTY_TCP_INFO_ECE_ACKS_IN false] ∈
      (H2AfdQueryPrintPropertiesTcpInfo (versionKernel 1) sampleAbi false World.initial 7
        staleTcpInfo).output :=
  have h := H2AfdQueryPrintPropertiesTcpInfo_exact_version (versionKernel 1) sampleAbi false
    World.initial 7 staleTcpInfo 1 _ rfl (by decide)
    (fun w1 t u h1 h2 => by
      have hu : u = 2 := by omega
      subst hu
      rw [versionKernel_status 1 2 (by decide)]
      decide)
    (fun w1 t => by
      rw [versionKernel_status 1 1 (by decide)]
      decide)
    (fun w1 req => by
      simp only [versionKernel]
      split_ifs
      · simp
      · simp)
  ⟨h.2.2.2.1, h.2.2.2.2.1,
    (h.2.2.2.2.2.1 H2_AFD_PROPERTY_TCP_INFO_ECE_ACKS_IN (by decide) (by decide)).2 _
      (List.mem_singleton.mpr rfl)⟩

/-- A history continues itself. -/
theorem World.continues_refl (w : World) : w.continues w :=
  ⟨[], (List.append_nil _).symm⟩

/-- Continuation of histories is transitive. -/
theorem World.continues_trans {a b c : World} (hab : a.continues b) (hbc : b.continues c) :
    a.continues c := by
  obtain ⟨m1, h1⟩ := hab
  obtain ⟨m2, h2⟩ := hbc
  exact ⟨m1 ++ m2, by rw [h2, h1, List.append_assoc]⟩

/-- A request of a history is a request of every history that continues it. -/
theorem World.continues_mem {a b : World} (hab : a.continues b) {req : IoctlRequest}
    (hreq : req ∈ a.trace) : req ∈ b.trace := by
  obtain ⟨m, h⟩ := hab
  rw [h]
  exact List.mem_append_left _ hreq

/-- The history `H2AfdDeviceIoControl` leaves continues the one it started on. -/
theorem H2AfdDeviceIoControl_continues (k : Kernel) (w : World) (h code : Nat)
    (inB : Option (List Nat)) (inSize : Nat) (outB : Option (List Nat)) (outSize : Nat)
    (bytes : Option Nat) :
    w.continues (H2AfdDeviceIoControl k w h code inB inSize outB outSize bytes).world := by
  have hw := H2AfdDeviceIoControl_world k w h code inB inSize outB outSize bytes
  by_cases hevent : NT_SUCCESS (k.NtCreateEvent w) = true
  · exact ⟨_, hw.2.1 hevent⟩
  · simp only [Bool.not_eq_true] at hevent
    exact ⟨[], by rw [(hw.2.2 hevent).1, List.append_nil]⟩

/-- With an event at hand, `H2AfdQueryPrintSharedInfo` adds the one
`IOCTL_AFD_GET_CONTEXT` request of `H2AfdQuerySharedInfo` to the history. -/
theorem H2AfdQueryPrintSharedInfo_history_trace (k : Kernel) (abi : AfdAbi) (w : World)
    (SocketHandle : Nat) (SharedInfo : List Nat) (returnedSize : Nat)
    (hevent : NT_SUCCESS (k.NtCreateEvent w) = true) :
    (H2AfdQueryPrintSharedInfo.history k abi w SocketHandle SharedInfo returnedSize).trace =
      w.trace ++ [⟨SocketHandle, abi.IOCTL_AFD_GET_CONTEXT, none, 0, some SharedInfo,
        abi.sizeofSockSharedInfo⟩] := by
  have hw := (H2AfdDeviceIoControl_world k w SocketHandle abi.IOCTL_AFD_GET_CONTEXT none 0
    (some SharedInfo) abi.sizeofSockSharedInfo (some returnedSize)).2.1 hevent
  unfold H2AfdQueryPrintSharedInfo.history H2AfdQuerySharedInfo
  simp only []
  split_ifs <;> exact hw

/-- With events at hand, the calls of `H2AfdQuerySimpleInfo` for a list of
classes add one `IOCTL_AFD_GET_INFORMATION` request for each class, in order,
whose input starts with the class. -/
theorem H2AfdQueryPrintSimpleInfo_history_trace (k : Kernel) (abi : AfdAbi)
    (SocketHandle : Nat) (hevent : ∀ w1, NT_SUCCESS (k.NtCreateEvent w1) = true) :
    ∀ (classes : List Nat) (st : World × List Nat),
      ∃ requests,
        (classes.foldl (H2AfdQueryPrintSimpleInfo.query k abi SocketHandle) st).1.trace =
          st.1.trace ++ requests ∧
        requests.map (fun req => (req.handle, req.code, (req.input.getD []).take 4)) =
          classes.map (fun InformationType =>
            (SocketHandle, abi.IOCTL_AFD_GET_INFORMATION, bytesULONG InformationType)) := by
  intro classes
  induction classes with
  | nil =>
    intro st
    exact ⟨[], by simp, rfl⟩
  | cons InformationType rest ih =>
    intro st
    obtain ⟨requests, htrace, hmap⟩ :=
      ih (H2AfdQueryPrintSimpleInfo.query k abi SocketHandle st InformationType)
    have hfirst : (H2AfdQueryPrintSimpleInfo.query k abi SocketHandle st InformationType).1.trace
        = st.1.trace ++ [⟨SocketHandle, abi.IOCTL_AFD_GET_INFORMATION,
            some (writeULONG st.2 InformationType), abi.sizeofAfdInformation,
            some (writeULONG st.2 InformationType), abi.sizeofAfdInformation⟩] := by
      simp only [H2AfdQueryPrintSimpleInfo.query, H2AfdQuerySimpleInfo]
      exact (H2AfdDeviceIoControl_world k st.1 SocketHandle abi.IOCTL_AFD_GET_INFORMATION _ _ _ _
        none).2.1 (hevent st.1)
    refine ⟨(⟨SocketHandle, abi.IOCTL_AFD_GET_INFORMATION,
        some (writeULONG st.2 InformationType), abi.sizeofAfdInformation,
        some (writeULONG st.2 InformationType), abi.sizeofAfdInformation⟩ : IoctlRequest)
      :: requests, ?_, ?_⟩
    · rw [List.foldl_cons, htrace, hfirst, List.append_assoc, List.singleton_append]
    · rw [List.map_cons, List.map_cons, hmap]
      have htake : (writeULONG st.2 InformationType).take 4 = bytesULONG InformationType := by
        simp [writeULONG, bytesULONG]
      simp only [Option.getD_some, htake]

/-- The history `H2AfdQueryPrintSharedInfo` leaves continues the one it started on. -/
theorem H2AfdQueryPrintSharedInfo_history_continues (k : Kernel) (abi : AfdAbi) (w : World)
    (SocketHandle : Nat) (SharedInfo : List Nat) (returnedSize : Nat) :
    w.continues
      (H2AfdQueryPrintSharedInfo.history k abi w SocketHandle SharedInfo returnedSize) := by
  have hw := H2AfdDeviceIoControl_continues k w SocketHandle abi.IOCTL_AFD_GET_CONTEXT none 0
    (some SharedInfo) abi.sizeofSockSharedInfo (some returnedSize)
  unfold H2AfdQueryPrintSharedInfo.history H2AfdQuerySharedInfo
  simp only []
  split_ifs <;> exact hw

/-- The history the calls of `H2AfdQuerySimpleInfo` leave continues the one
they started on. -/
theorem H2AfdQueryPrintSimpleInfo_history_continues (k : Kernel) (abi : AfdAbi)
    (SocketHandle : Nat) :
    ∀ (classes : List Nat) (st : World × List Nat),
      st.1.continues
        (classes.foldl (H2AfdQueryPrintSimpleInfo.query k abi SocketHandle) st).1 := by
  intro classes
  induction classes with
  | nil =>
    intro st
    exact World.continues_refl _
  | cons InformationType rest ih =>
    intro st
    refine World.continues_trans ?_ (ih _)
    simp only [H2AfdQueryPrintSimpleInfo.query, H2AfdQuerySimpleInfo]
    exact H2AfdDeviceIoControl_continues k st.1 SocketHandle abi.IOCTL_AFD_GET_INFORMATION _ _ _ _
      none

/-- Each of the sample decoders `queryDecoders` only adds to the history. -/
theorem queryDecoders_continues (k : Kernel) (abi : AfdAbi) (p : Phase) (w : World)
    (SocketHandle : Nat) (VerboseMode : Bool) :
    w.continues (queryDecoders k abi p w SocketHandle VerboseMode) := by
  cases p
  case H2AfdQueryPrintSharedInfo =>
    exact H2AfdQueryPrintSharedInfo_history_continues k abi w SocketHandle _ _
  case H2AfdQueryPrintSimpleInfo =>
    exact H2AfdQueryPrintSimpleInfo_history_continues k abi SocketHandle _ (w, _)
  all_goals exact World.continues_refl _

/-- C15. In `H2AfdQueryPrintDetailsSocket` the decoders `H2AfdQueryPrintSharedInfo`,
`H2AfdQueryPrintAddresses`, `H2AfdQueryPrintSimpleInfo` and
`H2AfdQueryPrintTDIDevices` run first, in this order, each on the history the
one before it left, and the probe `H2AfdQueryOption(SocketHandle, 0xDEAD,
0xDEAD)` is issued on the history the fourth one left, whatever it returns.
When the probe returns a success status nothing runs after it: the history is
the one the probe left, whose requests are those of the four decoders
followed by the probe's own `IOCTL_AFD_TRANSPORT_IOCTL`.  When the probe
fails, the six option decoders Sol, Ip, Tcp, TcpInfo, Udp and Hv run, in this
order, each on the history the previous one left.  With the queries of
`H2AfdQueryPrintSharedInfo` and `H2AfdQueryPrintSimpleInfo` as the first and
third decoder, events at hand and decoders that only add to the history, the
`IOCTL_AFD_GET_CONTEXT` request and an `IOCTL_AFD_GET_INFORMATION` request for
each of the seven classes are among the requests of the final history,
whatever the probe returns. -/
theorem H2AfdQueryPrintDetailsSocket_probe (k : Kernel) (abi : AfdAbi) (d : PhaseRun)
    (w : World) (SocketHandle : Nat) (VerboseMode : Bool) (option : List Nat) :
    (H2AfdQueryPrintDetailsSocket.before d w SocketHandle VerboseMode) =
      ⟨[.H2AfdQueryPrintSharedInfo, .H2AfdQueryPrintAddresses, .H2AfdQueryPrintSimpleInfo,
          .H2AfdQueryPrintTDIDevices],
        d .H2AfdQueryPrintTDIDevices
          (d .H2AfdQueryPrintSimpleInfo
            (d .H2AfdQueryPrintAddresses
              (d .H2AfdQueryPrintSharedInfo w SocketHandle VerboseMode)
              SocketHandle VerboseMode)
            SocketHandle VerboseMode)
          SocketHandle VerboseMode⟩ ∧
    H2AfdQueryPrintDetailsSocket.probe k abi d w SocketHandle VerboseMode option =
      H2AfdQueryOption k abi
        (d .H2AfdQueryPrintTDIDevices
          (d .H2AfdQueryPrintSimpleInfo
            (d .H2AfdQueryPrintAddresses
              (d .H2AfdQueryPrintSharedInfo w SocketHandle VerboseMode)
              SocketHandle VerboseMode)
            SocketHandle VerboseMode)
          SocketHandle VerboseMode)
        SocketHandle 0xDEAD 0xDEAD option ∧
    (H2AfdQueryPrintDetailsSocket k abi d w SocketHandle VerboseMode option).calls.take 4 =
      [.H2AfdQueryPrintSharedInfo, .H2AfdQueryPrintAddresses, .H2AfdQueryPrintSimpleInfo,
        .H2AfdQueryPrintTDIDevices] ∧
    (NT_SUCCESS (H2AfdQueryPrintDetailsSocket.probe k abi d w SocketHandle VerboseMode
        option).status = true →
      (H2AfdQueryPrintDetailsSocket k abi d w SocketHandle VerboseMode option).calls =
        [.H2AfdQueryPrintSharedInfo, .H2AfdQueryPrintAddresses, .H2AfdQueryPrintSimpleInfo,
          .H2AfdQueryPrintTDIDevices] ∧
      (H2AfdQueryPrintDetailsSocket k abi d w SocketHandle VerboseMode option).world =
        (H2AfdQueryPrintDetailsSocket.probe k abi d w SocketHandle VerboseMode option).world ∧
      (H2AfdQueryPrintDetailsSocket k abi d w SocketHandle VerboseMode option).world.trace =
        (d .H2AfdQueryPrintTDIDevices
          (d .H2AfdQueryPrintSimpleInfo
            (d .H2AfdQueryPrintAddresses
              (d .H2AfdQueryPrintSharedInfo w SocketHandle VerboseMode)
              SocketHandle VerboseMode)
            SocketHandle VerboseMode)
          SocketHandle VerboseMode).trace ++
          [⟨SocketHandle, abi.IOCTL_AFD_TRANSPORT_IOCTL,
            some (abi.encodeTlIoControlInfo
              ⟨abi.TlGetSockOptIoControlType, 0xDEAD, 0xDEAD, true, none, 0⟩),
            abi.sizeofAfdTlIoControlInfo, some (writeULONG option 0), sizeofULONG⟩]) ∧
    (NT_SUCCESS (H2AfdQueryPrintDetailsSocket.probe k abi d w SocketHandle VerboseMode
        option).status = false →
      (H2AfdQueryPrintDetailsSocket k abi d w SocketHandle VerboseMode option).calls =
        [.H2AfdQueryPrintSharedInfo, .H2AfdQueryPrintAddresses, .H2AfdQueryPrintSimpleInfo,
          .H2AfdQueryPrintTDIDevices,
          .H2AfdQueryPrintPropertiesSol, .H2AfdQueryPrintPropertiesIp,
          .H2AfdQueryPrintPropertiesTcp, .H2AfdQueryPrintPropertiesTcpInfo,
          .H2AfdQueryPrintPropertiesUdp, .H2AfdQueryPrintPropertiesHv] ∧
      (H2AfdQueryPrintDetailsSocket k abi d w SocketHandle VerboseMode option).world =
        d .H2AfdQueryPrintPropertiesHv
          (d .H2AfdQueryPrintPropertiesUdp
            (d .H2AfdQueryPrintPropertiesTcpInfo
              (d .H2AfdQueryPrintPropertiesTcp
                (d .H2AfdQueryPrintPropertiesIp
                  (d .H2AfdQueryPrintPropertiesSol
                    (H2AfdQueryPrintDetailsSocket.probe k abi d w SocketHandle VerboseMode
                      option).world SocketHandle VerboseMode)
                  SocketHandle VerboseMode)
                SocketHandle VerboseMode)
              SocketHandle VerboseMode)
            SocketHandle VerboseMode)
          SocketHandle VerboseMode) ∧
    (∀ (SharedInfo : List Nat) (returnedSize : Nat) (info : List Nat),
      (∀ w1, d .H2AfdQueryPrintSharedInfo w1 SocketHandle VerboseMode =
        H2AfdQueryPrintSharedInfo.history k abi w1 SocketHandle SharedInfo returnedSize) →
      (∀ w1, d .H2AfdQueryPrintSimpleInfo w1 SocketHandle VerboseMode =
        H2AfdQueryPrintSimpleInfo.history k abi w1 SocketHandle info) →
      (∀ w1, NT_SUCCESS (k.NtCreateEvent w1) = true) →
      (∀ (p : Phase) (w1 : World), World.continues w1 (d p w1 SocketHandle VerboseMode)) →
      (⟨SocketHandle, abi.IOCTL_AFD_GET_CONTEXT, none, 0, some SharedInfo,
          abi.sizeofSockSharedInfo⟩ ∈
        (H2AfdQueryPrintDetailsSocket k abi d w SocketHandle VerboseMode option).world.trace) ∧
      (∀ InformationType ∈ H2AfdQueryPrintSimpleInfo.classes abi,
        ∃ req ∈ (H2AfdQueryPrintDetailsSocket k abi d w SocketHandle VerboseMode
            option).world.trace,
          req.handle = SocketHandle ∧ req.code = abi.IOCTL_AFD_GET_INFORMATION ∧
          (req.input.getD []).take 4 = bytesULONG InformationType)) := by
  have hbefore : (H2AfdQueryPrintDetailsSocket.before d w SocketHandle VerboseMode) =
      ⟨[.H2AfdQueryPrintSharedInfo, .H2AfdQueryPrintAddresses, .H2AfdQueryPrintSimpleInfo,
          .H2AfdQueryPrintTDIDevices],
        d .H2AfdQueryPrintTDIDevices
          (d .H2AfdQueryPrintSimpleInfo
            (d .H2AfdQueryPrintAddresses
              (d .H2AfdQueryPrintSharedInfo w SocketHandle VerboseMode)
              SocketHandle VerboseMode)
            SocketHandle VerboseMode)
          SocketHandle VerboseMode⟩ := rfl
  have hprobe : H2AfdQueryPrintDetailsSocket.probe k abi d w SocketHandle VerboseMode option =
      H2AfdQueryOption k abi
        (d .H2AfdQueryPrintTDIDevices
          (d .H2AfdQueryPrintSimpleInfo
            (d .H2AfdQueryPrintAddresses
              (d .H2AfdQueryPrintSharedInfo w SocketHandle VerboseMode)
              SocketHandle VerboseMode)
            SocketHandle VerboseMode)
          SocketHandle VerboseMode)
        SocketHandle 0xDEAD 0xDEAD option := by
    unfold H2AfdQueryPrintDetailsSocket.probe
    rw [hbefore]
  have hsuccess : NT_SUCCESS (H2AfdQueryPrintDetailsSocket.probe k abi d w SocketHandle
      VerboseMode option).status = true →
      H2AfdQueryPrintDetailsSocket k abi d w SocketHandle VerboseMode option =
        ⟨[.H2AfdQueryPrintSharedInfo, .H2AfdQueryPrintAddresses, .H2AfdQueryPrintSimpleInfo,
            .H2AfdQueryPrintTDIDevices],
          (H2AfdQueryPrintDetailsSocket.probe k abi d w SocketHandle VerboseMode
            option).world⟩ := by
    intro hs
    unfold H2AfdQueryPrintDetailsSocket
    simp only [hs, Bool.not_true, Bool.false_eq_true, if_false, hbefore]
  have hfailure : NT_SUCCESS (H2AfdQueryPrintDetailsSocket.probe k abi d w SocketHandle
      VerboseMode option).status = false →
      H2AfdQueryPrintDetailsSocket k abi d w SocketHandle VerboseMode option =
        ⟨[.H2AfdQueryPrintSharedInfo, .H2AfdQueryPrintAddresses, .H2AfdQueryPrintSimpleInfo,
            .H2AfdQueryPrintTDIDevices,
            .H2AfdQueryPrintPropertiesSol, .H2AfdQueryPrintPropertiesIp,
            .H2AfdQueryPrintPropertiesTcp, .H2AfdQueryPrintPropertiesTcpInfo,
            .H2AfdQueryPrintPropertiesUdp, .H2AfdQueryPrintPropertiesHv],
          d .H2AfdQueryPrintPropertiesHv
            (d .H2AfdQueryPrintPropertiesUdp
              (d .H2AfdQueryPrintPropertiesTcpInfo
                (d .H2AfdQueryPrintPropertiesTcp
                  (d .H2AfdQueryPrintPropertiesIp
                    (d .H2AfdQueryPrintPropertiesSol
                      (H2AfdQueryPrintDetailsSocket.probe k abi d w SocketHandle VerboseMode
                        option).world SocketHandle VerboseMode)
                    SocketHandle VerboseMode)
                  SocketHandle VerboseMode)
                SocketHandle VerboseMode)
              SocketHandle VerboseMode)
            SocketHandle VerboseMode⟩ := by
    intro hs
    unfold H2AfdQueryPrintDetailsSocket
    simp only [hs, Bool.not_false, if_true, hbefore]
    rfl
  refine ⟨hbefore, hprobe, ?_, ?_, ?_, ?_⟩
  · by_cases hs : NT_SUCCESS (H2AfdQueryPrintDetailsSocket.probe k abi d w SocketHandle
        VerboseMode option).status = true
    · rw [hsuccess hs]
      rfl
    · simp only [Bool.not_eq_true] at hs
      rw [hfailure hs]
      rfl
  · intro hs
    rw [hsuccess hs]
    refine ⟨rfl, rfl, ?_⟩
    simp only []
    rw [hprobe] at hs ⊢
    have hio := H2AfdDeviceIoControl_world k
      (d .H2AfdQueryPrintTDIDevices
        (d .H2AfdQueryPrintSimpleInfo
          (d .H2AfdQueryPrintAddresses
            (d .H2AfdQueryPrintSharedInfo w SocketHandle VerboseMode)
            SocketHandle VerboseMode)
          SocketHandle VerboseMode)
        SocketHandle VerboseMode) SocketHandle
      abi.IOCTL_AFD_TRANSPORT_IOCTL
      (some (abi.encodeTlIoControlInfo
        ⟨abi.TlGetSockOptIoControlType, 0xDEAD, 0xDEAD, true, none, 0⟩))
      abi.sizeofAfdTlIoControlInfo (some (writeULONG option 0)) sizeofULONG none
    by_cases hevent : NT_SUCCESS (k.NtCreateEvent
      (d .H2AfdQueryPrintTDIDevices
        (d .H2AfdQueryPrintSimpleInfo
          (d .H2AfdQueryPrintAddresses
            (d .H2AfdQueryPrintSharedInfo w SocketHandle VerboseMode)
            SocketHandle VerboseMode)
          SocketHandle VerboseMode)
        SocketHandle VerboseMode)) = true
    · exact hio.2.1 hevent
    · exfalso
      simp only [Bool.not_eq_true] at hevent
      have hstatus := (hio.2.2 hevent).2.1
      simp only [H2AfdQueryOption] at hs
      rw [hstatus, hevent] at hs
      exact Bool.false_ne_true hs
  · intro hs
    rw [hfailure hs]
    exact ⟨rfl, rfl⟩
  · intro SharedInfo returnedSize info hshared hsimple hevent hgrow
    have hprobeGrows : (d .H2AfdQueryPrintTDIDevices
          (d .H2AfdQueryPrintSimpleInfo
            (d .H2AfdQueryPrintAddresses
              (d .H2AfdQueryPrintSharedInfo w SocketHandle VerboseMode)
              SocketHandle VerboseMode)
            SocketHandle VerboseMode)
          SocketHandle VerboseMode).continues
        (H2AfdQueryPrintDetailsSocket.probe k abi d w SocketHandle VerboseMode option).world := by
      rw [hprobe]
      exact H2AfdDeviceIoControl_continues k _ SocketHandle _ _ _ _ _ none
    have hfinal : (H2AfdQueryPrintDetailsSocket.probe k abi d w SocketHandle VerboseMode
          option).world.continues
        (H2AfdQueryPrintDetailsSocket k abi d w SocketHandle VerboseMode option).world := by
      by_cases hs : NT_SUCCESS (H2AfdQueryPrintDetailsSocket.probe k abi d w SocketHandle
          VerboseMode option).status = true
      · rw [hsuccess hs]
        exact World.continues_refl _
      · simp only [Bool.not_eq_true] at hs
        rw [hfailure hs]
        exact World.continues_trans (hgrow _ _) (World.continues_trans (hgrow _ _)
          (World.continues_trans (hgrow _ _) (World.continues_trans (hgrow _ _)
            (World.continues_trans (hgrow _ _) (hgrow _ _)))))
    have hafterSimple : (d .H2AfdQueryPrintSimpleInfo
          (d .H2AfdQueryPrintAddresses
            (d .H2AfdQueryPrintSharedInfo w SocketHandle VerboseMode)
            SocketHandle VerboseMode)
          SocketHandle VerboseMode).continues
        (H2AfdQueryPrintDetailsSocket k abi d w SocketHandle VerboseMode option).world :=
      World.continues_trans (hgrow _ _) (World.continues_trans hprobeGrows hfinal)
    constructor
    · have hmem : (⟨SocketHandle, abi.IOCTL_AFD_GET_CONTEXT, none, 0, some SharedInfo,
          abi.sizeofSockSharedInfo⟩ : IoctlRequest) ∈
          (d .H2AfdQueryPrintSharedInfo w SocketHandle VerboseMode).trace := by
        rw [hshared w, H2AfdQueryPrintSharedInfo_history_trace k abi w SocketHandle SharedInfo
          returnedSize (hevent w)]
        exact List.mem_append_right _ (List.mem_singleton.mpr rfl)
      exact World.continues_mem (World.continues_trans (hgrow .H2AfdQueryPrintAddresses _)
        (World.continues_trans (hgrow .H2AfdQueryPrintSimpleInfo _) hafterSimple)) hmem
    · intro InformationType hclass
      obtain ⟨requests, htrace, hmap⟩ := H2AfdQueryPrintSimpleInfo_history_trace k abi
        SocketHandle hevent (H2AfdQueryPrintSimpleInfo.classes abi)
        (d .H2AfdQueryPrintAddresses
          (d .H2AfdQueryPrintSharedInfo w SocketHandle VerboseMode) SocketHandle VerboseMode,
          info)
      have hin : (SocketHandle, abi.IOCTL_AFD_GET_INFORMATION, bytesULONG InformationType) ∈
          requests.map (fun req => (req.handle, req.code, (req.input.getD []).take 4)) := by
        rw [hmap]
        exact List.mem_map.mpr ⟨InformationType, hclass, rfl⟩
      obtain ⟨req, hreq, heq⟩ := List.mem_map.mp hin
      simp only [Prod.mk.injEq] at heq
      refine ⟨req, ?_, heq.1, heq.2.1, heq.2.2⟩
      apply World.continues_mem hafterSimple
      rw [hsimple]
      unfold H2AfdQueryPrintSimpleInfo.history
      rw [htrace]
      exact List.mem_append_right _ hreq

theorem H2AfdQueryPrintDetailsSocket_probe_witness :
    (NT_SUCCESS (H2AfdQueryPrintDetailsSocket.probe fillKernel sampleAbi
        (queryDecoders fillKernel sampleAbi) World.initial 7 true [1, 2, 3, 4]).status = true ∧
      (H2AfdQueryPrintDetailsSocket fillKernel sampleAbi (queryDecoders fillKernel sampleAbi)
        World.initial 7 true [1, 2, 3, 4]).calls =
        [.H2AfdQueryPrintSharedInfo, .H2AfdQueryPrintAddresses, .H2AfdQueryPrintSimpleInfo,
          .H2AfdQueryPrintTDIDevices] ∧
      ((H2AfdQueryPrintDetailsSocket fillKernel sampleAbi (queryDecoders fillKernel sampleAbi)
        World.initial 7 true [1, 2, 3, 4]).world.trace.map (fun req => req.code)) =
        [0x12043, 0x1207B, 0x1207B, 0x1207B, 0x1207B, 0x1207B, 0x1207B, 0x1207B, 0x1202D]) ∧
    (NT_SUCCESS (H2AfdQueryPrintDetailsSocket.probe
        (constKernel ⟨STATUS_INVALID_PARAMETER, 0, 0, []⟩) sampleAbi
        (queryDecoders (constKernel ⟨STATUS_INVALID_PARAMETER, 0, 0, []⟩) sampleAbi)
        World.initial 7 true [1, 2, 3, 4]).status = false ∧
      (H2AfdQueryPrintDetailsSocket (constKernel ⟨STATUS_INVALID_PARAMETER, 0, 0, []⟩) sampleAbi
        (queryDecoders (constKernel ⟨STATUS_INVALID_PARAMETER, 0, 0, []⟩) sampleAbi)
        World.initial 7 true [1, 2, 3, 4]).calls.length = 10 ∧
      (⟨7, 0x12043, none, 0, some (List.replicate 248 170), 248⟩ ∈
        (H2AfdQueryPrintDetailsSocket (constKernel ⟨STATUS_INVALID_PARAMETER, 0, 0, []⟩) sampleAbi
          (queryDecoders (constKernel ⟨STATUS_INVALID_PARAMETER, 0, 0, []⟩) sampleAbi)
          World.initial 7 true [1, 2, 3, 4]).world.trace) ∧
      (∀ InformationType ∈ [3, 4, 5, 6, 7, 8, 10],
        ∃ req ∈ (H2AfdQueryPrintDetailsSocket (constKernel ⟨STATUS_INVALID_PARAMETER, 0, 0, []⟩)
            sampleAbi
            (queryDecoders (constKernel ⟨STATUS_INVALID_PARAMETER, 0, 0, []⟩) sampleAbi)
            World.initial 7 true [1, 2, 3, 4]).world.trace,
          req.handle = 7 ∧ req.code = 0x1207B ∧
          (req.input.getD []).take 4 = bytesULONG InformationType)) :=
  have hs := (H2AfdQueryPrintDetailsSocket_probe fillKernel sampleAbi
    (queryDecoders fillKernel sampleAbi) World.initial 7 true [1, 2, 3, 4]).2.2.2.1 (by decide)
  have hf := (H2AfdQueryPrintDetailsSocket_probe
    (constKernel ⟨STATUS_INVALID_PARAMETER, 0, 0, []⟩) sampleAbi
    (queryDecoders (constKernel ⟨STATUS_INVALID_PARAMETER, 0, 0, []⟩) sampleAbi)
    World.initial 7 true [1, 2, 3, 4])
  have hq := hf.2.2.2.2.2 (List.replicate 248 170) 0 (List.replicate 16 170)
    (fun _ => rfl) (fun _ => rfl) (fun _ => rfl)
    (fun p w1 => queryDecoders_continues _ sampleAbi p w1 7 true)
  ⟨⟨by decide, hs.1, by rw [hs.2.2]; rfl⟩,
    by decide, by rw [(hf.2.2.2.2.1 (by decide)).1]; rfl, hq.1, hq.2⟩

/-- C21. For every call of `H2AfdDeviceIoControl`: when `NtCreateEvent`
succeeds, one event is created and one is closed before the function returns,
whether the driver answers with a success, with a failure or with
`STATUS_PENDING` (then the function waits once); when `NtCreateEvent` fails,
its status is returned, no request is issued and no event is created or
closed.  In every case the number of events created minus the number closed
is the same after the call as before. -/
theorem H2AfdDeviceIoControl_event_closed (k : Kernel) (w : World) (SocketHandle code : Nat)
    (InBuffer : Option (List Nat)) (InBufferSize : Nat) (OutputBuffer : Option (List Nat))
    (OutputBufferSize : Nat) (BytesReturned : Option Nat) :
    (NT_SUCCESS (k.NtCreateEvent w) = true →
      (H2AfdDeviceIoControl k w SocketHandle code InBuffer InBufferSize OutputBuffer
        OutputBufferSize BytesReturned).world.eventsCreated = w.eventsCreated + 1 ∧
      (H2AfdDeviceIoControl k w SocketHandle code InBuffer InBufferSize OutputBuffer
        OutputBufferSize BytesReturned).world.eventsClosed = w.eventsClosed + 1 ∧
      (H2AfdDeviceIoControl k w SocketHandle code InBuffer InBufferSize OutputBuffer
        OutputBufferSize BytesReturned).world.waits =
        w.waits + (if (k.NtDeviceIoControlFile w.eventCreated
          ⟨SocketHandle, code, InBuffer, InBufferSize, OutputBuffer, OutputBufferSize⟩).status
            = STATUS_PENDING then 1 else 0)) ∧
    (NT_SUCCESS (k.NtCreateEvent w) = false →
      (H2AfdDeviceIoControl k w SocketHandle code InBuffer InBufferSize OutputBuffer
        OutputBufferSize BytesReturned).status = k.NtCreateEvent w ∧
      (H2AfdDeviceIoControl k w SocketHandle code InBuffer InBufferSize OutputBuffer
        OutputBufferSize BytesReturned).world.trace = w.trace ∧
      (H2AfdDeviceIoControl k w SocketHandle code InBuffer InBufferSize OutputBuffer
        OutputBufferSize BytesReturned).world.eventsCreated = w.eventsCreated ∧
      (H2AfdDeviceIoControl k w SocketHandle code InBuffer InBufferSize OutputBuffer
        OutputBufferSize BytesReturned).world.eventsClosed = w.eventsClosed) ∧
    (H2AfdDeviceIoControl k w SocketHandle code InBuffer InBufferSize OutputBuffer
        OutputBufferSize BytesReturned).world.eventsCreated + w.eventsClosed =
      w.eventsCreated + (H2AfdDeviceIoControl k w SocketHandle code InBuffer InBufferSize
        OutputBuffer OutputBufferSize BytesReturned).world.eventsClosed := by
  unfold H2AfdDeviceIoControl World.eventCreated
  by_cases hc : NT_SUCCESS (k.NtCreateEvent w) = true
  · simp only [hc, Bool.not_true, Bool.false_eq_true, if_false, true_implies, false_implies,
      Bool.true_eq_false, and_true, decide_eq_true_eq]
    by_cases hp : (k.NtDeviceIoControlFile
        { w with createCalls := w.createCalls + 1, eventsCreated := w.eventsCreated + 1 }
        ⟨SocketHandle, code, InBuffer, InBufferSize, OutputBuffer, OutputBufferSize⟩).status
          = STATUS_PENDING
    · simp only [hp, if_true, decide_True]
      refine ⟨⟨trivial, trivial, trivial⟩, trivial, ?_⟩
      omega
    · simp only [hp, if_false, decide_False, Bool.false_eq_true, Nat.add_zero]
      refine ⟨⟨trivial, trivial, trivial⟩, trivial, ?_⟩
      omega
  · simp only [Bool.not_eq_true] at hc
    simp [hc]

theorem H2AfdDeviceIoControl_event_closed_witness :
    (H2AfdDeviceIoControl (constKernel ⟨STATUS_PENDING, STATUS_NOT_FOUND, 0, []⟩) World.initial
      7 0x12043 none 0 none 0 none).world.eventsCreated = 1 ∧
    (H2AfdDeviceIoControl (constKernel ⟨STATUS_PENDING, STATUS_NOT_FOUND, 0, []⟩) World.initial
      7 0x12043 none 0 none 0 none).world.eventsClosed = 1 ∧
    (H2AfdDeviceIoControl (constKernel ⟨STATUS_PENDING, STATUS_NOT_FOUND, 0, []⟩) World.initial
      7 0x12043 none 0 none 0 none).world.waits = 1 :=
  have h := (H2AfdDeviceIoControl_event_closed (constKernel ⟨STATUS_PENDING, STATUS_NOT_FOUND, 0, []⟩)
    World.initial 7 0x12043 none 0 none 0 none).1 (by decide)
  ⟨h.1, h.2.1, h.2.2.trans (by decide)⟩

/-! ## Protocol names -/

/-- What the inner `switch` blocks of `H2AfdGetProtocolString` recognise. -/
theorem H2AfdGetProtocolString_blocks (Protocol : Int) (RawName : Bool) :
    ((H2AfdGetProtocolString.inet Protocol RawName).isSome = true ↔
      Protocol ∈ listedProtocolNames AF_INET) ∧
    ((H2AfdGetProtocolString.bth Protocol RawName).isSome = true ↔
      Protocol = BTHPROTO_RFCOMM ∨ Protocol = BTHPROTO_L2CAP) ∧
    ((H2AfdGetProtocolString.hyperv Protocol RawName).isSome = true ↔
      Protocol = HV_PROTOCOL_RAW) := by
  have hlist : ∀ p : Int, p ∈ listedProtocolNames AF_INET ↔
      (p = IPPROTO_ICMP ∨ p = IPPROTO_IGMP ∨ p = IPPROTO_TCP ∨ p = IPPROTO_UDP ∨
        p = IPPROTO_RDP ∨ p = IPPROTO_ICMPV6 ∨ p = IPPROTO_PGM ∨ p = IPPROTO_L2TP ∨
        p = IPPROTO_SCTP ∨ p = IPPROTO_RAW ∨ p = IPPROTO_RESERVED_IPSEC) := by
    intro p
    simp [listedProtocolNames, AF_INET]
  refine ⟨?_, ?_, ?_⟩
  · rw [hlist]
    constructor
    · intro h
      by_contra hne
      simp only [not_or] at hne
      obtain ⟨h1, h2, h3, h4, h5, h6, h7, h8, h9, h10, h11⟩ := hne
      simp [H2AfdGetProtocolString.inet, h1, h2, h3, h4, h5, h6, h7, h8, h9, h10, h11] at h
    · rintro (h | h | h | h | h | h | h | h | h | h | h) <;> subst h <;> rfl
  · constructor
    · intro h
      by_contra hne
      simp only [not_or] at hne
      simp [H2AfdGetProtocolString.bth, hne.1, hne.2] at h
    · rintro (h | h) <;> subst h <;> rfl
  · constructor
    · intro h
      by_contra hne
      simp [H2AfdGetProtocolString.hyperv, hne] at h
    · intro h
      subst h
      rfl

/-- C23 fails on the code. `H2AfdGetProtocolString(AF_INET, 3, ...)` is not
`NULL`: protocol 3 is not among the eleven IP protocols, no `break` follows
the inner `switch`, and control runs on into the block of `case AF_BTH`, where
3 is `BTHPROTO_RFCOMM`.  In the same way `AF_INET6` with `0x100` gives the
name of `BTHPROTO_L2CAP` and `AF_BTH` with 1 the name of `HV_PROTOCOL_RAW`.
In general the result is a name exactly when the protocol is listed under the
given family or under a family whose `case` label comes later; only for
`AF_HYPERV` and for the families without a `case` label is the result as
claimed. -/
theorem H2AfdGetProtocolString_falls_through :
    (3 : Int) ∉ listedProtocolNames AF_INET ∧
    H2AfdGetProtocolString AF_INET 3 true = some "BTHPROTO_RFCOMM" ∧
    H2AfdGetProtocolString AF_INET 3 false = some "RFCOMM" ∧
    H2AfdGetProtocolString AF_INET6 0x100 false = some "L2CAP" ∧
    H2AfdGetProtocolString AF_BTH 1 true = some "HV_PROTOCOL_RAW" ∧
    (∀ (AddressFamily Protocol : Int) (RawName : Bool),
      (H2AfdGetProtocolString AddressFamily Protocol RawName).isSome = true ↔
        (AddressFamily = AF_INET ∨ AddressFamily = AF_INET6) ∧
          (Protocol ∈ listedProtocolNames AF_INET ∨ Protocol ∈ listedProtocolNames AF_BTH ∨
            Protocol ∈ listedProtocolNames AF_HYPERV) ∨
        AddressFamily = AF_BTH ∧
          (Protocol ∈ listedProtocolNames AF_BTH ∨ Protocol ∈ listedProtocolNames AF_HYPERV) ∨
        AddressFamily = AF_HYPERV ∧ Protocol ∈ listedProtocolNames AF_HYPERV) := by
  refine ⟨by decide, rfl, rfl, rfl, rfl, ?_⟩
  intro AddressFamily Protocol RawName
  have hb := H2AfdGetProtocolString_blocks Protocol RawName
  have hbth : ∀ p : Int, p ∈ listedProtocolNames AF_BTH ↔
      p = BTHPROTO_RFCOMM ∨ p = BTHPROTO_L2CAP := by
    intro p
    simp [listedProtocolNames, AF_BTH, AF_INET, AF_INET6]
  have hhv : ∀ p : Int, p ∈ listedProtocolNames AF_HYPERV ↔ p = HV_PROTOCOL_RAW := by
    intro p
    simp [listedProtocolNames, AF_BTH, AF_INET, AF_INET6, AF_HYPERV]
  rw [hbth, hhv, ← hb.1, ← hb.2.1, ← hb.2.2]
  unfold H2AfdGetProtocolString
  by_cases h1 : AddressFamily = AF_INET ∨ AddressFamily = AF_INET6
  · have h2 : AddressFamily ≠ AF_BTH := by
      rcases h1 with h | h <;> rw [h] <;> decide
    have h3 : AddressFamily ≠ AF_HYPERV := by
      rcases h1 with h | h <;> rw [h] <;> decide
    rw [if_pos h1]
    simp only [h1, true_and, h2, h3, false_and, or_false]
    cases H2AfdGetProtocolString.inet Protocol RawName <;>
      cases H2AfdGetProtocolString.bth Protocol RawName <;>
      cases H2AfdGetProtocolString.hyperv Protocol RawName <;> simp [Option.orElse]
  · rw [if_neg h1]
    by_cases h2 : AddressFamily = AF_BTH
    · have h3 : AddressFamily ≠ AF_HYPERV := by rw [h2]; decide
      rw [if_pos h2]
      simp only [h1, false_and, false_or, h3, or_false]
      simp only [h2, true_and]
      cases H2AfdGetProtocolString.bth Protocol RawName <;>
        cases H2AfdGetProtocolString.hyperv Protocol RawName <;> simp [Option.orElse]
    · rw [if_neg h2]
      by_cases h3 : AddressFamily = AF_HYPERV
      · rw [if_pos h3]
        simp only [h1, h2, false_and, false_or]
        simp only [h3, true_and]
      · rw [if_neg h3]
        simp [h1, h2, h3]

/-- What the inner `switch` blocks of `H2AfdGetProtocolSummaryString` recognise. -/
theorem H2AfdGetProtocolSummaryString_blocks (Protocol : Int) :
    ((H2AfdGetProtocolSummaryString.inet Protocol).isSome = true ↔
      Protocol ∈ listedProtocolSummaries AF_INET) ∧
    ((H2AfdGetProtocolSummaryString.inet6 Protocol).isSome = true ↔
      Protocol ∈ listedProtocolSummaries AF_INET6) ∧
    ((H2AfdGetProtocolSummaryString.bth Protocol).isSome = true ↔
      Protocol ∈ listedProtocolSummaries AF_BTH) ∧
    ((H2AfdGetProtocolSummaryString.hyperv Protocol).isSome = true ↔
      Protocol ∈ listedProtocolSummaries AF_HYPERV) := by
  have h4 : ∀ p : Int, p ∈ listedProtocolSummaries AF_INET ↔
      (p = IPPROTO_ICMP ∨ p = IPPROTO_TCP ∨ p = IPPROTO_UDP ∨ p = IPPROTO_RAW) := by
    intro p
    simp [listedProtocolSummaries, AF_INET]
  have h6 : ∀ p : Int, p ∈ listedProtocolSummaries AF_INET6 ↔
      (p = IPPROTO_ICMPV6 ∨ p = IPPROTO_TCP ∨ p = IPPROTO_UDP ∨ p = IPPROTO_RAW) := by
    intro p
    simp [listedProtocolSummaries, AF_INET, AF_INET6]
  have hbth : ∀ p : Int, p ∈ listedProtocolSummaries AF_BTH ↔
      (p = BTHPROTO_RFCOMM ∨ p = BTHPROTO_L2CAP) := by
    intro p
    simp [listedProtocolSummaries, AF_INET, AF_INET6, AF_BTH]
  have hhv : ∀ p : Int, p ∈ listedProtocolSummaries AF_HYPERV ↔ p = HV_PROTOCOL_RAW := by
    intro p
    simp [listedProtocolSummaries, AF_INET, AF_INET6, AF_BTH, AF_HYPERV]
  rw [h4, h6, hbth, hhv]
  refine ⟨?_, ?_, ?_, ?_⟩
  · constructor
    · intro h
      by_contra hne
      simp only [not_or] at hne
      obtain ⟨h1, h2, h3, h4⟩ := hne
      simp [H2AfdGetProtocolSummaryString.inet, h1, h2, h3, h4] at h
    · rintro (h | h | h | h) <;> subst h <;> rfl
  · constructor
    · intro h
      by_contra hne
      simp only [not_or] at hne
      obtain ⟨h1, h2, h3, h4⟩ := hne
      simp [H2AfdGetProtocolSummaryString.inet6, h1, h2, h3, h4] at h
    · rintro (h | h | h | h) <;> subst h <;> rfl
  · constructor
    · intro h
      by_contra hne
      simp only [not_or] at hne
      simp [H2AfdGetProtocolSummaryString.bth, hne.1, hne.2] at h
    · rintro (h | h) <;> subst h <;> rfl
  · constructor
    · intro h
      by_contra hne
      simp [H2AfdGetProtocolSummaryString.hyperv, hne] at h
    · intro h
      subst h
      rfl

/-- C24 fails on the code. `H2AfdGetProtocolSummaryString(AF_INET, IPPROTO_ICMPV6)`
is not `NULL`: no label of the `AF_INET` block matches, no `break` follows the
inner `switch`, and control runs on into the block of `case AF_INET6`, which
returns the IPv6 label `ICMP6`.  In the same way `AF_INET` with protocol 3
gives the Bluetooth label of `BTHPROTO_RFCOMM`, and `AF_BTH` with protocol 1
the Hyper-V label.  In general the result is a summary exactly when the
protocol is listed under the given family or under a family whose `case`
label comes later. -/
theorem H2AfdGetProtocolSummaryString_falls_through :
    IPPROTO_ICMPV6 ∉ listedProtocolSummaries AF_INET ∧
    H2AfdGetProtocolSummaryString AF_INET IPPROTO_ICMPV6 = some "ICMP6" ∧
    H2AfdGetProtocolSummaryString AF_INET 3 = some "RFCOMM [Bluetooth]" ∧
    H2AfdGetProtocolSummaryString AF_INET6 0x100 = some "L2CAP [Bluetooth]" ∧
    H2AfdGetProtocolSummaryString AF_BTH 1 = some "Hyper-V RAW" ∧
    (∀ (AddressFamily Protocol : Int),
      (H2AfdGetProtocolSummaryString AddressFamily Protocol).isSome = true ↔
        AddressFamily = AF_INET ∧
          (Protocol ∈ listedProtocolSummaries AF_INET ∨
            Protocol ∈ listedProtocolSummaries AF_INET6 ∨
            Protocol ∈ listedProtocolSummaries AF_BTH ∨
            Protocol ∈ listedProtocolSummaries AF_HYPERV) ∨
        AddressFamily = AF_INET6 ∧
          (Protocol ∈ listedProtocolSummaries AF_INET6 ∨
            Protocol ∈ listedProtocolSummaries AF_BTH ∨
            Protocol ∈ listedProtocolSummaries AF_HYPERV) ∨
        AddressFamily = AF_BTH ∧
          (Protocol ∈ listedProtocolSummaries AF_BTH ∨
            Protocol ∈ listedProtocolSummaries AF_HYPERV) ∨
        AddressFamily = AF_HYPERV ∧ Protocol ∈ listedProtocolSummaries AF_HYPERV) := by
  refine ⟨by decide, rfl, rfl, rfl, rfl, ?_⟩
  intro AddressFamily Protocol
  have hb := H2AfdGetProtocolSummaryString_blocks Protocol
  rw [← hb.1, ← hb.2.1, ← hb.2.2.1, ← hb.2.2.2]
  unfold H2AfdGetProtocolSummaryString
  by_cases h1 : AddressFamily = AF_INET
  · have h2 : AddressFamily ≠ AF_INET6 := by rw [h1]; decide
    have h3 : AddressFamily ≠ AF_BTH := by rw [h1]; decide
    have h4 : AddressFamily ≠ AF_HYPERV := by rw [h1]; decide
    rw [if_pos h1]
    simp only [h2, h3, h4, false_and, or_false]
    simp only [h1, true_and]
    cases H2AfdGetProtocolSummaryString.inet Protocol <;>
      cases H2AfdGetProtocolSummaryString.inet6 Protocol <;>
      cases H2AfdGetProtocolSummaryString.bth Protocol <;>
      cases H2AfdGetProtocolSummaryString.hyperv Protocol <;> simp [Option.orElse]
  · rw [if_neg h1]
    by_cases h2 : AddressFamily = AF_INET6
    · have h3 : AddressFamily ≠ AF_BTH := by rw [h2]; decide
      have h4 : AddressFamily ≠ AF_HYPERV := by rw [h2]; decide
      rw [if_pos h2]
      simp only [h1, h3, h4, false_and, false_or, or_false]
      simp only [h2, true_and]
      cases H2AfdGetProtocolSummaryString.inet6 Protocol <;>
        cases H2AfdGetProtocolSummaryString.bth Protocol <;>
        cases H2AfdGetProtocolSummaryString.hyperv Protocol <;> simp [Option.orElse]
    · rw [if_neg h2]
      by_cases h3 : AddressFamily = AF_BTH
      · have h4 : AddressFamily ≠ AF_HYPERV := by rw [h3]; decide
        rw [if_pos h3]
        simp only [h1, h2, h4, false_and, false_or, or_false]
        simp only [h3, true_and]
        cases H2AfdGetProtocolSummaryString.bth Protocol <;>
          cases H2AfdGetProtocolSummaryString.hyperv Protocol <;> simp [Option.orElse]
      · rw [if_neg h3]
        by_cases h4 : AddressFamily = AF_HYPERV
        · rw [if_pos h4]
          simp only [h1, h2, h3, false_and, false_or]
          simp only [h4, true_and]
        · rw [if_neg h4]
          simp [h1, h2, h3, h4]

/-! ## The family of a returned address and the bounds of the legacy copy -/

/-- A `USHORT` read from a region that starts with a copy of at least two
bytes is read from the copied bytes. -/
theorem readUSHORT_copy (src rest : List Nat) (n : Nat) (hn : 2 ≤ n) (hsrc : 2 ≤ src.length) :
    readUSHORT (src.take n ++ rest) 0 = readUSHORT src 0 := by
  have hget : ∀ i, i < 2 → (src.take n ++ rest).getD i 0 = src.getD i 0 := by
    intro i hi
    rw [List.getD_eq_getElem?_getD, List.getD_eq_getElem?_getD,
      List.getElem?_append_left (by rw [List.length_take]; omega),
      List.getElem?_take_of_lt (by omega)]
  have h0 := hget 0 (by decide)
  have h1 := hget 1 (by decide)
  simp only [readUSHORT, h0, h1]

/-- The family of the address `H2AfdQueryAddress.decode` writes on success. -/
theorem H2AfdQueryAddress_decode_family (abi : AfdAbi) (status : NTSTATUS)
    (buffer Address : List Nat) (w : World)
    (hsize : 12 ≤ abi.sizeofAfdAddress) (hsize64 : abi.sizeofAfdAddress < 2 ^ 64)
    (hlen : abi.sizeofAfdAddress ≤ buffer.length)
    (hsuccess : NT_SUCCESS (H2AfdQueryAddress.decode abi status buffer Address w).status = true) :
    H2AfdIsSupportedAddressFamily
      (ssFamily (H2AfdQueryAddress.decode abi status buffer Address w).Address) = true := by
  unfold H2AfdQueryAddress.decode at hsuccess ⊢
  by_cases hfam : H2AfdIsSupportedAddressFamily (ssFamily buffer) = true
  · rw [if_pos hfam]
    simp only [RtlCopyMemory, ssFamily]
    rw [readUSHORT_copy buffer _ sizeofSockaddrStorage (by decide) (by omega)]
    exact hfam
  · rw [if_neg hfam] at hsuccess ⊢
    by_cases hvalid : legacyHeaderValid abi buffer = true
    · rw [if_pos hvalid]
      simp only [RtlCopyMemory, ssFamily]
      rw [readUSHORT_copy (buffer.drop offsetEmbeddedAddress) _ _
        (by unfold sizeofAddressType; omega)
        (by rw [List.length_drop]; unfold offsetEmbeddedAddress offsetAddressType; omega)]
      have hv := (legacyHeaderValid_iff abi buffer hsize hsize64).mp hvalid
      have hread : readUSHORT (buffer.drop offsetEmbeddedAddress) 0 = readUSHORT buffer 10 := by
        simp [readUSHORT, offsetEmbeddedAddress, offsetAddressType, List.getD_eq_getElem?_getD,
          List.getElem?_drop]
      rw [hread, H2AfdIsSupportedAddressFamily_iff]
      exact hv.2.2.2
    · rw [if_neg hvalid] at hsuccess
      simp only [STATUS_UNKNOWN_REVISION_not_success, Bool.false_eq_true] at hsuccess

/-- C25. Whenever `H2AfdQueryAddress` returns a success status, the family
field of the returned `Address` is `AF_INET`, `AF_INET6`, `AF_BTH` or
`AF_HYPERV`, on the direct path and on the legacy path alike, and
`H2AfdFormatAddress` on that address takes one of its four formatting
branches, not the one that returns `STATUS_UNKNOWN_REVISION`.
`sizeof(AFD_ADDRESS)` is at least 12 (the structure holds the legacy header). -/
theorem H2AfdQueryAddress_success_family (k : Kernel) (abi : AfdAbi) (w : World)
    (SocketHandle : Nat) (Remote : Bool) (Address : List Nat)
    (hsize : 12 ≤ abi.sizeofAfdAddress) (hsize64 : abi.sizeofAfdAddress < 2 ^ 64)
    (hsuccess : NT_SUCCESS (H2AfdQueryAddress k abi w SocketHandle Remote Address).status = true) :
    (ssFamily (H2AfdQueryAddress k abi w SocketHandle Remote Address).Address = AF_INET ∨
      ssFamily (H2AfdQueryAddress k abi w SocketHandle Remote Address).Address = AF_INET6 ∨
      ssFamily (H2AfdQueryAddress k abi w SocketHandle Remote Address).Address = AF_BTH ∨
      ssFamily (H2AfdQueryAddress k abi w SocketHandle Remote Address).Address = AF_HYPERV) ∧
    H2AfdFormatAddress.branch (H2AfdQueryAddress k abi w SocketHandle Remote Address).Address
      ≠ .STATUS_UNKNOWN_REVISION := by
  have hprobe : Remote = true →
      NT_SUCCESS (H2AfdQueryAddress.probe k abi w SocketHandle).status = false := by
    intro hr
    by_contra hp
    simp only [Bool.not_eq_false] at hp
    simp only [H2AfdQueryAddress, hr, if_true, hp, STATUS_NOT_FOUND_not_success,
      Bool.false_eq_true] at hsuccess
  rw [H2AfdQueryAddress_eq_finish k abi w SocketHandle Remote Address hprobe] at hsuccess ⊢
  have hlen := H2AfdQueryAddress_query_length k abi
    (H2AfdQueryAddress.worldAtQuery k abi w SocketHandle Remote) SocketHandle Remote
  unfold H2AfdQueryAddress.finish at hsuccess ⊢
  by_cases hq : NT_SUCCESS (H2AfdQueryAddress.query k abi
      (H2AfdQueryAddress.worldAtQuery k abi w SocketHandle Remote) SocketHandle Remote).status = true
  · simp only [hq, Bool.not_true, Bool.false_eq_true, if_false] at hsuccess ⊢
    have hfam := H2AfdQueryAddress_decode_family abi _ _ Address _ hsize hsize64 hlen hsuccess
    rw [H2AfdIsSupportedAddressFamily_iff] at hfam
    refine ⟨hfam, ?_⟩
    unfold H2AfdFormatAddress.branch
    rcases hfam with h | h | h | h <;> rw [h] <;> decide
  · simp only [Bool.not_eq_true] at hq
    simp only [hq, Bool.not_false, if_true] at hsuccess
    exact absurd hsuccess (by decide)

theorem H2AfdQueryAddress_success_family_witness :
    ssFamily (H2AfdQueryAddress (constKernel ⟨0, 0, 40, sampleTdiBytes⟩) sampleAbi
      World.initial 7 false staleAddress).Address = AF_BTH ∧
    H2AfdFormatAddress.branch (H2AfdQueryAddress (constKernel ⟨0, 0, 40, sampleTdiBytes⟩) sampleAbi
      World.initial 7 false staleAddress).Address ≠ .STATUS_UNKNOWN_REVISION :=
  have h := H2AfdQueryAddress_success_family (constKernel ⟨0, 0, 40, sampleTdiBytes⟩) sampleAbi
    World.initial 7 false staleAddress (by decide) (by decide) (by decide)
  ⟨by decide, h.2⟩

/-- C26. On the legacy path of `H2AfdQueryAddress`, whenever the four checks of
lines 410-413 pass on the buffer the query returned, the bound
`sizeof(buffer) - 12` of the length check is computed without wrap-around, and
the copy of `AddressLength + 2` bytes that starts at byte offset 10 ends at or
before the end of the buffer: `10 + AddressLength + 2 <= sizeof(buffer)`, and
every byte copied is a byte of the query buffer.  `sizeof(AFD_ADDRESS)` is at
least 12 (the structure holds the legacy header). -/
theorem H2AfdQueryAddress_legacy_copy_in_bounds (k : Kernel) (abi : AfdAbi) (w : World)
    (SocketHandle : Nat) (Remote : Bool) (buffer : List Nat)
    (hbuffer : (H2AfdQueryAddress.query k abi w SocketHandle Remote).output = some buffer)
    (hsize : 12 ≤ abi.sizeofAfdAddress) (hsize64 : abi.sizeofAfdAddress < 2 ^ 64)
    (hvalid : legacyHeaderValid abi buffer = true) :
    remainingCapacity abi + sizeofThroughAddressType = abi.sizeofAfdAddress ∧
    offsetEmbeddedAddress + (readUSHORT buffer offsetAddressLength + sizeofAddressType)
      ≤ abi.sizeofAfdAddress ∧
    readUSHORT buffer offsetAddressLength + sizeofAddressType < 2 ^ 64 ∧
    abi.sizeofAfdAddress ≤ buffer.length ∧
    ((buffer.drop offsetEmbeddedAddress).take
      (readUSHORT buffer offsetAddressLength + sizeofAddressType)).length =
        readUSHORT buffer offsetAddressLength + sizeofAddressType := by
  have hlen : abi.sizeofAfdAddress ≤ buffer.length := by
    have := H2AfdQueryAddress_query_length k abi w SocketHandle Remote
    rw [hbuffer] at this
    simpa using this
  have hcap := remainingCapacity_eq abi hsize hsize64
  have hv := (legacyHeaderValid_iff abi buffer hsize hsize64).mp hvalid
  have hbound := hv.2.2.1
  simp only [offsetEmbeddedAddress, offsetAddressType, offsetAddressLength, sizeofAddressType,
    sizeofThroughAddressType, hcap, List.length_take, List.length_drop]
  refine ⟨by omega, by omega, by omega, hlen, by omega⟩

theorem H2AfdQueryAddress_legacy_copy_in_bounds_witness :
    legacyHeaderValid sampleAbi (storeBytes sampleTdiBytes (List.replicate 144 0)) = true ∧
    offsetEmbeddedAddress + (readUSHORT (storeBytes sampleTdiBytes (List.replicate 144 0))
      offsetAddressLength + sizeofAddressType) ≤ sampleAbi.sizeofAfdAddress :=
  have h := H2AfdQueryAddress_legacy_copy_in_bounds (constKernel ⟨0, 0, 40, sampleTdiBytes⟩)
    sampleAbi World.initial 7 false (storeBytes sampleTdiBytes (List.replicate 144 0)) rfl
    (by decide) (by decide) (by decide)
  ⟨by decide, h.2.1⟩

/-! ## Object names -/

/-- The device name constant has the length of its characters. -/
theorem afdDeviceName_Length (abi : AfdAbi)
    (hname : sizeofWCHAR * abi.AFD_DEVICE_NAME.length < 65536) :
    (afdDeviceName abi).Length = sizeofWCHAR * abi.AFD_DEVICE_NAME.length ∧
    (afdDeviceName abi).Length / sizeofWCHAR = abi.AFD_DEVICE_NAME.length := by
  have h1 : (afdDeviceName abi).Length = sizeofWCHAR * abi.AFD_DEVICE_NAME.length := by
    simp only [afdDeviceName]
    exact Nat.mod_eq_of_lt hname
  refine ⟨h1, ?_⟩
  rw [h1]
  unfold sizeofWCHAR
  omega

/-- The prefix test of `H2AfdIsSocketObjectName` in the words of its description. -/
theorem RtlPrefixUnicodeString_afdDeviceName (k : Kernel) (abi : AfdAbi)
    (ObjectName : UNICODE_STRING)
    (hname : sizeofWCHAR * abi.AFD_DEVICE_NAME.length < 65536) :
    RtlPrefixUnicodeString k.RtlUpcaseUnicodeChar (afdDeviceName abi) ObjectName true = true ↔
      startsWithAfdDeviceName k abi ObjectName := by
  have hl := afdDeviceName_Length abi hname
  unfold RtlPrefixUnicodeString startsWithAfdDeviceName
  rw [hl.2, hl.1]
  simp only [Bool.and_eq_true, decide_eq_true_eq, List.all_eq_true, List.mem_range, if_true]
  have hbuf : ∀ i, i < abi.AFD_DEVICE_NAME.length →
      (afdDeviceName abi).Buffer.getD i 0 = abi.AFD_DEVICE_NAME.getD i 0 := by
    intro i hi
    simp only [afdDeviceName, List.getD_eq_getElem?_getD, List.getElem?_append_left hi]
  constructor
  · rintro ⟨h1, h2⟩
    refine ⟨h1, fun i hi => ?_⟩
    rw [← hbuf i hi]
    exact (h2 i hi).symm
  · rintro ⟨h1, h2⟩
    refine ⟨h1, fun i hi => ?_⟩
    rw [hbuf i hi]
    exact (h2 i hi).symm

/-- C29. `H2AfdIsSocketObjectName` returns `TRUE` if and only if the object
name starts with the AFD device name, compared case-insensitively, and either
has the length of the device name or has a path separator as its next
character.  The character after the prefix is read only when the prefix
matched and the lengths differ; the byte offset of that character is then
strictly below the `Length` of the name, and for a name of whole characters
(an even `Length`) its index is strictly below the number of characters of the
name. -/
theorem H2AfdIsSocketObjectName_iff (k : Kernel) (abi : AfdAbi) (ObjectName : UNICODE_STRING)
    (hname : sizeofWCHAR * abi.AFD_DEVICE_NAME.length < 65536) :
    (H2AfdIsSocketObjectName k abi ObjectName = true ↔
      startsWithAfdDeviceName k abi ObjectName ∧
      (ObjectName.Length = sizeofWCHAR * abi.AFD_DEVICE_NAME.length ∨
        ObjectName.Buffer.getD abi.AFD_DEVICE_NAME.length 0 = OBJ_NAME_PATH_SEPARATOR)) ∧
    (RtlPrefixUnicodeString k.RtlUpcaseUnicodeChar (afdDeviceName abi) ObjectName true = true →
      ObjectName.Length ≠ (afdDeviceName abi).Length →
        sizeofWCHAR * ((afdDeviceName abi).Length / sizeofWCHAR) < ObjectName.Length ∧
        (ObjectName.Length % sizeofWCHAR = 0 →
          (afdDeviceName abi).Length / sizeofWCHAR < ObjectName.Length / sizeofWCHAR)) := by
  have hl := afdDeviceName_Length abi hname
  have hp := RtlPrefixUnicodeString_afdDeviceName k abi ObjectName hname
  constructor
  · unfold H2AfdIsSocketObjectName
    rw [← hp, hl.2, hl.1]
    by_cases hstarts : RtlPrefixUnicodeString k.RtlUpcaseUnicodeChar (afdDeviceName abi)
        ObjectName true = true
    · rw [if_pos hstarts]
      by_cases hlen : ObjectName.Length = sizeofWCHAR * abi.AFD_DEVICE_NAME.length
      · simp [hlen, hstarts]
      · simp [hlen, hstarts]
    · rw [if_neg hstarts]
      simp [hstarts]
  · intro hstarts hne
    have hle := (hp.mp hstarts).1
    rw [hl.1] at hne
    rw [hl.2]
    unfold sizeofWCHAR at *
    refine ⟨by omega, fun heven => by omega⟩

theorem H2AfdIsSocketObjectName_iff_witness :
    H2AfdIsSocketObjectName (volumeKernel ⟨STATUS_SUCCESS, 0, []⟩) sampleAbi
      ⟨24, 24, [92, 100, 101, 118, 105, 99, 101, 92, 97, 102, 100, 92]⟩ = true ∧
    (afdDeviceName sampleAbi).Length / sizeofWCHAR < 24 / sizeofWCHAR :=
  have h := H2AfdIsSocketObjectName_iff (volumeKernel ⟨STATUS_SUCCESS, 0, []⟩) sampleAbi
    ⟨24, 24, [92, 100, 101, 118, 105, 99, 101, 92, 97, 102, 100, 92]⟩ (by decide)
  ⟨by decide, (h.2 (by decide) (by decide)).2 (by decide)⟩

/-! ## Numbers on the command line -/

/-- A number only grows when digits are appended. -/
theorem valueOfDigits_ge (base : Nat) (hbase : 1 ≤ base) (digits : List Nat) :
    ∀ start, start ≤ valueOfDigits base digits start := by
  induction digits with
  | nil => intro start; exact le_refl _
  | cons d ds ih =>
    intro start
    have h := ih (start * base + d)
    simp only [valueOfDigits, List.foldl_cons] at h ⊢
    have : start ≤ start * base := Nat.le_mul_of_pos_right start hbase
    omega

/-- The loop of `H2ParseInteger` on a run of digits: the number they denote when
it fits a `ULONG`, `STATUS_INTEGER_OVERFLOW` when it does not. -/
theorem H2ParseInteger_loop_digits (isHex : Bool) (cs ds : List Nat)
    (h : List.Forall₂ (fun c d => c ≠ 0 ∧ H2ParseInteger.current isHex c = some d) cs ds) :
    ∀ (status : NTSTATUS) (accumulated : Nat), accumulated ≤ UINT_MAX →
      H2ParseInteger.loop isHex cs status accumulated =
        if valueOfDigits (if isHex then 16 else 10) ds accumulated ≤ UINT_MAX then
          .ok (if cs = [] then status else STATUS_SUCCESS,
            valueOfDigits (if isHex then 16 else 10) ds accumulated)
        else .error STATUS_INTEGER_OVERFLOW := by
  have hbase : 1 ≤ (if isHex then 16 else 10 : Nat) := by cases isHex <;> decide
  induction h with
  | nil =>
    intro status accumulated hacc
    simp only [valueOfDigits, List.foldl_nil, hacc, if_true, H2ParseInteger.loop]
  | @cons c d cs ds hcd _ ih =>
    intro status accumulated hacc
    have hge := valueOfDigits_ge _ hbase ds (accumulated * (if isHex then 16 else 10) + d)
    have hvalue : valueOfDigits (if isHex then 16 else 10) (d :: ds) accumulated =
        valueOfDigits (if isHex then 16 else 10) ds
          (accumulated * (if isHex then 16 else 10) + d) := rfl
    rw [hvalue]
    unfold H2ParseInteger.loop
    rw [if_neg hcd.1]
    by_cases hmul : accumulated * (if isHex then 16 else 10) ≤ UINT_MAX
    · have hm : RtlUIntMult accumulated (if isHex then 16 else 10) =
          (STATUS_SUCCESS, accumulated * (if isHex then 16 else 10)) := by
        simp only [RtlUIntMult, hmul, if_true]
      simp only [hm, hcd.2]
      rw [if_neg (by decide)]
      by_cases hadd : accumulated * (if isHex then 16 else 10) + d ≤ UINT_MAX
      · have ha : RtlUIntAdd (accumulated * (if isHex then 16 else 10)) d =
            (STATUS_SUCCESS, accumulated * (if isHex then 16 else 10) + d) := by
          simp only [RtlUIntAdd, hadd, if_true]
        simp only [ha]
        rw [if_neg (by decide), ih STATUS_SUCCESS _ hadd]
        simp only [ite_self, reduceCtorEq, if_false]
      · have ha : RtlUIntAdd (accumulated * (if isHex then 16 else 10)) d =
            (STATUS_INTEGER_OVERFLOW, UINT_ERROR) := by
          simp only [RtlUIntAdd, hadd, if_false]
        simp only [ha]
        rw [if_pos (by decide), if_neg (by omega)]
    · have hm : RtlUIntMult accumulated (if isHex then 16 else 10) =
          (STATUS_INTEGER_OVERFLOW, UINT_ERROR) := by
        simp only [RtlUIntMult, hmul, if_false]
      simp only [hm]
      rw [if_pos (by decide), if_neg (by omega)]

/-- The loop of `H2ParseInteger` on characters that hold one that is no digit
of the base returns a failure from inside the loop. -/
theorem H2ParseInteger_loop_rejects (isHex : Bool) (cs : List Nat) :
    (∀ c ∈ cs, c ≠ 0) → (∃ c ∈ cs, H2ParseInteger.current isHex c = none) →
    ∀ (status : NTSTATUS) (accumulated : Nat),
      ∃ failure, H2ParseInteger.loop isHex cs status accumulated = .error failure ∧
        NT_SUCCESS failure = false := by
  induction cs with
  | nil =>
    intro _ hbad
    obtain ⟨c, hc, _⟩ := hbad
    exact absurd hc (List.not_mem_nil c)
  | cons c cs ih =>
    intro hzero hbad status accumulated
    have hc0 : c ≠ 0 := hzero c (List.mem_cons_self c cs)
    unfold H2ParseInteger.loop
    rw [if_neg hc0]
    by_cases hmul : NT_SUCCESS (RtlUIntMult accumulated (if isHex then 16 else 10)).1 = true
    · simp only [hmul, Bool.not_true, Bool.false_eq_true, if_false]
      cases hcur : H2ParseInteger.current isHex c with
      | none => exact ⟨STATUS_INVALID_PARAMETER, rfl, by decide⟩
      | some d =>
        simp only []
        by_cases hadd : NT_SUCCESS (RtlUIntAdd
            (RtlUIntMult accumulated (if isHex then 16 else 10)).2 d).1 = true
        · simp only [hadd, Bool.not_true, Bool.false_eq_true, if_false]
          apply ih (fun x hx => hzero x (List.mem_cons_of_mem c hx))
          obtain ⟨x, hx, hxbad⟩ := hbad
          rcases List.mem_cons.mp hx with hxc | hxcs
          · rw [hxc, hcur] at hxbad
            exact absurd hxbad (by simp)
          · exact ⟨x, hxcs, hxbad⟩
        · simp only [Bool.not_eq_true] at hadd
          simp only [hadd, Bool.not_false, if_true]
          exact ⟨_, rfl, hadd⟩
    · simp only [Bool.not_eq_true] at hmul
      simp only [hmul, Bool.not_false, if_true]
      exact ⟨_, rfl, hmul⟩

/-- A list of digits and the characters that spell them. -/
theorem forall₂_map_of_forall {α : Type} (P : Nat → Nat → Prop) (f g : α → Nat) (l : List α)
    (h : ∀ a ∈ l, P (f a) (g a)) : List.Forall₂ P (l.map f) (l.map g) := by
  induction l with
  | nil => exact List.Forall₂.nil
  | cons a l ih =>
    exact List.Forall₂.cons (h a (List.mem_cons_self a l))
      (ih (fun b hb => h b (List.mem_cons_of_mem a hb)))

/-- The digit `H2ParseInteger` reads from the character of a decimal digit. -/
theorem H2ParseInteger_current_decimalChar (isHex : Bool) (d : Nat) (hd : d < 10) :
    decimalChar d ≠ 0 ∧ H2ParseInteger.current isHex (decimalChar d) = some d := by
  unfold decimalChar H2ParseInteger.current
  refine ⟨by omega, ?_⟩
  rw [if_pos (by omega)]
  congr 1
  omega

/-- The digit `H2ParseInteger` reads from the character of a hexadecimal digit. -/
theorem H2ParseInteger_current_hexChar (p : Nat × Bool) (hp : p.1 < 16) :
    hexChar p ≠ 0 ∧ H2ParseInteger.current true (hexChar p) = some p.1 := by
  unfold hexChar H2ParseInteger.current
  by_cases h10 : p.1 < 10
  · rw [if_pos h10]
    refine ⟨by omega, ?_⟩
    rw [if_pos (by omega)]
    congr 1
    omega
  · rw [if_neg h10]
    cases p.2
    · simp only [Bool.false_eq_true, if_false]
      refine ⟨by omega, ?_⟩
      rw [if_neg (by omega), if_pos ⟨trivial, by omega, by omega⟩]
      congr 1
      omega
    · simp only [if_true]
      refine ⟨by omega, ?_⟩
      rw [if_neg (by omega), if_neg (by omega), if_pos ⟨trivial, by omega, by omega⟩]
      congr 1
      omega

/-- A string of decimal digits is not taken for a hexadecimal number. -/
theorem H2ParseInteger_isHex_decimal (ds : List Nat) (hds : ∀ d ∈ ds, d < 10) :
    H2ParseInteger.isHex (ds.map decimalChar) = false := by
  unfold H2ParseInteger.isHex
  have h1 : (ds.map decimalChar).getD 1 0 ≠ 120 ∧ (ds.map decimalChar).getD 1 0 ≠ 88 := by
    match ds, hds with
    | [], _ => exact ⟨by decide, by decide⟩
    | [_], _ => exact ⟨by simp, by simp⟩
    | _ :: d :: _, hds =>
      have hd : d < 10 := hds d (by simp)
      simp only [List.map_cons, List.getD_cons_succ, List.getD_cons_zero, decimalChar]
      omega
  simp only [h1.1, h1.2, decide_False, Bool.or_self, Bool.and_false]

/-- The run of `H2ParseInteger` on a string of decimal digits. -/
theorem H2ParseInteger_decimal (ds : List Nat) (Value : Nat) (hds : ∀ d ∈ ds, d < 10) :
    H2ParseInteger (ds.map decimalChar) Value =
      H2ParseInteger.finish
        (if valueOfDigits 10 ds 0 ≤ UINT_MAX then
          .ok (if ds.map decimalChar = [] then STATUS_INVALID_PARAMETER else STATUS_SUCCESS,
            valueOfDigits 10 ds 0)
        else .error STATUS_INTEGER_OVERFLOW) Value := by
  have hloop := H2ParseInteger_loop_digits false (ds.map decimalChar) ds
    (by
      have := forall₂_map_of_forall
        (fun c d => c ≠ 0 ∧ H2ParseInteger.current false c = some d) decimalChar id ds
        (fun d hd => H2ParseInteger_current_decimalChar false d (hds d hd))
      simpa using this)
    STATUS_INVALID_PARAMETER 0 (by decide)
  unfold H2ParseInteger
  simp only [H2ParseInteger_isHex_decimal ds hds, Bool.false_eq_true, if_false, List.drop_zero]
  rw [hloop]
  rfl

/-- The run of `H2ParseInteger` on a hexadecimal prefix followed by hexadecimal digits. -/
theorem H2ParseInteger_hexadecimal (x : Nat) (ds : List (Nat × Bool)) (Value : Nat)
    (hx : x = 120 ∨ x = 88) (hds : ∀ p ∈ ds, p.1 < 16) :
    H2ParseInteger (48 :: x :: ds.map hexChar) Value =
      H2ParseInteger.finish
        (if valueOfDigits 16 (ds.map Prod.fst) 0 ≤ UINT_MAX then
          .ok (if ds.map hexChar = [] then STATUS_INVALID_PARAMETER else STATUS_SUCCESS,
            valueOfDigits 16 (ds.map Prod.fst) 0)
        else .error STATUS_INTEGER_OVERFLOW) Value := by
  have hloop := H2ParseInteger_loop_digits true (ds.map hexChar) (ds.map Prod.fst)
    (forall₂_map_of_forall
      (fun c d => c ≠ 0 ∧ H2ParseInteger.current true c = some d) hexChar Prod.fst ds
      (fun p hp => H2ParseInteger_current_hexChar p (hds p hp)))
    STATUS_INVALID_PARAMETER 0 (by decide)
  have hhex : H2ParseInteger.isHex (48 :: x :: ds.map hexChar) = true := by
    rcases hx with h | h <;> subst h <;> rfl
  unfold H2ParseInteger
  simp only [hhex, if_true, List.drop_succ_cons, List.drop_zero]
  rw [hloop]
  rfl

/-- C22. `H2ParseInteger` converts every well-formed number in range: for a
non-empty string of decimal digits (leading zeros included) whose value is at
most `2^32 - 1` it returns `STATUS_SUCCESS` and stores the value; for `0x` or
`0X` followed by a non-empty sequence of hexadecimal digits, in upper or lower
case, whose value is at most `2^32 - 1` it returns `STATUS_SUCCESS` and stores
the value. -/
theorem H2ParseInteger_converts (Value : Nat) :
    (∀ ds : List Nat, ds ≠ [] → (∀ d ∈ ds, d < 10) → valueOfDigits 10 ds 0 ≤ 2 ^ 32 - 1 →
      H2ParseInteger (ds.map decimalChar) Value = ⟨STATUS_SUCCESS, valueOfDigits 10 ds 0⟩) ∧
    (∀ (x : Nat) (ds : List (Nat × Bool)), x = 120 ∨ x = 88 → ds ≠ [] → (∀ p ∈ ds, p.1 < 16) →
      valueOfDigits 16 (ds.map Prod.fst) 0 ≤ 2 ^ 32 - 1 →
      H2ParseInteger (48 :: x :: ds.map hexChar) Value =
        ⟨STATUS_SUCCESS, valueOfDigits 16 (ds.map Prod.fst) 0⟩) := by
  constructor
  · intro ds hne hds hvalue
    have hmax : valueOfDigits 10 ds 0 ≤ UINT_MAX := hvalue
    have hmap : ds.map decimalChar ≠ [] := by simpa using hne
    rw [H2ParseInteger_decimal ds Value hds, if_pos hmax, if_neg hmap]
    rfl
  · intro x ds hx hne hds hvalue
    have hmax : valueOfDigits 16 (ds.map Prod.fst) 0 ≤ UINT_MAX := hvalue
    have hmap : ds.map hexChar ≠ [] := by simpa using hne
    rw [H2ParseInteger_hexadecimal x ds Value hx hds, if_pos hmax, if_neg hmap]
    rfl

theorem H2ParseInteger_converts_witness :
    H2ParseInteger [48, 48, 52, 50, 57, 52, 57, 54, 55, 50, 57, 53] 7 =
      ⟨STATUS_SUCCESS, 4294967295⟩ ∧
    H2ParseInteger [48, 88, 50, 99, 56] 7 = ⟨STATUS_SUCCESS, 0x2c8⟩ :=
  have h := H2ParseInteger_converts 7
  ⟨h.1 [0, 0, 4, 2, 9, 4, 9, 6, 7, 2, 9, 5] (by decide) (by decide) (by decide),
    h.2 88 [(2, false), (12, false), (8, false)] (Or.inr rfl) (by decide) (by decide)
      (by decide)⟩

/-- C27. `H2ParseInteger` rejects every malformed or out-of-range input with a
failure status and leaves `*Value` as it was: the empty string and the bare
prefixes `0x` and `0X` give `STATUS_INVALID_PARAMETER`; a string with a
character that is no digit of the selected base (after the prefix, for a
hexadecimal string) gives a failure; a string of decimal digits, or a prefix
followed by hexadecimal digits, whose value exceeds `2^32 - 1` gives
`STATUS_INTEGER_OVERFLOW`, not a wrapped or truncated value; and whatever
the string, a failure status comes with `*Value` unwritten. -/
theorem H2ParseInteger_rejects (Value : Nat) :
    H2ParseInteger [] Value = ⟨STATUS_INVALID_PARAMETER, Value⟩ ∧
    H2ParseInteger [48, 120] Value = ⟨STATUS_INVALID_PARAMETER, Value⟩ ∧
    H2ParseInteger [48, 88] Value = ⟨STATUS_INVALID_PARAMETER, Value⟩ ∧
    NT_SUCCESS STATUS_INVALID_PARAMETER = false ∧
    (∀ String : List Nat, (∀ c ∈ String, c ≠ 0) →
      (∃ c ∈ String.drop (if H2ParseInteger.isHex String then 2 else 0),
        H2ParseInteger.current (H2ParseInteger.isHex String) c = none) →
      NT_SUCCESS (H2ParseInteger String Value).status = false ∧
      (H2ParseInteger String Value).Value = Value) ∧
    (∀ ds : List Nat, (∀ d ∈ ds, d < 10) → 2 ^ 32 - 1 < valueOfDigits 10 ds 0 →
      H2ParseInteger (ds.map decimalChar) Value = ⟨STATUS_INTEGER_OVERFLOW, Value⟩) ∧
    (∀ (x : Nat) (ds : List (Nat × Bool)), x = 120 ∨ x = 88 → (∀ p ∈ ds, p.1 < 16) →
      2 ^ 32 - 1 < valueOfDigits 16 (ds.map Prod.fst) 0 →
      H2ParseInteger (48 :: x :: ds.map hexChar) Value = ⟨STATUS_INTEGER_OVERFLOW, Value⟩) ∧
    NT_SUCCESS STATUS_INTEGER_OVERFLOW = false ∧
    (∀ String : List Nat, NT_SUCCESS (H2ParseInteger String Value).status = false →
      (H2ParseInteger String Value).Value = Value) := by
  refine ⟨rfl, rfl, rfl, by decide, ?_, ?_, ?_, by decide, ?_⟩
  · intro String hzero hbad
    obtain ⟨failure, hloop, hfailure⟩ := H2ParseInteger_loop_rejects
      (H2ParseInteger.isHex String) (String.drop (if H2ParseInteger.isHex String then 2 else 0))
      (fun c hc => hzero c (List.mem_of_mem_drop hc)) hbad STATUS_INVALID_PARAMETER 0
    unfold H2ParseInteger
    simp only [hloop, H2ParseInteger.finish]
    exact ⟨hfailure, trivial⟩
  · intro ds hds hvalue
    have hmax : ¬ valueOfDigits 10 ds 0 ≤ UINT_MAX := by
      unfold UINT_MAX
      omega
    rw [H2ParseInteger_decimal ds Value hds, if_neg hmax]
    rfl
  · intro x ds hx hds hvalue
    have hmax : ¬ valueOfDigits 16 (ds.map Prod.fst) 0 ≤ UINT_MAX := by
      unfold UINT_MAX
      omega
    rw [H2ParseInteger_hexadecimal x ds Value hx hds, if_neg hmax]
    rfl
  · intro String hfail
    unfold H2ParseInteger at hfail ⊢
    simp only [H2ParseInteger.finish] at hfail ⊢
    split at hfail
    · rfl
    · split at hfail
      · rename_i hs
        rw [hs] at hfail
        exact absurd hfail (by decide)
      · rename_i hs
        simp only [hs, Bool.false_eq_true, if_false]

theorem H2ParseInteger_rejects_witness :
    H2ParseInteger [52, 50, 57, 52, 57, 54, 55, 50, 57, 54] 7 = ⟨STATUS_INTEGER_OVERFLOW, 7⟩ ∧
    NT_SUCCESS (H2ParseInteger [49, 50, 97] 7).status = false ∧
    (H2ParseInteger [49, 50, 97] 7).Value = 7 :=
  have h := H2ParseInteger_rejects 7
  ⟨h.2.2.2.2.2.1 [4, 2, 9, 4, 9, 6, 7, 2, 9, 6] (by decide) (by decide),
    h.2.2.2.2.1 [49, 50, 97] (by decide) ⟨97, by decide, by decide⟩⟩

/-! ## The command line -/

/-- When the loop of `H2ParseArguments` runs to its end, the arguments are
well formed, and `status` is as it was unless one of them is `-p` or `-h`. -/
theorem H2ParseArguments_loop_ok (rt : ArgumentRuntime) :
    ∀ (n : Nat) (args : List (List Nat)), args.length ≤ n →
      ∀ (st r : ArgumentState), H2ParseArguments.loop rt args st = .ok r →
        wellFormedCommandLine rt args = true ∧
        (r.status = st.status ∨
          ∃ a ∈ args, rt.lstrcmpW a optionP = 0 ∨ rt.lstrcmpW a optionH = 0) := by
  intro n
  induction n with
  | zero =>
    intro args hlen st r h
    have hnil : args = [] := List.length_eq_zero.mp (Nat.le_zero.mp hlen)
    subst hnil
    simp only [H2ParseArguments.loop, Except.ok.injEq] at h
    exact ⟨rfl, Or.inl (by rw [h])⟩
  | succ n ih =>
    intro args hlen st r h
    match args, hlen, h with
    | [], _, h =>
      simp only [H2ParseArguments.loop, Except.ok.injEq] at h
      exact ⟨rfl, Or.inl (by rw [h])⟩
    | [arg], _, h =>
      simp only [H2ParseArguments.loop] at h
      split_ifs at h with hp hh hv
      simp only [Except.ok.injEq] at h
      refine ⟨by simp [wellFormedCommandLine, hp, hh, hv], Or.inl (by rw [← h])⟩
    | arg :: next :: rest, hlen, h =>
      have hrest : rest.length ≤ n := by
        simp only [List.length_cons] at hlen
        omega
      have hnext : (next :: rest).length ≤ n := by
        simp only [List.length_cons] at hlen ⊢
        omega
      simp only [H2ParseArguments.loop] at h
      by_cases hp : rt.lstrcmpW arg optionP = 0
      · have hmem : ∃ a ∈ arg :: next :: rest,
            rt.lstrcmpW a optionP = 0 ∨ rt.lstrcmpW a optionH = 0 :=
          ⟨arg, List.mem_cons_self _ _, Or.inl hp⟩
        have hwf : wellFormedCommandLine rt (arg :: next :: rest) =
            wellFormedCommandLine rt rest := by
          simp [wellFormedCommandLine, hp]
        rw [hwf]
        rw [if_pos hp] at h
        split_ifs at h
        · exact ⟨(ih rest hrest _ r h).1, Or.inr hmem⟩
        · exact ⟨(ih rest hrest _ r h).1, Or.inr hmem⟩
        · exact ⟨(ih rest hrest _ r h).1, Or.inr hmem⟩
      · rw [if_neg hp] at h
        by_cases hh : rt.lstrcmpW arg optionH = 0
        · have hmem : ∃ a ∈ arg :: next :: rest,
              rt.lstrcmpW a optionP = 0 ∨ rt.lstrcmpW a optionH = 0 :=
            ⟨arg, List.mem_cons_self _ _, Or.inr hh⟩
          have hwf : wellFormedCommandLine rt (arg :: next :: rest) =
              wellFormedCommandLine rt rest := by
            simp [wellFormedCommandLine, hh]
          rw [hwf]
          rw [if_pos hh] at h
          split_ifs at h
          exact ⟨(ih rest hrest _ r h).1, Or.inr hmem⟩
        · rw [if_neg hh] at h
          split_ifs at h with hv
          have hrec := ih (next :: rest) hnext _ r h
          refine ⟨by simp [wellFormedCommandLine, hp, hh, hv, hrec.1], ?_⟩
          rcases hrec.2 with hs | ⟨a, ha, hpa⟩
          · exact Or.inl hs
          · exact Or.inr ⟨a, List.mem_cons_of_mem _ ha, hpa⟩

/-- Without `-p` and `-h` among the arguments, the loop of `H2ParseArguments`
either returns `STATUS_INVALID_PARAMETER` or ends with `status` as it was. -/
theorem H2ParseArguments_loop_no_option (rt : ArgumentRuntime) :
    ∀ (args : List (List Nat)),
      (∀ a ∈ args, rt.lstrcmpW a optionP ≠ 0 ∧ rt.lstrcmpW a optionH ≠ 0) →
      ∀ st : ArgumentState,
        H2ParseArguments.loop rt args st = .error STATUS_INVALID_PARAMETER ∨
        ∃ r, H2ParseArguments.loop rt args st = .ok r ∧ r.status = st.status := by
  intro args
  induction args with
  | nil =>
    intro _ st
    exact Or.inr ⟨st, rfl, rfl⟩
  | cons arg rest ih =>
    intro hno st
    have harg := hno arg (List.mem_cons_self _ _)
    have hrest := ih (fun a ha => hno a (List.mem_cons_of_mem _ ha))
    cases rest with
    | nil =>
      simp only [H2ParseArguments.loop, harg.1, harg.2, if_false]
      split_ifs
      · exact Or.inr ⟨_, rfl, rfl⟩
      · exact Or.inl rfl
    | cons next rest =>
      simp only [H2ParseArguments.loop, harg.1, harg.2, if_false]
      split_ifs
      · exact hrest _
      · exact Or.inl rfl

/-- Every `return` from inside the loop of `H2ParseArguments` is a failure. -/
theorem H2ParseArguments_loop_error (rt : ArgumentRuntime) :
    ∀ (n : Nat) (args : List (List Nat)), args.length ≤ n →
      ∀ (st : ArgumentState) (status : NTSTATUS),
        H2ParseArguments.loop rt args st = .error status → NT_SUCCESS status = false := by
  intro n
  induction n with
  | zero =>
    intro args hlen st status h
    have hnil : args = [] := List.length_eq_zero.mp (Nat.le_zero.mp hlen)
    subst hnil
    simp only [H2ParseArguments.loop, reduceCtorEq] at h
  | succ n ih =>
    intro args hlen st status h
    match args, hlen, h with
    | [], _, h => simp only [H2ParseArguments.loop, reduceCtorEq] at h
    | [arg], _, h =>
      simp only [H2ParseArguments.loop] at h
      split_ifs at h <;> simp only [Except.error.injEq] at h <;> rw [← h] <;> decide
    | arg :: next :: rest, hlen, h =>
      have hrest : rest.length ≤ n := by
        simp only [List.length_cons] at hlen
        omega
      have hnext : (next :: rest).length ≤ n := by
        simp only [List.length_cons] at hlen ⊢
        omega
      simp only [H2ParseArguments.loop] at h
      by_cases hp : rt.lstrcmpW arg optionP = 0
      · rw [if_pos hp] at h
        by_cases hparsed : NT_SUCCESS (H2ParseInteger next st.value).status = true
        · rw [if_pos hparsed] at h
          by_cases hvalue : (H2ParseInteger next st.value).Value = 0
          · rw [if_pos hvalue] at h
            simp only [Except.error.injEq] at h
            rw [← h]
            decide
          · rw [if_neg hvalue] at h
            split_ifs at h
            · simp only [Except.error.injEq] at h
              rw [← h]
              decide
            · exact ih rest hrest _ status h
            · exact ih rest hrest _ status h
        · rw [if_neg hparsed] at h
          split_ifs at h with hup
          · simp only [Except.error.injEq] at h
            rw [← h]
            simpa using hup
          · exact ih rest hrest _ status h
      · rw [if_neg hp] at h
        by_cases hh : rt.lstrcmpW arg optionH = 0
        · rw [if_pos hh] at h
          split_ifs at h with hparsed hvalue
          · simp only [Except.error.injEq] at h
            rw [← h]
            simpa using hparsed
          · simp only [Except.error.injEq] at h
            rw [← h]
            decide
          · exact ih rest hrest _ status h
        · rw [if_neg hh] at h
          split_ifs at h
          · exact ih (next :: rest) hnext _ status h
          · simp only [Except.error.injEq] at h
            rw [← h]
            decide

/-- C28. `H2ParseArguments` returns a success status only for a well-formed
command line with at least one `-p` or `-h` among its arguments; without
`-p` and `-h` (no arguments, or `-v` flags only) it returns
`STATUS_INVALID_PARAMETER`.  Wherever the loop stands, an argument that is
none of `-p`, `-h`, `-v` and a last argument `-p` or `-h` make it return
`STATUS_INVALID_PARAMETER`, `-p 0` makes it return `STATUS_INVALID_CID` and
`-h 0` `STATUS_INVALID_HANDLE`; a `return` from inside the loop is the result
of the function.  On every failure `*ParsedArguments` is left as it was. -/
theorem H2ParseArguments_failures (rt : ArgumentRuntime) (ParsedArguments : H2_ARGUMENTS)
    (value : Nat) :
    (∀ argv, NT_SUCCESS (H2ParseArguments rt argv ParsedArguments value).status = true →
      wellFormedCommandLine rt (argv.drop 1) = true ∧
      ∃ a ∈ argv.drop 1, rt.lstrcmpW a optionP = 0 ∨ rt.lstrcmpW a optionH = 0) ∧
    (∀ argv, (∀ a ∈ argv.drop 1, rt.lstrcmpW a optionP ≠ 0 ∧ rt.lstrcmpW a optionH ≠ 0) →
      H2ParseArguments rt argv ParsedArguments value =
        ⟨STATUS_INVALID_PARAMETER, ParsedArguments⟩) ∧
    (∀ arg rest st, rt.lstrcmpW arg optionP ≠ 0 → rt.lstrcmpW arg optionH ≠ 0 →
      rt.lstrcmpW arg optionV ≠ 0 →
      H2ParseArguments.loop rt (arg :: rest) st = .error STATUS_INVALID_PARAMETER) ∧
    (∀ arg st, rt.lstrcmpW arg optionP = 0 ∨ rt.lstrcmpW arg optionH = 0 →
      H2ParseArguments.loop rt [arg] st = .error STATUS_INVALID_PARAMETER) ∧
    (∀ arg rest st, rt.lstrcmpW arg optionP = 0 →
      H2ParseArguments.loop rt (arg :: [48] :: rest) st = .error STATUS_INVALID_CID) ∧
    (∀ arg rest st, rt.lstrcmpW arg optionP ≠ 0 → rt.lstrcmpW arg optionH = 0 →
      H2ParseArguments.loop rt (arg :: [48] :: rest) st = .error STATUS_INVALID_HANDLE) ∧
    (∀ argv status,
      H2ParseArguments.loop rt (argv.drop 1) (ArgumentState.initial value) = .error status →
      H2ParseArguments rt argv ParsedArguments value = ⟨status, ParsedArguments⟩) ∧
    (∀ argv, NT_SUCCESS (H2ParseArguments rt argv ParsedArguments value).status = false →
      (H2ParseArguments rt argv ParsedArguments value).ParsedArguments = ParsedArguments) := by
  have hzero : ∀ v, H2ParseInteger [48] v = ⟨STATUS_SUCCESS, 0⟩ := fun _ => rfl
  refine ⟨?_, ?_, ?_, ?_, ?_, ?_, ?_, ?_⟩
  · intro argv hsuccess
    unfold H2ParseArguments at hsuccess
    cases hloop : H2ParseArguments.loop rt (argv.drop 1) (ArgumentState.initial value) with
    | error status =>
      rw [hloop] at hsuccess
      have hfail := H2ParseArguments_loop_error rt _ (argv.drop 1) (le_refl _) _ status hloop
      simp only [hfail, Bool.false_eq_true] at hsuccess
    | ok r =>
      rw [hloop] at hsuccess
      have hok := H2ParseArguments_loop_ok rt _ (argv.drop 1) (le_refl _) _ r hloop
      refine ⟨hok.1, ?_⟩
      rcases hok.2 with hs | hmem
      · exfalso
        by_cases hr : NT_SUCCESS r.status = true
        · have hinitial : NT_SUCCESS (ArgumentState.initial value).status = false := rfl
          rw [hs, hinitial] at hr
          exact Bool.false_ne_true hr
        · simp only [hr, Bool.false_eq_true, if_false] at hsuccess
      · exact hmem
  · intro argv hno
    unfold H2ParseArguments
    rcases H2ParseArguments_loop_no_option rt (argv.drop 1) hno (ArgumentState.initial value)
      with h | ⟨r, h, hs⟩
    · rw [h]
    · rw [h]
      have hr : r.status = STATUS_INVALID_PARAMETER := hs
      simp only [hr]
      rfl
  · intro arg rest st hp hh hv
    cases rest with
    | nil => simp only [H2ParseArguments.loop, hp, hh, hv, if_false]
    | cons next rest => simp only [H2ParseArguments.loop, hp, hh, hv, if_false]
  · intro arg st h
    by_cases hp : rt.lstrcmpW arg optionP = 0
    · simp only [H2ParseArguments.loop, hp, if_true]
    · have hh : rt.lstrcmpW arg optionH = 0 := h.resolve_left hp
      simp only [H2ParseArguments.loop, hp, hh, if_true, if_false]
  · intro arg rest st hp
    simp only [H2ParseArguments.loop, hp, if_true, hzero]
    rfl
  · intro arg rest st hp hh
    simp only [H2ParseArguments.loop, hp, hh, if_true, if_false, hzero]
    rfl
  · intro argv status h
    unfold H2ParseArguments
    rw [h]
  · intro argv hfail
    unfold H2ParseArguments at hfail ⊢
    cases hloop : H2ParseArguments.loop rt (argv.drop 1) (ArgumentState.initial value) with
    | error status => rfl
    | ok r =>
      rw [hloop] at hfail
      by_cases hr : NT_SUCCESS r.status = true
      · simp only [hr, if_true] at hfail
        exact absurd hfail (by decide)
      · simp only [hr, Bool.false_eq_true, if_false]

theorem H2ParseArguments_failures_witness :
    H2ParseArguments exactRuntime [programName, optionV, optionV] staleArguments 9 =
      ⟨STATUS_INVALID_PARAMETER, staleArguments⟩ ∧
    H2ParseArguments exactRuntime [programName, optionP, [48]] staleArguments 9 =
      ⟨STATUS_INVALID_CID, staleArguments⟩ :=
  have h := H2ParseArguments_failures exactRuntime staleArguments 9
  ⟨h.2.1 [programName, optionV, optionV] (by decide),
    h.2.2.2.2.2.2.1 [programName, optionP, [48]] STATUS_INVALID_CID
      (h.2.2.2.2.1 optionP [] (ArgumentState.initial 9) (by decide))⟩

/-! ## Status descriptions -/

/-- The second loop of `H2FindStatusDescription`, given a round for each
character, ends by its own test: it keeps the start of the string, only
shortens it, by whole characters, and stops below one character or at a last
character it does not trim. -/
theorem H2FindStatusDescription_trimEnd_spec :
    ∀ (fuel : Nat) (Message : UNICODE_STRING), Message.Length / sizeofWCHAR ≤ fuel →
      (H2FindStatusDescription.trimEnd fuel Message).Buffer = Message.Buffer ∧
      (H2FindStatusDescription.trimEnd fuel Message).MaximumLength = Message.MaximumLength ∧
      (H2FindStatusDescription.trimEnd fuel Message).Length ≤ Message.Length ∧
      (H2FindStatusDescription.trimEnd fuel Message).Length % sizeofWCHAR =
        Message.Length % sizeofWCHAR ∧
      ((H2FindStatusDescription.trimEnd fuel Message).Length < sizeofWCHAR ∨
        H2FindStatusDescription.isTrailing
          ((H2FindStatusDescription.trimEnd fuel Message).Buffer.getD
            ((H2FindStatusDescription.trimEnd fuel Message).Length / sizeofWCHAR - 1) 0)
          = false) := by
  intro fuel
  induction fuel with
  | zero =>
    intro Message hfuel
    simp only [H2FindStatusDescription.trimEnd]
    refine ⟨trivial, trivial, le_refl _, trivial, Or.inl ?_⟩
    unfold sizeofWCHAR at *
    omega
  | succ fuel ih =>
    intro Message hfuel
    unfold H2FindStatusDescription.trimEnd
    by_cases hcond : Message.Length ≥ sizeofWCHAR ∧ H2FindStatusDescription.isTrailing
        (Message.Buffer.getD (Message.Length / sizeofWCHAR - 1) 0) = true
    · rw [if_pos hcond]
      have hrec := ih { Message with Length := Message.Length - sizeofWCHAR } (by
        have := hcond.1
        unfold sizeofWCHAR at *
        simp only
        omega)
      obtain ⟨h1, h2, h3, h4, h5⟩ := hrec
      refine ⟨h1, h2, ?_, ?_, h5⟩
      · simp only at h3
        omega
      · simp only at h4
        have := hcond.1
        unfold sizeofWCHAR at *
        omega
    · rw [if_neg hcond]
      refine ⟨rfl, rfl, le_refl _, rfl, ?_⟩
      by_cases hlen : Message.Length ≥ sizeofWCHAR
      · right
        by_contra hne
        exact hcond ⟨hlen, by simpa using hne⟩
      · left
        omega

/-- The first loop of `H2FindStatusDescription` on a string of at most 65535
bytes: the start moves forward by some characters inside the string and the
two lengths shrink by as many, without wrap-around. -/
theorem H2FindStatusDescription_trimPrefix_spec (Message : UNICODE_STRING)
    (hlength : Message.Length < 65536) (hmax : Message.Length ≤ Message.MaximumLength)
    (hmax16 : Message.MaximumLength < 65536) :
    ∃ start,
      (H2FindStatusDescription.trimPrefix Message).Buffer = Message.Buffer.drop start ∧
      (H2FindStatusDescription.trimPrefix Message).Length + sizeofWCHAR * start
        = Message.Length ∧
      (H2FindStatusDescription.trimPrefix Message).MaximumLength + sizeofWCHAR * start
        = Message.MaximumLength := by
  unfold H2FindStatusDescription.trimPrefix
  by_cases hcond : Message.Length > sizeofWCHAR ∧ Message.Buffer.getD 0 0 = 123
  · rw [if_pos hcond]
    cases hfind : (List.range' 3 (Message.Length / sizeofWCHAR - 3)).find?
        (H2FindStatusDescription.isPrefixEnd Message.Buffer) with
    | none => exact ⟨0, by simp⟩
    | some prefixEnd =>
      have hmem := List.mem_of_find?_eq_some hfind
      rw [List.mem_range'_1] at hmem
      refine ⟨prefixEnd + 1, rfl, ?_, ?_⟩
      · simp only
        unfold sizeofWCHAR at *
        omega
      · simp only
        unfold sizeofWCHAR at *
        omega
  · rw [if_neg hcond]
    exact ⟨0, by simp⟩

/-- C30. For a well-formed entry of a message table (its `Length` covers the
header and the characters of the text, which hold at least the terminator):
when `H2FindStatusDescription` returns success, `Message` starts some
characters into the text of the entry and ends inside it, before the last
character of the text; its `Length` is a whole number of characters, not
above the length the text had before trimming, and is either zero or such
that the last character of `Message` is none of carriage return, line feed,
space, tab and NUL.  Both loops are bounded: the first runs over the indices
below `Length / sizeof(WCHAR)`, the second ends by its own test within one
round for each character. -/
theorem H2FindStatusDescription_trimmed (ld : Loader) (Status : NTSTATUS)
    (Message : UNICODE_STRING) (messageEntry : MESSAGE_RESOURCE_ENTRY)
    (hentry : (ld.RtlFindMessage (ld.LdrGetDllHandle (H2FindStatusDescription.dllName Status)).2
      RT_MESSAGETABLE 0 (H2FindStatusDescription.messageId Status)).2 = messageEntry)
    (hwell : messageEntry.wellFormed)
    (hsuccess : NT_SUCCESS (H2FindStatusDescription ld Status Message).status = true) :
    (H2FindStatusDescription ld Status Message).status = STATUS_SUCCESS ∧
    (∃ start,
      (H2FindStatusDescription ld Status Message).Message.Buffer = messageEntry.Text.drop start ∧
      sizeofWCHAR * start + (H2FindStatusDescription ld Status Message).Message.Length
        + sizeofWCHAR ≤ sizeofWCHAR * messageEntry.Text.length) ∧
    (H2FindStatusDescription ld Status Message).Message.Length % sizeofWCHAR = 0 ∧
    ((H2FindStatusDescription ld Status Message).Message.Length = 0 ∨
      ((H2FindStatusDescription ld Status Message).Message.Buffer.getD
        ((H2FindStatusDescription ld Status Message).Message.Length / sizeofWCHAR - 1) 0
          ∉ [13, 10, 32, 9, 0])) := by
  obtain ⟨hlen, htext, h16⟩ := hwell
  have hpoint : H2FindStatusDescription.point messageEntry =
      ⟨sizeofWCHAR * messageEntry.Text.length - sizeofWCHAR,
        sizeofWCHAR * messageEntry.Text.length, messageEntry.Text⟩ := by
    unfold H2FindStatusDescription.point
    simp only [UNICODE_STRING.mk.injEq, and_true]
    unfold offsetMessageText sizeofWCHAR at *
    omega
  have hresult : (H2FindStatusDescription ld Status Message) =
      ⟨STATUS_SUCCESS, H2FindStatusDescription.trimEnd
        ((H2FindStatusDescription.trimPrefix (H2FindStatusDescription.point messageEntry)).Length
          / sizeofWCHAR)
        (H2FindStatusDescription.trimPrefix (H2FindStatusDescription.point messageEntry))⟩ := by
    unfold H2FindStatusDescription at hsuccess ⊢
    simp only [hentry] at hsuccess ⊢
    by_cases h1 : NT_SUCCESS (ld.LdrGetDllHandle (H2FindStatusDescription.dllName Status)).1 = true
    · simp only [h1, Bool.not_true, Bool.false_eq_true, if_false] at hsuccess ⊢
      by_cases h2 : NT_SUCCESS (ld.RtlFindMessage
          (ld.LdrGetDllHandle (H2FindStatusDescription.dllName Status)).2 RT_MESSAGETABLE 0
          (H2FindStatusDescription.messageId Status)).1 = true
      · simp only [h2, Bool.not_true, Bool.false_eq_true, if_false] at hsuccess ⊢
        by_cases h3 : messageEntry.Flags &&& MESSAGE_RESOURCE_UNICODE = 0
        · rw [if_pos h3] at hsuccess
          have hno : NT_SUCCESS STATUS_NOT_SUPPORTED = false := by decide
          exact absurd (hsuccess.symm.trans hno) (by decide)
        · rw [if_neg h3]
      · simp only [Bool.not_eq_true] at h2
        simp only [h2, Bool.not_false, if_true] at hsuccess
        exact absurd hsuccess (by decide)
    · simp only [Bool.not_eq_true] at h1
      simp only [h1, Bool.not_false, if_true] at hsuccess
      exact absurd hsuccess (by decide)
  rw [hresult, hpoint]
  obtain ⟨start, hb, hl, _⟩ := H2FindStatusDescription_trimPrefix_spec
    ⟨sizeofWCHAR * messageEntry.Text.length - sizeofWCHAR,
      sizeofWCHAR * messageEntry.Text.length, messageEntry.Text⟩
    (by unfold offsetMessageText sizeofWCHAR at *; simp only; omega)
    (by unfold sizeofWCHAR; simp only; omega)
    (by unfold offsetMessageText sizeofWCHAR at *; simp only; omega)
  obtain ⟨e1, _, e3, e4, e5⟩ := H2FindStatusDescription_trimEnd_spec _
    (H2FindStatusDescription.trimPrefix
      ⟨sizeofWCHAR * messageEntry.Text.length - sizeofWCHAR,
        sizeofWCHAR * messageEntry.Text.length, messageEntry.Text⟩) (le_refl _)
  simp only at hb hl
  have heven : (H2FindStatusDescription.trimPrefix
      ⟨sizeofWCHAR * messageEntry.Text.length - sizeofWCHAR,
        sizeofWCHAR * messageEntry.Text.length, messageEntry.Text⟩).Length % sizeofWCHAR = 0 := by
    unfold sizeofWCHAR at *
    omega
  refine ⟨rfl, ⟨start, ?_, ?_⟩, ?_, ?_⟩
  · simp only [e1, hb]
  · simp only
    unfold sizeofWCHAR at *
    omega
  · simp only
    rw [e4]
    exact heven
  · simp only
    rcases e5 with hshort | hlast
    · left
      rw [heven] at e4
      unfold sizeofWCHAR at *
      omega
    · right
      intro hmem
      simp only [H2FindStatusDescription.isTrailing, Bool.or_eq_false_iff,
        decide_eq_false_iff_not] at hlast
      simp only [List.mem_cons, List.mem_singleton, List.mem_nil_iff, or_false] at hmem
      tauto

theorem H2FindStatusDescription_trimmed_witness :
    H2FindStatusDescription (textLoader sampleMessageText) STATUS_NOT_FOUND ⟨0, 0, []⟩ =
      ⟨STATUS_SUCCESS, ⟨6, 16, [78, 111, 46, 32, 13, 10, 0, 0]⟩⟩ ∧
    (H2FindStatusDescription (textLoader sampleMessageText) STATUS_NOT_FOUND
      ⟨0, 0, []⟩).Message.Length % sizeofWCHAR = 0 :=
  have h := H2FindStatusDescription_trimmed (textLoader sampleMessageText) STATUS_NOT_FOUND
    ⟨0, 0, []⟩ ⟨offsetMessageText + sizeofWCHAR * sampleMessageText.length, 1, sampleMessageText⟩
    rfl ⟨rfl, by decide, by decide⟩ (by decide)
  ⟨by decide, h.2.2.1⟩

end AfdSocketViewer
